import Mathlib

/-!
# Obstacle-avoiding car firmware: timing, PWM, echo ranging and navigation

A shallow embedding of the C sources of the firmware, followed by theorems
about it.  Machine integers are natural numbers reduced modulo their width
where the C code can wrap.  Module-level (`static`) variables become fields of
a state record that every operation takes and returns.  A C `double` is
modelled by a rational: every comparison the firmware makes on doubles is
exact.  The on-time of a PWM channel, whose stored integer depends on the
rounding of the two `double` operations that produce it, is computed with
binary64 rounding to nearest (`f64_round`); the other `double` expressions are
taken without rounding.
-/

namespace ObstacleCar

/-! ## Part I — definitions -/

/-! ### STD_LIB/std_types.h, STD_LIB/bit_math.h -/

/-- The constant `U8_ZERO_VALUE` of bit_math.h. -/
def U8_ZERO_VALUE : Nat := 0

/-- The constant `U8_ONE_VALUE` of bit_math.h. -/
def U8_ONE_VALUE : Nat := 1

/-- The constant `MAX_VALUE_UINT32` of std_types.h. -/
def MAX_VALUE_UINT32 : Nat := 4294967295

/-- Conversion of a non-negative integer value to `uint8_t`. -/
def to_u8 (n : Nat) : Nat := n % 256

/-- Conversion of a non-negative integer value to `uint16_t`. -/
def to_u16 (n : Nat) : Nat := n % 65536

/-- Conversion of a non-negative integer value to `uint32_t`. -/
def to_u32 (n : Nat) : Nat := n % 4294967296

/-- Conversion of a `double` to `uint16_t`: the fractional part is discarded
(truncation toward zero).  For a value whose integer part does not fit, C
leaves the result undefined; the model reduces the integer part modulo 2^16,
as the two's-complement conversion of the compiled code does. -/
def f64_to_u16 (x : ℚ) : Nat :=
  Int.toNat ((if 0 ≤ x then Int.floor x else Int.ceil x) % 65536)

/-- Rounding of a rational to the nearest integer, a tie going to the even
neighbour. -/
def round_half_even (m : ℚ) : ℤ :=
  let f := Int.floor m
  let r := m - (f : ℚ)
  if r < 1 / 2 then f
  else if 1 / 2 < r then f + 1
  else if f % 2 = 0 then f else f + 1

/-- The unit in the last place of the binary64 values of the binade of a
positive `x`: `2 ^ (e - 52)` for `2 ^ e ≤ x < 2 ^ (e + 1)`. -/
def f64_ulp (x : ℚ) : ℚ := (2 : ℚ) ^ (Int.log 2 x - 52)

/-- The result of a `double` operation whose exact value is `x`: the nearest
binary64 value (53 significant bits), ties to even.  The exponent range is
not bounded; the values the firmware computes are far from overflow and
underflow. -/
def f64_round (x : ℚ) : ℚ :=
  if 0 < x then (round_half_even (x / f64_ulp x) : ℚ) * f64_ulp x
  else if x < 0 then -((round_half_even (-x / f64_ulp (-x)) : ℚ) * f64_ulp (-x))
  else 0

/-! ### HAL/TIMING -/

/-- The constant `TIMING_MAX_SYS_TICK` of TIMING_interface.h. -/
def TIMING_MAX_SYS_TICK : Nat := 65535

/-- The constant `MCU_CLOCK` of TIMING_config.h. -/
def MCU_CLOCK : Nat := 16000000

/-- The enum `timing_enu_take_timestamp_state_t`. -/
inductive timing_enu_take_timestamp_state_t where
  | TIMING_CATCH
  | TIMING_NOT_CATCH
  deriving DecidableEq, Repr

/-- The enum `timing_enu_timeout_state_t`. -/
inductive timing_enu_timeout_state_t where
  | TIMING_TIME_OUT
  | TIMING_NOT_TIME_OUT
  deriving DecidableEq, Repr

open timing_enu_take_timestamp_state_t timing_enu_timeout_state_t

/-- The static variables of TIMING_prog.c used by the timeout service. -/
structure TimingState where
  /-- The tick counter `gs_u16_sys_tick` (a `uint16_t`). -/
  gs_u16_sys_tick : Nat
  /-- The handle flag `gs_enu_catch_state`. -/
  gs_enu_catch_state : timing_enu_take_timestamp_state_t
  /-- The captured tick `gs_u16_timestamp` (a `uint16_t`). -/
  gs_u16_timestamp : Nat
  deriving DecidableEq, Repr

/-- The initial values of the static variables of TIMING_prog.c. -/
def TimingState.init : TimingState :=
  { gs_u16_sys_tick := U8_ZERO_VALUE
    gs_enu_catch_state := TIMING_CATCH
    gs_u16_timestamp := U8_ZERO_VALUE }

/-- The timer-1 overflow handler `function_callback_1`: one more tick, in
16 bits.  (The reload of the hardware counter is not part of this state.) -/
def function_callback_1 (s : TimingState) : TimingState :=
  { s with gs_u16_sys_tick := to_u16 (s.gs_u16_sys_tick + 1) }

/-- The value `u16_actual_time` computed by `timing_time_out` (TIMING_prog.c
lines 198-202) from the captured timestamp and the copy of the tick counter. -/
def timing_actual_time (gs_u16_timestamp u16_systick_copy : Nat) : Nat :=
  if gs_u16_timestamp > u16_systick_copy then
    to_u16 ((TIMING_MAX_SYS_TICK - gs_u16_timestamp) + u16_systick_copy)
  else
    to_u16 (u16_systick_copy - gs_u16_timestamp)

/-- The function `timing_time_out` of TIMING_prog.c: the returned timeout state
and the static variables after the call. -/
def timing_time_out (copy_u16_time_out_sec : Nat) (s : TimingState) :
    timing_enu_timeout_state_t × TimingState :=
  -- capture branch / armed branch
  let s1 : TimingState :=
    if s.gs_enu_catch_state = TIMING_CATCH then
      { s with gs_u16_timestamp := s.gs_u16_sys_tick
               gs_enu_catch_state := TIMING_NOT_CATCH }
    else s
  let u16_systick_copy := s.gs_u16_sys_tick
  let u16_actual_time := timing_actual_time s1.gs_u16_timestamp u16_systick_copy
  if u16_actual_time ≥ copy_u16_time_out_sec then
    (TIMING_TIME_OUT,
      { s1 with gs_enu_catch_state := TIMING_CATCH
                gs_u16_timestamp := U8_ZERO_VALUE })
  else
    (TIMING_NOT_TIME_OUT, s1)

/-- The function `timing_break_time_out` of TIMING_prog.c. -/
def timing_break_time_out (s : TimingState) : TimingState :=
  { s with gs_enu_catch_state := TIMING_CATCH
           gs_u16_timestamp := U8_ZERO_VALUE }

/-! ### MCAL/DIO -/

/-- The enum `dio_enu_port_t`. -/
inductive dio_enu_port_t where
  | PORTA
  | PORTB
  | PORTC
  | PORTD
  deriving DecidableEq, Repr

/-- The enum `dio_enu_pin_t`. -/
inductive dio_enu_pin_t where
  | PIN0
  | PIN1
  | PIN2
  | PIN3
  | PIN4
  | PIN5
  | PIN6
  | PIN7
  deriving DecidableEq, Repr

/-- The integer value of a `dio_enu_pin_t` enumerator. -/
def dio_enu_pin_t.val : dio_enu_pin_t → Nat
  | .PIN0 => 0
  | .PIN1 => 1
  | .PIN2 => 2
  | .PIN3 => 3
  | .PIN4 => 4
  | .PIN5 => 5
  | .PIN6 => 6
  | .PIN7 => 7

/-- The enum `dio_enu_level_t`. -/
inductive dio_enu_level_t where
  | DIO_PIN_LOW_LEVEL
  | DIO_PIN_HIGH_LEVEL
  deriving DecidableEq, Repr

/-- The enum `dio_enu_return_state_t`. -/
inductive dio_enu_return_state_t where
  | DIO_OK
  | DIO_INVALID_PIN
  | DIO_INVALID_PORT
  deriving DecidableEq, Repr

/-- The enum `dio_u8_enu_direction_t`. -/
inductive dio_u8_enu_direction_t where
  | DIO_PIN_INPUT
  | DIO_PIN_OUTPUT
  deriving DecidableEq, Repr

/-- The integer value of a `dio_u8_enu_direction_t` enumerator. -/
def dio_u8_enu_direction_t.val : dio_u8_enu_direction_t → Nat
  | .DIO_PIN_INPUT => 0
  | .DIO_PIN_OUTPUT => 1

open dio_enu_port_t dio_enu_pin_t dio_enu_level_t dio_enu_return_state_t
open dio_u8_enu_direction_t

/-- The constant `DIO_MAX_PINS` of DIO_private_.h. -/
def DIO_MAX_PINS : Nat := 8

/-- The constant `U8_BIT_REG_MASK` of bit_math.h. -/
def U8_BIT_REG_MASK : Nat := 255

/-- The memory-mapped 8-bit registers of DIO_private_.h that the driver writes:
the four data-direction registers and the four output registers. -/
structure DioRegs where
  DATA_DIRECTION_PORTA : Nat
  DATA_DIRECTION_PORTB : Nat
  DATA_DIRECTION_PORTC : Nat
  DATA_DIRECTION_PORTD : Nat
  WR_PORT_A : Nat
  WR_PORT_B : Nat
  WR_PORT_C : Nat
  WR_PORT_D : Nat
  deriving DecidableEq, Repr

/-- The output register `WR_PORT_x` of a port. -/
def DioRegs.WR (r : DioRegs) : dio_enu_port_t → Nat
  | PORTA => r.WR_PORT_A
  | PORTB => r.WR_PORT_B
  | PORTC => r.WR_PORT_C
  | PORTD => r.WR_PORT_D

/-- The update `REG |= (1 << pin)` of an 8-bit register. -/
def set_bit_u8 (reg pin : Nat) : Nat := to_u8 (reg ||| (U8_ONE_VALUE <<< pin))

/-- The update `REG &= ~(1 << pin)` of an 8-bit register (the complement is taken within
the eight bits of the register). -/
def clear_bit_u8 (reg pin : Nat) : Nat :=
  to_u8 (reg &&& (U8_BIT_REG_MASK ^^^ (U8_ONE_VALUE <<< pin)))

/-- The function `DIO_init` of DIO_prog.c. -/
def DIO_init (copy_enu_port : dio_enu_port_t) (copy_enu_pin : dio_enu_pin_t)
    (copy_enu_direction : dio_u8_enu_direction_t) (r : DioRegs) :
    dio_enu_return_state_t × DioRegs :=
  let mask := copy_enu_direction.val <<< copy_enu_pin.val
  if copy_enu_pin.val < DIO_MAX_PINS then
    match copy_enu_port with
    | PORTA =>
      (DIO_OK, { r with DATA_DIRECTION_PORTA := to_u8 (r.DATA_DIRECTION_PORTA ||| mask) })
    | PORTB =>
      (DIO_OK, { r with DATA_DIRECTION_PORTB := to_u8 (r.DATA_DIRECTION_PORTB ||| mask) })
    | PORTC =>
      (DIO_OK, { r with DATA_DIRECTION_PORTC := to_u8 (r.DATA_DIRECTION_PORTC ||| mask) })
    | PORTD =>
      (DIO_OK, { r with DATA_DIRECTION_PORTD := to_u8 (r.DATA_DIRECTION_PORTD ||| mask) })
  else
    (DIO_INVALID_PIN, r)

/-- The function `DIO_write_pin` of DIO_prog.c. -/
def DIO_write_pin (copy_enu_port : dio_enu_port_t) (copy_enu_pin : dio_enu_pin_t)
    (copy_enu_state : dio_enu_level_t) (r : DioRegs) :
    dio_enu_return_state_t × DioRegs :=
  if copy_enu_pin.val < DIO_MAX_PINS then
    match copy_enu_port with
    | PORTA =>
      if copy_enu_state = DIO_PIN_HIGH_LEVEL then
        (DIO_OK, { r with WR_PORT_A := set_bit_u8 r.WR_PORT_A copy_enu_pin.val })
      else
        (DIO_OK, { r with WR_PORT_A := clear_bit_u8 r.WR_PORT_A copy_enu_pin.val })
    | PORTB =>
      if copy_enu_state = DIO_PIN_HIGH_LEVEL then
        (DIO_OK, { r with WR_PORT_B := set_bit_u8 r.WR_PORT_B copy_enu_pin.val })
      else
        (DIO_OK, { r with WR_PORT_B := clear_bit_u8 r.WR_PORT_B copy_enu_pin.val })
    | PORTC =>
      if copy_enu_state = DIO_PIN_HIGH_LEVEL then
        (DIO_OK, { r with WR_PORT_C := set_bit_u8 r.WR_PORT_C copy_enu_pin.val })
      else
        (DIO_OK, { r with WR_PORT_C := clear_bit_u8 r.WR_PORT_C copy_enu_pin.val })
    | PORTD =>
      if copy_enu_state = DIO_PIN_HIGH_LEVEL then
        (DIO_OK, { r with WR_PORT_D := set_bit_u8 r.WR_PORT_D copy_enu_pin.val })
      else
        (DIO_OK, { r with WR_PORT_D := clear_bit_u8 r.WR_PORT_D copy_enu_pin.val })
  else
    (DIO_INVALID_PIN, r)

/-- The level a pin is driven to: bit `pin` of the output register of its
port. -/
def pin_level (r : DioRegs) (port : dio_enu_port_t) (pin : dio_enu_pin_t) :
    dio_enu_level_t :=
  if (r.WR port).testBit pin.val then DIO_PIN_HIGH_LEVEL else DIO_PIN_LOW_LEVEL

/-! ### HAL/PWM -/

/-- The constant `PWMM_TO_CONVERT_TO_US` of PWM_interface.h. -/
def PWMM_TO_CONVERT_TO_US : Nat := 1000

/-- The constant `PWMM_TO_CONVERT_FROM_PRESENTAGE` of PWM_interface.h. -/
def PWMM_TO_CONVERT_FROM_PRESENTAGE : Nat := 100

/-- The constant `PWM_CHANNEL_MAX` of PWM_config.h. -/
def PWM_CHANNEL_MAX : Nat := 5

/-- The enum `pwm_enu_return_state_t`. -/
inductive pwm_enu_return_state_t where
  | PWM_OK
  | PWM_NOK
  deriving DecidableEq, Repr

/-- The enum `pwm_state_t`. -/
inductive pwm_state_t where
  | PWM_OFF
  | PWM_ON
  deriving DecidableEq, Repr

open pwm_enu_return_state_t pwm_state_t

/-- The struct `pwm_str_configuration_t`: `duty_cycle` is a `uint8_t`,
`frequency` and `pwm_tick_ss` are `uint32_t`, `t_on` and `cycle_duration` are
`uint16_t`. -/
structure pwm_str_configuration_t where
  enu_port_index : dio_enu_port_t
  enu_pin_index : dio_enu_pin_t
  duty_cycle : Nat
  frequency : Nat
  t_on : Nat
  cycle_duration : Nat
  pwm_state : pwm_state_t
  pwm_tick_ss : Nat
  deriving DecidableEq, Repr

/-- The state the PWM module works on: its static variables
(`gs_u8_pwm_channel_counter`, the pointer table `gs_arr_str_pwm_configuration`
of `PWM_CHANNEL_MAX` slots, `pwm_tick`), the channel objects its callers own,
by address (`mem`), and the DIO registers.  A pointer is `none` for NULL and
`some a` for the object at address `a`. -/
structure PwmState where
  gs_u8_pwm_channel_counter : Nat
  gs_arr_str_pwm_configuration : List (Option Nat)
  pwm_tick : Nat
  mem : Nat → pwm_str_configuration_t
  dio : DioRegs

/-- The initial values of the static variables of PWM_prog.c, over a given
memory and register contents. -/
def PwmState.init (mem : Nat → pwm_str_configuration_t) (dio : DioRegs) : PwmState :=
  { gs_u8_pwm_channel_counter := U8_ZERO_VALUE
    gs_arr_str_pwm_configuration := List.replicate PWM_CHANNEL_MAX none
    pwm_tick := 0
    mem := mem
    dio := dio }

/-- The assignment to `cycle_duration` in `pwm_init` and
`pwm_change_frequency_or_duty_cycle`: `1/(double)frequency*1000`, stored in a
`uint16_t`.  The quotient and the product are taken without rounding.  For
`frequency = 0` the C value is the conversion of an infinity, which is
undefined; the value of the model there (0) carries no meaning. -/
def pwm_cycle_duration (frequency : Nat) : Nat :=
  f64_to_u16 (1 / (frequency : ℚ) * (PWMM_TO_CONVERT_TO_US : ℚ))

/-- The assignment to `t_on` in `pwm_init` and
`pwm_change_frequency_or_duty_cycle`:
`(((double)duty_cycle)/100)*(cycle_duration)`, stored in a `uint16_t`.  The
quotient and the product are `double` operations, each rounded to binary64;
the conversions of the 8-bit duty cycle and of the 16-bit cycle duration to
`double` are exact. -/
def pwm_t_on (duty_cycle cycle_duration : Nat) : Nat :=
  f64_to_u16 (f64_round
    (f64_round ((duty_cycle : ℚ) / (PWMM_TO_CONVERT_FROM_PRESENTAGE : ℚ))
      * (cycle_duration : ℚ)))

/-- The function `pwm_init` of PWM_prog.c. -/
def pwm_init (ptr_str_pwm_configuration : Option Nat) (w : PwmState) :
    pwm_enu_return_state_t × PwmState :=
  match ptr_str_pwm_configuration with
  | none => (PWM_NOK, w)
  | some a =>
    let c := w.mem a
    let dio1 := (DIO_init c.enu_port_index c.enu_pin_index DIO_PIN_OUTPUT w.dio).2
    let cycle_duration := pwm_cycle_duration c.frequency
    let t_on := pwm_t_on c.duty_cycle cycle_duration
    let c1 := { c with cycle_duration := cycle_duration
                       t_on := t_on
                       pwm_state := PWM_OFF }
    (PWM_OK,
      { w with dio := dio1
               mem := Function.update w.mem a c1
               gs_arr_str_pwm_configuration :=
                 w.gs_arr_str_pwm_configuration.set w.gs_u8_pwm_channel_counter (some a) })

/-- The function `pwm_start` of PWM_prog.c. -/
def pwm_start (ptr_str_pwm_configuration : Option Nat) (w : PwmState) :
    pwm_enu_return_state_t × PwmState :=
  match ptr_str_pwm_configuration with
  | none => (PWM_NOK, w)
  | some a =>
    let c := w.mem a
    let dio1 := (DIO_write_pin c.enu_port_index c.enu_pin_index DIO_PIN_HIGH_LEVEL w.dio).2
    let c1 := { c with pwm_state := PWM_ON
                       pwm_tick_ss := w.pwm_tick }
    (PWM_OK, { w with dio := dio1, mem := Function.update w.mem a c1 })

/-- The value `actual_time` computed by `pwm_checking` (PWM_prog.c lines
118-123), in `uint32_t` arithmetic. -/
def pwm_actual_time (pwm_tick_ss pwm_tick_temp : Nat) : Nat :=
  if pwm_tick_ss > pwm_tick_temp then
    to_u32 (MAX_VALUE_UINT32 - pwm_tick_ss + pwm_tick_temp)
  else
    to_u32 (pwm_tick_temp - pwm_tick_ss)

/-- The function `pwm_checking` of PWM_prog.c. -/
def pwm_checking (ptr_str_pwm_configuration : Option Nat) (w : PwmState) :
    pwm_enu_return_state_t × PwmState :=
  match ptr_str_pwm_configuration with
  | none => (PWM_NOK, w)
  | some a =>
    let c := w.mem a
    let pwm_tick_temp := w.pwm_tick
    let actual_time := pwm_actual_time c.pwm_tick_ss pwm_tick_temp
    if c.t_on > actual_time then
      if c.pwm_state ≠ PWM_ON then
        (PWM_OK,
          { w with mem := Function.update w.mem a { c with pwm_state := PWM_ON }
                   dio := (DIO_write_pin c.enu_port_index c.enu_pin_index
                             DIO_PIN_HIGH_LEVEL w.dio).2 })
      else (PWM_OK, w)
    else if c.cycle_duration > actual_time then
      if c.pwm_state ≠ PWM_OFF then
        (PWM_OK,
          { w with mem := Function.update w.mem a { c with pwm_state := PWM_OFF }
                   dio := (DIO_write_pin c.enu_port_index c.enu_pin_index
                             DIO_PIN_LOW_LEVEL w.dio).2 })
      else (PWM_OK, w)
    else
      (PWM_OK, { w with mem := Function.update w.mem a { c with pwm_tick_ss := pwm_tick_temp } })

/-- The function `pwm_change_frequency_or_duty_cycle` of PWM_prog.c. -/
def pwm_change_frequency_or_duty_cycle (ptr_str_pwm_configuration : Option Nat)
    (w : PwmState) : pwm_enu_return_state_t × PwmState :=
  match ptr_str_pwm_configuration with
  | none => (PWM_NOK, w)
  | some a =>
    let c := w.mem a
    let cycle_duration := pwm_cycle_duration c.frequency
    let t_on := pwm_t_on c.duty_cycle cycle_duration
    (PWM_OK,
      { w with mem := Function.update w.mem a { c with cycle_duration := cycle_duration
                                                       t_on := t_on } })

/-- The function `pwm_stop` of PWM_prog.c. -/
def pwm_stop (ptr_str_pwm_configuration : Option Nat) (w : PwmState) :
    pwm_enu_return_state_t × PwmState :=
  match ptr_str_pwm_configuration with
  | none => (PWM_NOK, w)
  | some a =>
    let c := w.mem a
    let dio1 := (DIO_write_pin c.enu_port_index c.enu_pin_index DIO_PIN_LOW_LEVEL w.dio).2
    let c1 := { c with pwm_state := PWM_OFF
                       pwm_tick_ss := U8_ZERO_VALUE }
    (PWM_OK, { w with dio := dio1, mem := Function.update w.mem a c1 })

/-- The `for` loop of `pwm_tick_counter`, from index `u8_counter` on: it runs
while `u8_counter <= gs_u8_pwm_channel_counter` and
`gs_u8_pwm_channel_counter < PWM_CHANNEL_MAX`, so at most `PWM_CHANNEL_MAX`
times; `n` bounds the number of iterations left. -/
def pwm_tick_counter_loop : Nat → Nat → PwmState → PwmState
  | 0, _, w => w
  | n + 1, u8_counter, w =>
    if u8_counter ≤ w.gs_u8_pwm_channel_counter ∧
        w.gs_u8_pwm_channel_counter < PWM_CHANNEL_MAX then
      pwm_tick_counter_loop n (u8_counter + 1)
        (pwm_checking (w.gs_arr_str_pwm_configuration.getD u8_counter none) w).2
    else w

/-- The function `pwm_tick_counter` of PWM_prog.c, the per-tick callback. -/
def pwm_tick_counter (w : PwmState) : PwmState :=
  pwm_tick_counter_loop PWM_CHANNEL_MAX U8_ZERO_VALUE
    { w with pwm_tick := to_u32 (w.pwm_tick + 1) }

/-- All DIO registers cleared, as after reset. -/
def DioRegs.reset : DioRegs :=
  { DATA_DIRECTION_PORTA := 0, DATA_DIRECTION_PORTB := 0
    DATA_DIRECTION_PORTC := 0, DATA_DIRECTION_PORTD := 0
    WR_PORT_A := 0, WR_PORT_B := 0, WR_PORT_C := 0, WR_PORT_D := 0 }

/-- The channel object `gs_str_pwm_pin` of APP_prog.c as `APP_vidInit` fills it
in before `CAR_INIT`: 20 Hz, 30 %, pin 2 of port A; the other fields of the
static object are zero. -/
def gs_str_pwm_pin : pwm_str_configuration_t :=
  { enu_port_index := PORTA
    enu_pin_index := PIN2
    duty_cycle := 30
    frequency := 20
    t_on := 0
    cycle_duration := 0
    pwm_state := PWM_OFF
    pwm_tick_ss := 0 }

/-- A memory with the channel `gs_str_pwm_pin` at address 0 and, at every other
address, a second channel with the same settings on pin 5 of port A. -/
def two_channel_mem : Nat → pwm_str_configuration_t :=
  fun a => if a = 0 then gs_str_pwm_pin else { gs_str_pwm_pin with enu_pin_index := PIN5 }

/-- The PWM module before any call, over `two_channel_mem` and cleared
registers. -/
def pwm_power_on : PwmState := PwmState.init two_channel_mem DioRegs.reset

/-- The channel at address 0 registered with `pwm_init` and started with
`pwm_start` at tick 0, followed by 14 invocations of the tick callback: the
channel is still in its on-time (state `PWM_ON`, pin HIGH, `pwm_tick = 14`). -/
def pwm_running_14 : PwmState :=
  pwm_tick_counter^[14] (pwm_start (some 0) (pwm_init (some 0) pwm_power_on).2).2

/-- The state in which the 15th tick callback calls `pwm_checking` (the
callback has incremented `pwm_tick` to 15) when nothing else happened after
`pwm_running_14`. -/
def pwm_running_15 : PwmState :=
  { pwm_running_14 with pwm_tick := to_u32 (pwm_running_14.pwm_tick + 1) }

/-- The state in which the 15th tick callback calls `pwm_checking` when the
channel was registered a second time with `pwm_init` after `pwm_running_14`:
the second `pwm_init` has set the state to `PWM_OFF` while the pin is still
HIGH. -/
def pwm_reinitialised : PwmState :=
  { (pwm_init (some 0) pwm_running_14).2 with
    pwm_tick := to_u32 ((pwm_init (some 0) pwm_running_14).2.pwm_tick + 1) }

/-- Two distinct channels (addresses 0 and 1) registered one after the other
with `pwm_init`, then both started with `pwm_start`. -/
def pwm_two_registered : PwmState :=
  (pwm_start (some 1) (pwm_start (some 0)
    (pwm_init (some 1) (pwm_init (some 0) pwm_power_on).2).2).2).2

/-- A memory in which every address holds the application channel with its
frequency set to 0 and the durations left by an earlier configuration
(`t_on = 15`, `cycle_duration = 50`). -/
def zero_frequency_mem : Nat → pwm_str_configuration_t :=
  fun _ => { gs_str_pwm_pin with frequency := 0, t_on := 15, cycle_duration := 50 }

/-- The state in which the 15th tick callback calls `pwm_checking` when, after
`pwm_running_14`, the caller set the duty cycle of the channel to 50 and called
`pwm_change_frequency_or_duty_cycle` (as `CAR_CONTROL` does, but without the
`pwm_start` that follows there). -/
def pwm_reconfigured_15 : PwmState :=
  { (pwm_change_frequency_or_duty_cycle (some 0)
      { pwm_running_14 with
        mem := Function.update pwm_running_14.mem 0
          { pwm_running_14.mem 0 with duty_cycle := 50 } }).2 with
    pwm_tick := to_u32 (pwm_running_14.pwm_tick + 1) }

/-- The channel at address 0 registered with `pwm_init`, started with
`pwm_start` and stopped with `pwm_stop`, all at tick 0. -/
def pwm_stopped : PwmState :=
  (pwm_stop (some 0) (pwm_start (some 0) (pwm_init (some 0) pwm_power_on).2).2).2

/-! ### MCAL/EXTI and HAL/ULTRASONIC -/

/-- The enum `exti_edge_detection_t`. -/
inductive exti_edge_detection_t where
  | EXTI_LOW_LEVEL
  | EXTI_LOGICAL_CHANGE
  | EXTI_FALLING_EDGE
  | EXTI_RISING_EDGE
  deriving DecidableEq, Repr

open exti_edge_detection_t

/-- The constant `CONSTANT_TO_DISTANCE` of ULTRASONIC_interface.h, the decimal 0.0010718. -/
def CONSTANT_TO_DISTANCE : ℚ := 10718 / 10000000

/-- The variables of ULTRASONIC_prog.c together with the hardware the driver
touches.  `g_v_u16_ovfCounts` and `global_u32Ticks` are `uint32_t`,
`g_v_u16_ovf` is a `uint16_t`, `g_v_u8_flag` and `g_v_u8_cap` are `uint8_t`.
Timer 2 is represented by its counter register `TCNT2_ADD` and by whether its
clock-select bits are set (`timer2_clock_on`); external interrupt 1 by the
edge selected in `MCUCR` (`exti1_sense`) and its enable bit in `GICR`
(`exti1_enabled`).  `timer_configuration_2` is as `timing_init_2` leaves it
(normal mode, no prescaler, reload value 0). -/
structure UltrasonicState where
  g_v_u16_ovfCounts : Nat
  g_v_u16_ovf : Nat
  g_v_u8_flag : Nat
  g_v_u8_cap : Nat
  global_f64distance : ℚ
  global_u32Ticks : Nat
  TCNT2_ADD : Nat
  timer2_clock_on : Bool
  exti1_sense : exti_edge_detection_t
  exti1_enabled : Bool
  deriving DecidableEq

/-- The function `timing_start_2` of TIMING_prog.c (`timer2_start` on
`timer_configuration_2`): the counter is loaded with the reload value 0 and the
clock is switched on. -/
def timing_start_2 (s : UltrasonicState) : UltrasonicState :=
  { s with TCNT2_ADD := U8_ZERO_VALUE, timer2_clock_on := true }

/-- The function `timing_stop_2` of TIMING_prog.c (`timer2_stop`): the
clock-select bits are cleared. -/
def timing_stop_2 (s : UltrasonicState) : UltrasonicState :=
  { s with timer2_clock_on := false }

/-- The function `timing_get_ticks_2` of TIMING_prog.c (`timer2_get_tcnt`),
called with `&g_v_u8_cap`. -/
def timing_get_ticks_2 (s : UltrasonicState) : UltrasonicState :=
  { s with g_v_u8_cap := to_u8 s.TCNT2_ADD }

/-- The calls `extim_init(&cfg, HULTRASONIC_vidSigCalc); extim_enable(&cfg)`
made by `HULTRASONIC_vidSigCalc` for external interrupt 1 with the given edge:
`extim_init` disables the interrupt, registers the handler and selects the
edge; `extim_enable` enables it again. -/
def extim_init_enable_EXTI_1 (edge : exti_edge_detection_t) (s : UltrasonicState) :
    UltrasonicState :=
  { s with exti1_sense := edge, exti1_enabled := true }

/-- The timer-2 overflow callback `HULTRASONIC_vidTimerCBF`. -/
def HULTRASONIC_vidTimerCBF (s : UltrasonicState) : UltrasonicState :=
  { s with g_v_u16_ovfCounts := to_u32 (s.g_v_u16_ovfCounts + 1) }

/-- The edge handler `HULTRASONIC_vidSigCalc` of ULTRASONIC_prog.c. -/
def HULTRASONIC_vidSigCalc (s : UltrasonicState) : UltrasonicState :=
  if s.g_v_u8_flag = 0 then
    let s1 := { s with g_v_u8_flag := 1, g_v_u16_ovfCounts := 0 }
    let s2 := timing_start_2 s1
    extim_init_enable_EXTI_1 EXTI_FALLING_EDGE s2
  else if s.g_v_u8_flag = 1 then
    let s1 := timing_stop_2 s
    let s2 := timing_get_ticks_2 s1
    let s3 := { s2 with g_v_u16_ovf := to_u16 s2.g_v_u16_ovfCounts }
    let s4 := { s3 with global_u32Ticks := to_u32 (s3.g_v_u8_cap + 256 * s3.g_v_u16_ovf) }
    let s5 := { s4 with global_f64distance := (s4.global_u32Ticks : ℚ) * CONSTANT_TO_DISTANCE }
    let s6 := { s5 with g_v_u16_ovf := 0, g_v_u16_ovfCounts := 0, g_v_u8_flag := 0 }
    extim_init_enable_EXTI_1 EXTI_RISING_EDGE s6
  else s

/-- The function `HULTRASONIC_u8Read`: the value returned.  (The trigger pulse
it emits on the trigger pin first changes none of the variables of
`UltrasonicState`.) -/
def HULTRASONIC_u8Read (s : UltrasonicState) : ℚ := s.global_f64distance

/-- The function `HULTRASONIC_vidTrigger`: the trigger pin (`TRIG_PIN`, port B
pin 3) is driven high and, after `delay_10u`, low. -/
def HULTRASONIC_vidTrigger (r : DioRegs) : DioRegs :=
  (DIO_write_pin PORTB PIN3 DIO_PIN_LOW_LEVEL
    (DIO_write_pin PORTB PIN3 DIO_PIN_HIGH_LEVEL r).2).2

/-- The whole call `HULTRASONIC_u8Read()`: the value returned, the variables of
the driver after the call (the body assigns none of them) and the port
registers after the trigger pulse. -/
def HULTRASONIC_u8Read_call (s : UltrasonicState) (r : DioRegs) :
    ℚ × UltrasonicState × DioRegs :=
  let r1 := HULTRASONIC_vidTrigger r
  (s.global_f64distance, s, r1)

/-- The driver after `HULTRASONIC_vidInit` and `HULTRASONIC_vidInterruptEnable`:
variables zero, timer 2 stopped, interrupt 1 armed for a rising edge. -/
def UltrasonicState.init : UltrasonicState :=
  { g_v_u16_ovfCounts := 0, g_v_u16_ovf := 0, g_v_u8_flag := 0, g_v_u8_cap := 0
    global_f64distance := 0, global_u32Ticks := 0, TCNT2_ADD := 0
    timer2_clock_on := false, exti1_sense := EXTI_RISING_EDGE, exti1_enabled := true }

/-! ### APP -/

/-- The constant `APP_MAX_MEASURED_DIST` of APP_interface.h. -/
def APP_MAX_MEASURED_DIST : ℚ := 99

/-- The constant `APP_DISTANCE_70_CM` of APP_interface.h. -/
def APP_DISTANCE_70_CM : ℚ := 70

/-- The constant `APP_DISTANCE_30_CM` of APP_interface.h. -/
def APP_DISTANCE_30_CM : ℚ := 30

/-- The constant `APP_DISTANCE_20_CM` of APP_interface.h. -/
def APP_DISTANCE_20_CM : ℚ := 20

/-- The constant `APP_5_SEC_WITHOUT_OBSTACLES` of APP_interface.h. -/
def APP_5_SEC_WITHOUT_OBSTACLES : Nat := 5

/-- The constant `APP_2_SEC_TO_ROTATE` of APP_interface.h. -/
def APP_2_SEC_TO_ROTATE : Nat := 2

/-- The constant `APP_3_SEC_HOLD_MOVE` of APP_interface.h. -/
def APP_3_SEC_HOLD_MOVE : Nat := 3

/-- The constant `APP_CAR_SPEED_30_PRE` of APP_interface.h. -/
def APP_CAR_SPEED_30_PRE : Nat := 30

/-- The constant `APP_CAR_SPEED_50_PRE` of APP_interface.h. -/
def APP_CAR_SPEED_50_PRE : Nat := 50

/-- The constant `APP_MAX_CAR_ROTATE` of APP_interface.h. -/
def APP_MAX_CAR_ROTATE : Nat := 5

/-- The constant `MOTOR_TURN_RIGHT` of APP_prog.c. -/
def MOTOR_TURN_RIGHT : Nat := 0

/-- The constant `MOTOR_TURN_LEFT` of APP_prog.c. -/
def MOTOR_TURN_LEFT : Nat := 1

/-- The enum `en_motorSel_t`. -/
inductive en_motorSel_t where
  | EN_MOTOR_START
  | EN_MOTOR_STOP
  | EN_MOTOR_STOP_V2
  | EN_MOTOR_IDLE
  deriving DecidableEq, Repr

/-- The enum `en_Dist_states_t`. -/
inductive en_Dist_states_t where
  | OBSTACLE_IDLE
  | NO_OBSTACLES
  | OBSTACLE_70_30
  | OBSTACLE_30_20
  | OBSTACLE_LESS_20
  | OBSTACLE_HOLD_MOVING
  | NO_DECISION
  deriving DecidableEq, Repr

open en_motorSel_t en_Dist_states_t

/-- The function `APP_make_decision` of APP_prog.c, as the pair of values it
stores through `ptr_f_distination` and `ptr_enu_decision`, given the value
returned by `HULTRASONIC_u8Read`.  Every path of the function assigns both
targets. -/
def APP_make_decision (reading : ℚ) : ℚ × en_Dist_states_t :=
  let f_distination := if reading > APP_MAX_MEASURED_DIST then APP_MAX_MEASURED_DIST else reading
  let decision :=
    if f_distination > APP_DISTANCE_70_CM then NO_OBSTACLES
    else if f_distination > APP_DISTANCE_30_CM ∧ f_distination ≤ APP_DISTANCE_70_CM then
      OBSTACLE_70_30
    else if f_distination ≥ APP_DISTANCE_20_CM ∧ f_distination ≤ APP_DISTANCE_30_CM then
      OBSTACLE_30_20
    else if f_distination < APP_DISTANCE_20_CM then OBSTACLE_LESS_20
    else NO_DECISION
  (f_distination, decision)

/-- What the interrupt handlers and the input pins make visible to the
application.  The control loop reads three variables that handlers write: the
tick counter `gs_u16_sys_tick` (in `timing_time_out`), the published distance
`global_f64distance` (in `HULTRASONIC_u8Read`) and `en_motorSel` (in the loop
conditions); direction selection also reads the level of the button pin (with
`DIO_read_pin`, in `BTN_get_state`).  The `i`-th such read made by the
application, counted from zero over all four, sees the value given here at
index `i`.  An environment given without `button` has the button pin HIGH
(not pressed) at every read. -/
structure AppEnv where
  sys_tick : Nat → Nat
  distance : Nat → ℚ
  motorSel : Nat → en_motorSel_t
  button : Nat → dio_enu_level_t := fun _ => DIO_PIN_HIGH_LEVEL

/-- The calls to CAR_CONTROL made by the control loop. -/
inductive car_command where
  | CAR_FORWARD
  | CAR_BACKWARD
  | CAR_REVERSE_LEFT
  | CAR_REVERSE_RIGHT
  | CAR_STOP
  deriving DecidableEq, Repr

/-- The places of `APP_vidStart` that call `APP_make_decision`, by line of
APP_prog.c: the head of the control loop (213), the timed no-obstacle window
(231), the no-obstacle cruise loop (248), the far-band loop (267), the rotation
window (289), the re-sample after the rotation (292), the near-band loop (316)
and the sample after the hold wait (325). -/
inductive sample_site where
  | loop_head
  | no_obstacle_window
  | no_obstacle_cruise
  | far_band
  | rotate_window
  | after_rotate
  | near_band
  | after_hold
  deriving DecidableEq, Repr

/-- An observable action of the control loop: a call to CAR_CONTROL with the
duty cycle then held by `gs_str_pwm_pin`, or a call of `APP_make_decision` with
the band it stored. -/
inductive app_event where
  | car (c : car_command) (duty_cycle : Nat)
  | sample (site : sample_site) (band : en_Dist_states_t)
  deriving DecidableEq, Repr

open car_command sample_site

/-- The variables of APP_prog.c that the control loop of `APP_vidStart` works
on, together with the handle of the timeout service, the number `reads` of
reads of handler-written variables and of the button pin made so far, and
the record `trace` of the
actions taken so far, most recent first.  `reads` and `trace` are bookkeeping
of the model; the program has no such variables. -/
structure AppState where
  en_Dist_states : en_Dist_states_t
  gs_fl_dist : ℚ
  gs_u8_rotate_counter : Nat
  u8_g_dirStateCounter : Nat
  duty_cycle : Nat
  timing : TimingState
  reads : Nat
  trace : List app_event
  deriving DecidableEq

/-- The initial values of the variables of APP_prog.c, with the duty cycle set
by `APP_vidInit`. -/
def AppState.init : AppState :=
  { en_Dist_states := OBSTACLE_IDLE
    gs_fl_dist := 0
    gs_u8_rotate_counter := 1
    u8_g_dirStateCounter := MOTOR_TURN_RIGHT
    duty_cycle := APP_CAR_SPEED_30_PRE
    timing := TimingState.init
    reads := 0
    trace := [] }

/-- A call `APP_make_decision(&gs_fl_dist, &en_Dist_states)` at the given
place: the published distance is read and both variables are assigned. -/
def app_sample (env : AppEnv) (site : sample_site) (st : AppState) : AppState :=
  let r := APP_make_decision (env.distance st.reads)
  { st with gs_fl_dist := r.1
            en_Dist_states := r.2
            reads := st.reads + 1
            trace := app_event.sample site r.2 :: st.trace }

/-- A call `timing_time_out(d)` by the control loop: the tick counter has the
value the tick handler gave it by then. -/
def app_timing_time_out (env : AppEnv) (d : Nat) (st : AppState) :
    timing_enu_timeout_state_t × AppState :=
  let r := timing_time_out d { st.timing with gs_u16_sys_tick := env.sys_tick st.reads }
  (r.1, { st with timing := r.2, reads := st.reads + 1 })

/-- An evaluation of `en_motorSel == EN_MOTOR_START` by the control loop. -/
def app_motor_started (env : AppEnv) (st : AppState) : Bool × AppState :=
  (decide (env.motorSel st.reads = EN_MOTOR_START), { st with reads := st.reads + 1 })

/-- A call to CAR_CONTROL by the control loop. -/
def app_car (c : car_command) (st : AppState) : AppState :=
  { st with trace := app_event.car c st.duty_cycle :: st.trace }

/-- A loop `while((timing_time_out(d) == TIMING_NOT_TIME_OUT) &&
(en_motorSel == EN_MOTOR_START)) body` of `APP_vidStart`.  The first argument
of type `Nat` bounds the number of iterations; the result is `none` when the
loop has not ended within the bound. -/
def APP_timed_loop (env : AppEnv) (d : Nat) (body : AppState → AppState) :
    Nat → AppState → Option AppState
  | 0, _ => none
  | fuel + 1, st =>
    let r := app_timing_time_out env d st
    if r.1 = TIMING_NOT_TIME_OUT then
      let m := app_motor_started env r.2
      if m.1 then APP_timed_loop env d body fuel (body m.2) else some m.2
    else some r.2

/-- A loop `while((en_Dist_states == band) && (en_motorSel == EN_MOTOR_START))
body` of `APP_vidStart`, bounded like `APP_timed_loop`. -/
def APP_band_loop (env : AppEnv) (band : en_Dist_states_t) (body : AppState → AppState) :
    Nat → AppState → Option AppState
  | 0, _ => none
  | fuel + 1, st =>
    if st.en_Dist_states = band then
      let m := app_motor_started env st
      if m.1 then APP_band_loop env band body fuel (body m.2) else some m.2
    else some st

/-- Lines 275-282 of APP_prog.c, the start of the `OBSTACLE_30_20` branch: stop,
set the duty cycle to 30 %, then reverse towards the chosen side. -/
def APP_begin_rotation (st : AppState) : AppState :=
  let st1 := app_car CAR_STOP st
  let st2 := { st1 with duty_cycle := APP_CAR_SPEED_30_PRE }
  if st2.u8_g_dirStateCounter = MOTOR_TURN_LEFT then app_car CAR_REVERSE_LEFT st2
  else app_car CAR_REVERSE_RIGHT st2

/-- Lines 291-302 of APP_prog.c, the end of the `OBSTACLE_30_20` branch: stop,
re-sample, then count the rotation or reset the counter. -/
def APP_after_rotation (env : AppEnv) (st : AppState) : AppState :=
  let st1 := app_car CAR_STOP st
  let st2 := app_sample env after_rotate st1
  if st2.en_Dist_states = OBSTACLE_30_20 then
    let st3 := { st2 with gs_u8_rotate_counter := to_u8 (st2.gs_u8_rotate_counter + 1) }
    if st3.gs_u8_rotate_counter ≥ APP_MAX_CAR_ROTATE then
      { st3 with en_Dist_states := OBSTACLE_HOLD_MOVING }
    else st3
  else
    { st2 with gs_u8_rotate_counter := U8_ONE_VALUE }

/-- Lines 212-214 of APP_prog.c, the head of the control loop: a sample is taken
unless the rotation counter has reached `APP_MAX_CAR_ROTATE`.  The result is
the state whose band the branches of the loop body then handle. -/
def APP_loop_head (env : AppEnv) (st : AppState) : AppState :=
  if st.gs_u8_rotate_counter < APP_MAX_CAR_ROTATE then app_sample env loop_head st else st

/-- Lines 223-232 of APP_prog.c, the timed window of the `NO_OBSTACLES`
branch: until the no-obstacle duration has elapsed (or the motor is no longer
started) the car is driven forward at 30 % and a sample is taken. -/
def APP_no_obstacle_window (env : AppEnv) (fuel : Nat) (st : AppState) : Option AppState :=
  APP_timed_loop env APP_5_SEC_WITHOUT_OBSTACLES
    (fun s => app_sample env no_obstacle_window
      (app_car CAR_FORWARD { s with duty_cycle := APP_CAR_SPEED_30_PRE }))
    fuel st

/-- The body of the control loop `while(en_motorSel == EN_MOTOR_START)` of
`APP_vidStart` (APP_prog.c lines 211-328).  Output to the display is not
modelled.  `fuel` bounds each inner loop. -/
def APP_vidStart_loop_body (env : AppEnv) (fuel : Nat) (st : AppState) : Option AppState :=
  let st1 := APP_loop_head env st
  if st1.en_Dist_states = NO_OBSTACLES then
    (APP_no_obstacle_window env fuel st1).bind fun st2 =>
      if st2.en_Dist_states = NO_OBSTACLES then
        APP_band_loop env NO_OBSTACLES (app_sample env no_obstacle_cruise) fuel
          (app_car CAR_FORWARD { st2 with duty_cycle := APP_CAR_SPEED_50_PRE })
      else some st2
  else if st1.en_Dist_states = OBSTACLE_70_30 then
    APP_band_loop env OBSTACLE_70_30 (app_sample env far_band) fuel
      (app_car CAR_FORWARD { st1 with duty_cycle := APP_CAR_SPEED_30_PRE })
  else if st1.en_Dist_states = OBSTACLE_30_20 then
    (APP_timed_loop env APP_2_SEC_TO_ROTATE (app_sample env rotate_window) fuel
        (APP_begin_rotation st1)).bind
      fun st2 => some (APP_after_rotation env st2)
  else if st1.en_Dist_states = OBSTACLE_LESS_20 then
    APP_band_loop env OBSTACLE_LESS_20 (app_sample env near_band) fuel
      (app_car CAR_BACKWARD { st1 with duty_cycle := APP_CAR_SPEED_30_PRE })
  else if st1.en_Dist_states = OBSTACLE_HOLD_MOVING then
    (APP_timed_loop env APP_3_SEC_HOLD_MOVE id fuel st1).bind fun st2 =>
      some (app_sample env after_hold { st2 with gs_u8_rotate_counter := U8_ONE_VALUE })
  else some st1

/-- The first `n` iterations of the control loop
`while(en_motorSel == EN_MOTOR_START)` of `APP_vidStart`: the state at the head
of iteration `n`, or the state at which the loop was left earlier because the
motor was no longer started; `none` when an inner loop did not end within
`fuel` iterations. -/
def APP_vidStart_loop (env : AppEnv) (fuel : Nat) : Nat → AppState → Option AppState
  | 0, st => some st
  | n + 1, st =>
    let m := app_motor_started env st
    if m.1 then (APP_vidStart_loop_body env fuel m.2).bind (APP_vidStart_loop env fuel n)
    else some m.2

/-- The length of the current run of post-rotation re-samples (line 292) that
classified as `OBSTACLE_30_20`, read off a trace (most recent event first): the
run is ended by a post-rotation re-sample of another band and by the sample
taken when a hold wait ends; other events do not affect it. -/
def mid_resample_run : List app_event → Nat
  | [] => 0
  | app_event.sample after_rotate band :: rest =>
    if band = OBSTACLE_30_20 then mid_resample_run rest + 1 else 0
  | app_event.sample after_hold _ :: _ => 0
  | _ :: rest => mid_resample_run rest

/-- The relation between the rotation counter, the state and the trace that
holds at the head of every iteration of the control loop: the counter is one
more than the current run of `OBSTACLE_30_20` post-rotation re-samples, the run
is at most `APP_MAX_CAR_ROTATE - 1` long, and the state is
`OBSTACLE_HOLD_MOVING` exactly when the run has that length. -/
def APP_rotation_inv (st : AppState) : Prop :=
  st.gs_u8_rotate_counter = 1 + mid_resample_run st.trace ∧
  mid_resample_run st.trace ≤ APP_MAX_CAR_ROTATE - 1 ∧
  (st.en_Dist_states = OBSTACLE_HOLD_MOVING ↔
    mid_resample_run st.trace = APP_MAX_CAR_ROTATE - 1)

/-- An environment in which every reading is 25 cm, the motor stays started
and the tick counter advances by one between any two reads. -/
def env_always_25 : AppEnv :=
  { sys_tick := fun i => to_u16 i
    distance := fun _ => 25
    motorSel := fun _ => EN_MOTOR_START }

/-- The bands stored by the post-rotation re-samples (line 292) recorded in a
trace, most recent first. -/
def post_rotation_resamples : List app_event → List en_Dist_states_t
  | [] => []
  | app_event.sample after_rotate band :: rest => band :: post_rotation_resamples rest
  | _ :: rest => post_rotation_resamples rest

/-- The most recent call to CAR_CONTROL recorded in a trace (most recent event
first), if any. -/
def last_motion_command : List app_event → Option car_command
  | [] => none
  | app_event.car c _ :: _ => some c
  | _ :: rest => last_motion_command rest

/-- The relation `APP_rotation_inv` together with: when the state is
`OBSTACLE_HOLD_MOVING`, the most recent call to CAR_CONTROL was `CAR_STOP`. -/
def APP_hold_inv (st : AppState) : Prop :=
  APP_rotation_inv st ∧
  (st.en_Dist_states = OBSTACLE_HOLD_MOVING →
    last_motion_command st.trace = some CAR_STOP)

/-- An environment in which every reading is 25 cm except the one seen by the
read of index 8, which is 50 cm; the motor stays started and the tick counter
advances by one between any two reads.  From the initial state, the read of
index 6 is the re-sample after the first rotation and the read of index 8 is
the sample at the head of the second iteration of the control loop. -/
def env_far_between : AppEnv :=
  { sys_tick := fun i => to_u16 i
    distance := fun i => if i = 8 then 50 else 25
    motorSel := fun _ => EN_MOTOR_START }

/-- The enum `timing_enu_return_state_t`. -/
inductive timing_enu_return_state_t where
  | TIMING_OK
  | TIMING_NOK
  deriving DecidableEq, Repr

/-- The enum `timer_mode_t`. -/
inductive timer_mode_t where
  | TIMER_MODE_NORMAL
  | TIMER_MODE_PWM
  | TIMER_MODE_CTC
  deriving DecidableEq, Repr

/-- The enum `timer_prescaller_t`. -/
inductive timer_prescaller_t where
  | TIMER_STOP
  | TIMER_PRESCALLER_0
  | TIMER_PRESCALLER_8
  | TIMER_PRESCALLER_64
  | TIMER_PRESCALLER_256
  | TIMER_PRESCALLER_1024
  | TIMER_EXT_CLK_FALLING_EDGE
  | TIMER_EXT_CLK_RISING_EDGE
  deriving DecidableEq, Repr

open timing_enu_return_state_t timer_mode_t timer_prescaller_t

/-- The numeric value of a `timer_mode_t`. -/
def timer_mode_t.val : timer_mode_t → Nat
  | TIMER_MODE_NORMAL => 0
  | TIMER_MODE_PWM => 1
  | TIMER_MODE_CTC => 2

/-- The constants of TIMER_interface.h and TIMING_interface.h used by
`timing_init_1`, and the bit numbers of TIMER_private.h used by
`timer1_initialization`. -/
def TIMER_OVERFLOW_INTERRUPT_ENABLE : Nat := 1
def TIMING_PRESCALLER_1024 : Nat := 1024
def TIMING_MAX_U16_VALUE : Nat := 65536
def TIMING_1000_TO_CONVERT_TO_MS : Nat := 1000
def TIMING_1_SEC_VALUE_IN_MS : Nat := 1000
def WGM10_BIT : Nat := 0
def WGM11_BIT : Nat := 1
def TOIE1_BIT : Nat := 2
def OCIE1A_BIT : Nat := 4

/-- The struct `timer_configuration_t`; the two interrupt fields are one-bit
bit-fields. -/
structure timer_configuration_t where
  timer_mode : timer_mode_t
  timer_prescaller : timer_prescaller_t
  OCR : Nat
  timer_oc_interrupt : Nat
  timer_of_interrupt : Nat
  deriving DecidableEq, Repr

/-- The handlers that TIMING_prog.c registers with the timer driver, as values
of the function pointers. -/
inductive timing_handler_t where
  | ptr_function_callback
  | ptr_function_callback_1
  deriving DecidableEq, Repr

open timing_handler_t

/-- The global `timer_configuration_1` of TIMING_prog.c, the static pointer
`timer1_callback_OVF` of TIMER_prog.c (`none` is NULL) and the registers that
`timer1_initialization` writes, with the global interrupt flag set by `sei()`. -/
structure Timer1State where
  timer_configuration_1 : timer_configuration_t
  timer1_callback_OVF : Option timing_handler_t
  TCNT1_ADD : Nat
  TCCR1A_ADD : Nat
  TIMSK_ADD : Nat
  global_interrupt : Bool
  deriving DecidableEq, Repr

/-- The state at power-on: zero-initialised globals and cleared registers. -/
def Timer1State.init : Timer1State :=
  { timer_configuration_1 :=
      { timer_mode := TIMER_MODE_NORMAL, timer_prescaller := TIMER_STOP, OCR := 0
        timer_oc_interrupt := 0, timer_of_interrupt := 0 }
    timer1_callback_OVF := none
    TCNT1_ADD := 0, TCCR1A_ADD := 0, TIMSK_ADD := 0, global_interrupt := false }

/-- The function `timer1_initialize_callback_OVF` of TIMER_prog.c called with a
non-NULL handler. -/
def timer1_initialize_callback_OVF (ptr_func : timing_handler_t) (s : Timer1State) :
    Timer1State :=
  { s with timer1_callback_OVF := some ptr_func }

/-- The function `timer1_initialization` of TIMER_prog.c called with
`&timer_configuration_1`. -/
def timer1_initialization (s : Timer1State) : Timer1State :=
  let cfg := s.timer_configuration_1
  let s1 := { s with TCNT1_ADD := 0 }
  let s2 := { s1 with TCCR1A_ADD := to_u8 (s1.TCCR1A_ADD ||| ((1 &&& cfg.timer_mode.val) <<< WGM10_BIT)) }
  let s3 := { s2 with TCCR1A_ADD := to_u8 (s2.TCCR1A_ADD ||| ((cfg.timer_mode.val >>> 1) <<< WGM11_BIT)) }
  if cfg.timer_mode = TIMER_MODE_NORMAL then
    let bits := (cfg.timer_oc_interrupt <<< OCIE1A_BIT) ||| (cfg.timer_of_interrupt <<< TOIE1_BIT)
    let s4 := { s3 with TIMSK_ADD := to_u8 (s3.TIMSK_ADD ||| bits) }
    if cfg.timer_of_interrupt = U8_ONE_VALUE ∨ cfg.timer_oc_interrupt = U8_ONE_VALUE then
      { s4 with global_interrupt := true }
    else s4
  else s3

/-- The value of the local `cycle_time` of `timing_init_1`: the prescaler
divided by the integer quotient `MCU_CLOCK / 1000`. -/
def timing_init_1_cycle_time : ℚ :=
  (TIMING_PRESCALLER_1024 : ℚ) / ((MCU_CLOCK / TIMING_1000_TO_CONVERT_TO_MS : ℕ) : ℚ)

/-- The `double` that `timing_init_1` converts to the 16-bit `timer_init_value`
(line 139), in exact arithmetic. -/
def timing_init_1_reload (u16_time_ms : Nat) : ℚ :=
  (TIMING_MAX_U16_VALUE : ℚ) - (u16_time_ms : ℚ) / timing_init_1_cycle_time

/-- The function `timing_init_1` of TIMING_prog.c. -/
def timing_init_1 (u16_time_ms : Nat) (s : Timer1State) :
    timing_enu_return_state_t × Timer1State :=
  let timer_init_value := f64_to_u16 (timing_init_1_reload u16_time_ms)
  if u16_time_ms < TIMING_1_SEC_VALUE_IN_MS then
    (TIMING_NOK, s)
  else
    let cfg := { s.timer_configuration_1 with
                  OCR := timer_init_value
                  timer_mode := TIMER_MODE_NORMAL
                  timer_prescaller := TIMER_PRESCALLER_1024
                  timer_of_interrupt := TIMER_OVERFLOW_INTERRUPT_ENABLE }
    let s1 := { s with timer_configuration_1 := cfg }
    let s2 := timer1_initialize_callback_OVF ptr_function_callback_1 s1
    (TIMING_OK, timer1_initialization s2)

/-! ### HAL/MOTOR and HAL/CAR_CONTROL -/

/-- The struct `motor_str_config_t`. -/
structure motor_str_config_t where
  port : dio_enu_port_t
  pin_num1 : dio_enu_pin_t
  pin_num2 : dio_enu_pin_t
  deriving DecidableEq, Repr

/-- The enum `motor_enu_return_state_t`. -/
inductive motor_enu_return_state_t where
  | MOTOR_OK
  | MOTOR_NOK
  deriving DecidableEq, Repr

/-- The enum `car_enu_return_state_t`. -/
inductive car_enu_return_state_t where
  | CAR_OK
  | CAR_NOK
  | CAR_NULL_PTR
  deriving DecidableEq, Repr

open motor_enu_return_state_t car_enu_return_state_t

/-- The function `MOTOR_INIT` of MOTOR_porg.c. -/
def MOTOR_INIT (cfg : motor_str_config_t) (r : DioRegs) :
    motor_enu_return_state_t × DioRegs :=
  let p1 := DIO_init cfg.port cfg.pin_num1 DIO_PIN_OUTPUT r
  let p2 := DIO_init cfg.port cfg.pin_num2 DIO_PIN_OUTPUT p1.2
  if p1.1 = DIO_OK ∧ p2.1 = DIO_OK then (MOTOR_OK, p2.2) else (MOTOR_NOK, p2.2)

/-- The function `MOTOR_FORWARD` of MOTOR_porg.c. -/
def MOTOR_FORWARD (cfg : motor_str_config_t) (r : DioRegs) :
    motor_enu_return_state_t × DioRegs :=
  let p1 := DIO_write_pin cfg.port cfg.pin_num1 DIO_PIN_HIGH_LEVEL r
  let p2 := DIO_write_pin cfg.port cfg.pin_num2 DIO_PIN_LOW_LEVEL p1.2
  if p1.1 = DIO_OK ∧ p2.1 = DIO_OK then (MOTOR_OK, p2.2) else (MOTOR_NOK, p2.2)

/-- The function `MOTOR_BACKWARD` of MOTOR_porg.c. -/
def MOTOR_BACKWARD (cfg : motor_str_config_t) (r : DioRegs) :
    motor_enu_return_state_t × DioRegs :=
  let p1 := DIO_write_pin cfg.port cfg.pin_num1 DIO_PIN_LOW_LEVEL r
  let p2 := DIO_write_pin cfg.port cfg.pin_num2 DIO_PIN_HIGH_LEVEL p1.2
  if p1.1 = DIO_OK ∧ p2.1 = DIO_OK then (MOTOR_OK, p2.2) else (MOTOR_NOK, p2.2)

/-- The function `MOTOR_STOP` of MOTOR_porg.c. -/
def MOTOR_STOP (cfg : motor_str_config_t) (r : DioRegs) :
    motor_enu_return_state_t × DioRegs :=
  let p1 := DIO_write_pin cfg.port cfg.pin_num1 DIO_PIN_LOW_LEVEL r
  let p2 := DIO_write_pin cfg.port cfg.pin_num2 DIO_PIN_LOW_LEVEL p1.2
  if p1.1 = DIO_OK ∧ p2.1 = DIO_OK then (MOTOR_OK, p2.2) else (MOTOR_NOK, p2.2)

/-- What the functions of CAR_CONTROL_prog.c work on: the PWM module with the
port registers, and whether the tick timer of the PWM module (timer 0) has
been configured and started by `pwm_start_tick`. -/
structure CarState where
  pwm : PwmState
  pwm_tick_timer_started : Bool

/-- The function `pwm_start_tick` of PWM_prog.c:
`timing_init(PWM_1000_US, pwm_tick_counter); timing_start();`. -/
def pwm_start_tick (c : CarState) : CarState :=
  { c with pwm_tick_timer_started := true }

/-- The function `CAR_INIT` of CAR_CONTROL_prog.c.  A motor pointer is `none`
for NULL and `some cfg` for a pointer to a configuration with contents `cfg`;
the PWM pointer is an address as in `PwmState`. -/
def CAR_CONTROL.CAR_INIT (ptr_str_motor_1 ptr_str_motor_2 : Option motor_str_config_t)
    (ptr_str_pwm_config : Option Nat) (c : CarState) : car_enu_return_state_t × CarState :=
  match ptr_str_motor_1, ptr_str_motor_2 with
  | some m1, some m2 =>
    let e1 := MOTOR_INIT m1 c.pwm.dio
    let e2 := MOTOR_INIT m2 e1.2
    let w := (pwm_init ptr_str_pwm_config { c.pwm with dio := e2.2 }).2
    let c1 := pwm_start_tick { c with pwm := w }
    if e1.1 ≠ MOTOR_OK ∨ e2.1 ≠ MOTOR_OK then (CAR_NOK, c1) else (CAR_OK, c1)
  | _, _ => (CAR_NULL_PTR, c)

/-- The function `CAR_FORWARD` of CAR_CONTROL_prog.c. -/
def CAR_CONTROL.CAR_FORWARD (ptr_str_motor_1 ptr_str_motor_2 : Option motor_str_config_t)
    (ptr_str_pwm_config : Option Nat) (c : CarState) : car_enu_return_state_t × CarState :=
  match ptr_str_motor_1, ptr_str_motor_2 with
  | some m1, some m2 =>
    let e1 := MOTOR_FORWARD m1 c.pwm.dio
    let e2 := MOTOR_FORWARD m2 e1.2
    let w1 := (pwm_change_frequency_or_duty_cycle ptr_str_pwm_config
      { c.pwm with dio := e2.2 }).2
    let w2 := (pwm_start ptr_str_pwm_config w1).2
    if e1.1 ≠ MOTOR_OK ∨ e2.1 ≠ MOTOR_OK then (CAR_NOK, { c with pwm := w2 })
    else (CAR_OK, { c with pwm := w2 })
  | _, _ => (CAR_NULL_PTR, c)

/-- The function `CAR_BACKWARD` of CAR_CONTROL_prog.c. -/
def CAR_CONTROL.CAR_BACKWARD (ptr_str_motor_1 ptr_str_motor_2 : Option motor_str_config_t)
    (ptr_str_pwm_config : Option Nat) (c : CarState) : car_enu_return_state_t × CarState :=
  match ptr_str_motor_1, ptr_str_motor_2 with
  | some m1, some m2 =>
    let e1 := MOTOR_BACKWARD m1 c.pwm.dio
    let e2 := MOTOR_BACKWARD m2 e1.2
    let w1 := (pwm_change_frequency_or_duty_cycle ptr_str_pwm_config
      { c.pwm with dio := e2.2 }).2
    let w2 := (pwm_start ptr_str_pwm_config w1).2
    if e1.1 ≠ MOTOR_OK ∨ e2.1 ≠ MOTOR_OK then (CAR_NOK, { c with pwm := w2 })
    else (CAR_OK, { c with pwm := w2 })
  | _, _ => (CAR_NULL_PTR, c)

/-- The function `CAR_REVERSE_RIGHT` of CAR_CONTROL_prog.c. -/
def CAR_CONTROL.CAR_REVERSE_RIGHT (ptr_str_motor_1 ptr_str_motor_2 : Option motor_str_config_t)
    (ptr_str_pwm_config : Option Nat) (c : CarState) : car_enu_return_state_t × CarState :=
  match ptr_str_motor_1, ptr_str_motor_2 with
  | some m1, some m2 =>
    let e1 := MOTOR_FORWARD m1 c.pwm.dio
    let e2 := MOTOR_BACKWARD m2 e1.2
    let w1 := (pwm_change_frequency_or_duty_cycle ptr_str_pwm_config
      { c.pwm with dio := e2.2 }).2
    let w2 := (pwm_start ptr_str_pwm_config w1).2
    if e1.1 ≠ MOTOR_OK ∨ e2.1 ≠ MOTOR_OK then (CAR_NOK, { c with pwm := w2 })
    else (CAR_OK, { c with pwm := w2 })
  | _, _ => (CAR_NULL_PTR, c)

/-- The function `CAR_REVERSE_LEFT` of CAR_CONTROL_prog.c. -/
def CAR_CONTROL.CAR_REVERSE_LEFT (ptr_str_motor_1 ptr_str_motor_2 : Option motor_str_config_t)
    (ptr_str_pwm_config : Option Nat) (c : CarState) : car_enu_return_state_t × CarState :=
  match ptr_str_motor_1, ptr_str_motor_2 with
  | some m1, some m2 =>
    let e1 := MOTOR_BACKWARD m1 c.pwm.dio
    let e2 := MOTOR_FORWARD m2 e1.2
    let w1 := (pwm_change_frequency_or_duty_cycle ptr_str_pwm_config
      { c.pwm with dio := e2.2 }).2
    let w2 := (pwm_start ptr_str_pwm_config w1).2
    if e1.1 ≠ MOTOR_OK ∨ e2.1 ≠ MOTOR_OK then (CAR_NOK, { c with pwm := w2 })
    else (CAR_OK, { c with pwm := w2 })
  | _, _ => (CAR_NULL_PTR, c)

/-- The function `CAR_STOP` of CAR_CONTROL_prog.c. -/
def CAR_CONTROL.CAR_STOP (ptr_str_motor_1 ptr_str_motor_2 : Option motor_str_config_t)
    (ptr_str_pwm_config : Option Nat) (c : CarState) : car_enu_return_state_t × CarState :=
  match ptr_str_motor_1, ptr_str_motor_2 with
  | some m1, some m2 =>
    let e1 := MOTOR_STOP m1 c.pwm.dio
    let e2 := MOTOR_STOP m2 e1.2
    let w := (pwm_stop ptr_str_pwm_config { c.pwm with dio := e2.2 }).2
    if e1.1 ≠ MOTOR_OK ∨ e2.1 ≠ MOTOR_OK then (CAR_NOK, { c with pwm := w })
    else (CAR_OK, { c with pwm := w })
  | _, _ => (CAR_NULL_PTR, c)

/-- The motor configurations `gs_str_motor_1` and `gs_str_motor_2` of
APP_prog.c as `APP_vidInit` fills them in. -/
def gs_str_motor_1 : motor_str_config_t := { port := PORTA, pin_num1 := PIN3, pin_num2 := PIN4 }
def gs_str_motor_2 : motor_str_config_t := { port := PORTA, pin_num1 := PIN0, pin_num2 := PIN1 }

/-- The car before `CAR_INIT`: the PWM module at power-on, tick timer not
started. -/
def car_power_on : CarState := { pwm := pwm_power_on, pwm_tick_timer_started := false }

/-! ### APP: the top level of `APP_vidStart` -/

/-- The enum `en_start_states_t`. -/
inductive en_start_states_t where
  | EN_UPDATE_DIR
  | UPDATE_OBSTACLE_STATE
  deriving DecidableEq, Repr

/-- The enum `btn_enu_state_t` of BUTTON_interface.h. -/
inductive btn_enu_state_t where
  | BTN_PUSHED
  | BTN_RELEASED
  deriving DecidableEq, Repr

open en_start_states_t btn_enu_state_t

/-- The constant `APP_WAIT_TO_SET_DIR_TIME` of APP_interface.h. -/
def APP_WAIT_TO_SET_DIR_TIME : Nat := 5

/-- The variables of APP_prog.c that the whole of `APP_vidStart` works on: those
of the control loop, `en_start_state` and the static `gs_enu_btn_dir_state`. -/
structure AppTopState where
  app : AppState
  en_start_state : en_start_states_t
  gs_enu_btn_dir_state : btn_enu_state_t
  deriving DecidableEq

/-- The initial values: `en_start_state = EN_UPDATE_DIR`, and the
zero-initialised `gs_enu_btn_dir_state`, which is `BTN_PUSHED`. -/
def AppTopState.init : AppTopState :=
  { app := AppState.init, en_start_state := EN_UPDATE_DIR, gs_enu_btn_dir_state := BTN_PUSHED }

/-- The constants `BUTTON_DEBOUNCE_THRESHOLD` and `BUTTON_CHECKING_TIME` of
BUTTON_config.h. -/
def BUTTON_DEBOUNCE_THRESHOLD : Nat := 20
def BUTTON_CHECKING_TIME : Nat := 100

/-- A call `DIO_read_pin` on the pin of the direction button (`gs_btn_dir_state`,
pin 1 of port D): the level the pin has at this read. -/
def app_read_button (env : AppEnv) (st : AppState) : dio_enu_level_t × AppState :=
  (env.button st.reads, { st with reads := st.reads + 1 })

/-- The loop `while(u16_button_time_counter < BUTTON_CHECKING_TIME)` of
`BTN_get_state`: the first argument is the number of iterations left
(`BUTTON_CHECKING_TIME - u16_button_time_counter`), the second is
`u16_debounceThreshold_counter`. -/
def BTN_get_state_loop (env : AppEnv) : Nat → Nat → AppState → Nat × AppState
  | 0, u16_debounceThreshold_counter, st => (u16_debounceThreshold_counter, st)
  | n + 1, u16_debounceThreshold_counter, st =>
    let r := app_read_button env st
    if r.1 = DIO_PIN_LOW_LEVEL then
      BTN_get_state_loop env n (to_u16 (u16_debounceThreshold_counter + 1)) r.2
    else BTN_get_state_loop env n u16_debounceThreshold_counter r.2

/-- The function `BTN_get_state` of BUTTON_prog.c, called with
`&gs_btn_dir_state` and `&gs_enu_btn_dir_state`: the value it assigns through
its second argument.  The pin is read once; when it is LOW it is read
`BUTTON_CHECKING_TIME` more times and the button counts as pushed when at least
`BUTTON_DEBOUNCE_THRESHOLD` of all these reads found it LOW. -/
def BTN_get_state (env : AppEnv) (st : AppState) : btn_enu_state_t × AppState :=
  let r := app_read_button env st
  if r.1 = DIO_PIN_LOW_LEVEL then
    let l := BTN_get_state_loop env BUTTON_CHECKING_TIME (to_u16 (0 + 1)) r.2
    if l.1 ≥ BUTTON_DEBOUNCE_THRESHOLD then (BTN_PUSHED, l.2) else (BTN_RELEASED, l.2)
  else (BTN_RELEASED, r.2)

/-- The loop `while(timing_time_out(APP_WAIT_TO_SET_DIR_TIME) ==
TIMING_NOT_TIME_OUT)` of `APP_updateDirection`, bounded like `APP_timed_loop`. -/
def APP_updateDirection_loop (env : AppEnv) : Nat → AppTopState → Option AppTopState
  | 0, _ => none
  | fuel + 1, x =>
    let r := app_timing_time_out env APP_WAIT_TO_SET_DIR_TIME x.app
    if r.1 = TIMING_NOT_TIME_OUT then
      let b := BTN_get_state env r.2
      let x1 := { x with app := b.2, gs_enu_btn_dir_state := b.1 }
      if x1.gs_enu_btn_dir_state = BTN_PUSHED then
        if x1.app.u8_g_dirStateCounter = MOTOR_TURN_LEFT then
          APP_updateDirection_loop env fuel
            { x1 with app := { x1.app with u8_g_dirStateCounter := MOTOR_TURN_RIGHT } }
        else
          APP_updateDirection_loop env fuel
            { x1 with app := { x1.app with u8_g_dirStateCounter := MOTOR_TURN_LEFT } }
      else APP_updateDirection_loop env fuel x1
    else some { x with app := r.2 }

/-- The function `delay_s` of TIMING_prog.c, called by the application:
`while (timing_time_out(copy_u16_delay) != TIMING_TIME_OUT);`. -/
def delay_s (env : AppEnv) (copy_u16_delay : Nat) : Nat → AppState → Option AppState
  | 0, _ => none
  | fuel + 1, st =>
    let r := app_timing_time_out env copy_u16_delay st
    if r.1 ≠ TIMING_TIME_OUT then delay_s env copy_u16_delay fuel r.2 else some r.2

/-- The function `APP_updateDirection` of APP_prog.c.  The calls that switch
the ultrasonic interrupt off and on and the output to the display are not
modelled. -/
def APP_updateDirection (env : AppEnv) (fuel : Nat) (x : AppTopState) : Option AppTopState :=
  (APP_updateDirection_loop env fuel x).bind
    fun y => (delay_s env 2 fuel y.app).map fun a => { y with app := a }

/-- The control loop `while(en_motorSel == EN_MOTOR_START)` of `APP_vidStart`
run until it is left; `none` when it is not left within `n` iterations or an
inner loop did not end within `fuel` iterations. -/
def APP_vidStart_while (env : AppEnv) (fuel : Nat) : Nat → AppState → Option AppState
  | 0, _ => none
  | n + 1, st =>
    let m := app_motor_started env st
    if m.1 then (APP_vidStart_loop_body env fuel m.2).bind (APP_vidStart_while env fuel n)
    else some m.2

/-- Lines 332-337 of APP_prog.c, the actions of the stop branch: the car is
stopped, `en_start_state` is set and the timeout handle is reset. -/
def APP_stop_actions (x : AppTopState) : AppTopState :=
  let a1 := app_car CAR_STOP x.app
  let x1 := { x with app := a1 }
  let x2 := { x1 with en_start_state := EN_UPDATE_DIR }
  { x2 with app := { x2.app with timing := timing_break_time_out x2.app.timing } }

/-- Line 338 of APP_prog.c, `while(en_motorSel == EN_MOTOR_STOP);`, bounded by
the first argument of type `Nat`. -/
def APP_wait_while_stopped (env : AppEnv) : Nat → AppState → Option AppState
  | 0, _ => none
  | fuel + 1, st =>
    if env.motorSel st.reads = EN_MOTOR_STOP then
      APP_wait_while_stopped env fuel { st with reads := st.reads + 1 }
    else some { st with reads := st.reads + 1 }

/-- Lines 200-208 of APP_prog.c, the part of the start branch of
`APP_vidStart` that precedes the control loop: direction selection when
`en_start_state` is `EN_UPDATE_DIR`. -/
def APP_vidStart_before_loop (env : AppEnv) (fuel : Nat) (x : AppTopState) :
    Option AppTopState :=
  if x.en_start_state = EN_UPDATE_DIR then
    (APP_updateDirection env fuel x).map
      fun y => { y with en_start_state := UPDATE_OBSTACLE_STATE }
  else some x

/-- The function `APP_vidStart` of APP_prog.c.  `fuel` bounds every loop.  The
call `extim_enable` at its top and the output to the display are not
modelled. -/
def APP_vidStart (env : AppEnv) (fuel : Nat) (x : AppTopState) : Option AppTopState :=
  let m := app_motor_started env x.app
  if m.1 then
    (APP_vidStart_before_loop env fuel { x with app := m.2 }).bind
      fun y => (APP_vidStart_while env fuel fuel y.app).map fun a => { y with app := a }
  else
    let stopped := decide (env.motorSel m.2.reads = EN_MOTOR_STOP)
    let x2 := { x with app := { m.2 with reads := m.2.reads + 1 } }
    if stopped then
      let x3 := APP_stop_actions x2
      (APP_wait_while_stopped env fuel x3.app).map fun a => { x3 with app := a }
    else some x2

/-- Successive calls of `APP_vidStart`, `k` of them, each continuing where the
previous one returned. -/
def APP_vidStart_calls (env : AppEnv) (fuel : Nat) : Nat → AppTopState → Option AppTopState
  | 0, x => some x
  | k + 1, x => (APP_vidStart env fuel x).bind (APP_vidStart_calls env fuel k)

/-- The CAR_CONTROL call that a recorded `car_command` stands for: the call is
made with `&gs_str_motor_1`, `&gs_str_motor_2` and `&gs_str_pwm_pin`, the
channel object at address 0, whose `duty_cycle` holds the recorded value. -/
def car_command_call (cmd : car_command) (duty : Nat) (c : CarState) :
    car_enu_return_state_t × CarState :=
  let mem1 := Function.update c.pwm.mem 0 { c.pwm.mem 0 with duty_cycle := duty }
  let c1 := { c with pwm := { c.pwm with mem := mem1 } }
  match cmd with
  | car_command.CAR_FORWARD =>
    CAR_CONTROL.CAR_FORWARD (some gs_str_motor_1) (some gs_str_motor_2) (some 0) c1
  | car_command.CAR_BACKWARD =>
    CAR_CONTROL.CAR_BACKWARD (some gs_str_motor_1) (some gs_str_motor_2) (some 0) c1
  | car_command.CAR_REVERSE_LEFT =>
    CAR_CONTROL.CAR_REVERSE_LEFT (some gs_str_motor_1) (some gs_str_motor_2) (some 0) c1
  | car_command.CAR_REVERSE_RIGHT =>
    CAR_CONTROL.CAR_REVERSE_RIGHT (some gs_str_motor_1) (some gs_str_motor_2) (some 0) c1
  | car_command.CAR_STOP =>
    CAR_CONTROL.CAR_STOP (some gs_str_motor_1) (some gs_str_motor_2) (some 0) c1

/-- The car after `CAR_INIT(&gs_str_motor_1, &gs_str_motor_2, &gs_str_pwm_pin)`
and a `CAR_FORWARD` at 30 %, the state a stop command typically finds. -/
def car_moving_forward : CarState :=
  (car_command_call car_command.CAR_FORWARD APP_CAR_SPEED_30_PRE
    (CAR_CONTROL.CAR_INIT (some gs_str_motor_1) (some gs_str_motor_2) (some 0)
      car_power_on).2).2

/-- An environment in which every reading is 25 cm, the tick counter advances
by one between any two reads, and the motor is started except at the reads of
index 39 to 42.  From the initial state, the read of index 39 is the loop
condition evaluated right after the fourth post-rotation re-sample has set
`OBSTACLE_HOLD_MOVING`. -/
def env_stop_when_hold : AppEnv :=
  { sys_tick := fun n => n % 65536
    distance := fun _ => 25
    motorSel := fun n => if 39 ≤ n ∧ n < 43 then EN_MOTOR_STOP else EN_MOTOR_START }

/-- An environment in which the motor is stopped for the first five reads and
started afterwards, every reading is 25 cm and the tick counter advances by
one between any two reads. -/
def env_stopped_then_started : AppEnv :=
  { sys_tick := fun n => n % 65536
    distance := fun _ => 25
    motorSel := fun n => if n < 5 then EN_MOTOR_STOP else EN_MOTOR_START }

/-! ## Part II — theorems -/

/-! ### Timeout service -/

/-- C3: on an armed handle (`TIMING_NOT_CATCH`), `timing_time_out d` returns
`TIMING_TIME_OUT` exactly when the computed elapsed value is at least `d`; on
expiry the handle becomes fresh (`TIMING_CATCH`, timestamp cleared), so that a
later poll with a positive duration captures the tick it then sees; when the
call returns `TIMING_NOT_TIME_OUT` the captured timestamp and the catch state
are unchanged.  The tick counter is never written. -/
theorem timing_time_out_armed (s : TimingState) (d : Nat)
    (harmed : s.gs_enu_catch_state = TIMING_NOT_CATCH) :
    ((timing_time_out d s).1 = TIMING_TIME_OUT ↔
        timing_actual_time s.gs_u16_timestamp s.gs_u16_sys_tick ≥ d) ∧
    ((timing_time_out d s).1 = TIMING_TIME_OUT →
        (timing_time_out d s).2.gs_enu_catch_state = TIMING_CATCH ∧
        (timing_time_out d s).2.gs_u16_timestamp = 0 ∧
        ∀ t d2 : Nat, 0 < d2 →
          (timing_time_out d2
              { (timing_time_out d s).2 with gs_u16_sys_tick := t }).2.gs_u16_timestamp = t) ∧
    ((timing_time_out d s).1 = TIMING_NOT_TIME_OUT →
        (timing_time_out d s).2.gs_u16_timestamp = s.gs_u16_timestamp ∧
        (timing_time_out d s).2.gs_enu_catch_state = s.gs_enu_catch_state) ∧
    (timing_time_out d s).2.gs_u16_sys_tick = s.gs_u16_sys_tick := by
  by_cases h : timing_actual_time s.gs_u16_timestamp s.gs_u16_sys_tick ≥ d
  · refine ⟨?_, ?_, ?_, ?_⟩
    · simp [timing_time_out, harmed, h]
    · intro _
      refine ⟨by simp [timing_time_out, harmed, h], by simp [timing_time_out, harmed, h, U8_ZERO_VALUE], ?_⟩
      intro t d2 hd2
      have h0 : ¬ (d2 ≤ timing_actual_time t t) := by
        simp [timing_actual_time, to_u16]
        omega
      simp [timing_time_out, harmed, h, h0]
    · simp [timing_time_out, harmed, h]
    · simp [timing_time_out, harmed, h]
  · refine ⟨?_, ?_, ?_, ?_⟩
    · simp [timing_time_out, harmed, h]
    · simp [timing_time_out, harmed, h]
    · intro _
      simp [timing_time_out, harmed, h]
    · simp [timing_time_out, harmed, h]

/-- Witness for C3: an armed handle captured at tick 10, polled at tick 12 with
duration 2, expires and becomes fresh. -/
theorem timing_time_out_armed_witness :
    (timing_time_out 2 ⟨12, TIMING_NOT_CATCH, 10⟩).1 = TIMING_TIME_OUT ∧
    (timing_time_out 2 ⟨12, TIMING_NOT_CATCH, 10⟩).2.gs_enu_catch_state = TIMING_CATCH :=
  have h := timing_time_out_armed ⟨12, TIMING_NOT_CATCH, 10⟩ 2 rfl
  ⟨h.1.mpr (by decide), (h.2.1 (h.1.mpr (by decide))).1⟩

/-- C4: for 16-bit values, the elapsed value computed by `timing_time_out` is
`(65535 - captured) + current` when the captured timestamp is above the
current tick and `current - captured` otherwise, and it always lies in
0..65535. -/
theorem timing_actual_time_value (captured current : Nat)
    (hcap : captured ≤ 65535) (hcur : current ≤ 65535) :
    (captured > current →
        timing_actual_time captured current = (65535 - captured) + current) ∧
    (captured ≤ current →
        timing_actual_time captured current = current - captured) ∧
    timing_actual_time captured current ≤ 65535 := by
  unfold timing_actual_time to_u16 TIMING_MAX_SYS_TICK
  refine ⟨?_, ?_, ?_⟩
  · intro h
    rw [if_pos h]
    omega
  · intro h
    rw [if_neg (by omega)]
    omega
  · split <;> omega

/-- Witness for C4: captured = 65533 (MAX - 2) and current = 3 give elapsed = 5. -/
theorem timing_actual_time_value_witness : timing_actual_time 65533 3 = 5 :=
  ((timing_actual_time_value 65533 3 (by decide) (by decide)).1 (by decide)).trans (by decide)

/-- C5 fails for a zero duration: the first poll of a fresh handle with
duration 0 returns `TIMING_TIME_OUT` and the handle is fresh again, with the
timestamp cleared instead of holding the current tick. -/
theorem timing_time_out_fresh_zero_duration :
    (timing_time_out 0 ⟨7, TIMING_CATCH, 0⟩).1 = TIMING_TIME_OUT ∧
    (timing_time_out 0 ⟨7, TIMING_CATCH, 0⟩).2.gs_u16_timestamp = 0 ∧
    (timing_time_out 0 ⟨7, TIMING_CATCH, 0⟩).2.gs_enu_catch_state = TIMING_CATCH := by
  decide

/-- C5 (amended): for every tick value and every duration `d ≥ 1`, the first
poll of a fresh handle (`TIMING_CATCH`) stores the current tick as the captured
timestamp, arms the handle and returns `TIMING_NOT_TIME_OUT`. -/
theorem timing_time_out_fresh (s : TimingState) (d : Nat)
    (hfresh : s.gs_enu_catch_state = TIMING_CATCH) (hd : 1 ≤ d) :
    (timing_time_out d s).1 = TIMING_NOT_TIME_OUT ∧
    (timing_time_out d s).2.gs_u16_timestamp = s.gs_u16_sys_tick ∧
    (timing_time_out d s).2.gs_enu_catch_state = TIMING_NOT_CATCH ∧
    (timing_time_out d s).2.gs_u16_sys_tick = s.gs_u16_sys_tick := by
  have h0 : ¬ (d ≤ timing_actual_time s.gs_u16_sys_tick s.gs_u16_sys_tick) := by
    simp [timing_actual_time, to_u16]
    omega
  simp [timing_time_out, hfresh, h0]

/-- Witness for C5 (amended): a fresh handle polled at tick 7 with duration 5. -/
theorem timing_time_out_fresh_witness :
    (timing_time_out 5 ⟨7, TIMING_CATCH, 0⟩).1 = TIMING_NOT_TIME_OUT ∧
    (timing_time_out 5 ⟨7, TIMING_CATCH, 0⟩).2.gs_u16_timestamp = 7 :=
  have h := timing_time_out_fresh ⟨7, TIMING_CATCH, 0⟩ 5 rfl (by decide)
  ⟨h.1, h.2.1⟩

/-! ### Software PWM engine -/

theorem set_bit_u8_testBit (reg pin : Nat) (h : pin < 8) :
    (set_bit_u8 reg pin).testBit pin = true := by
  unfold set_bit_u8 to_u8 U8_ONE_VALUE
  have : (256 : Nat) = 2 ^ 8 := by norm_num
  rw [this, Nat.testBit_mod_two_pow, Nat.one_shiftLeft]
  simp [h, Nat.testBit_two_pow_self]

theorem clear_bit_u8_testBit (reg pin : Nat) (h : pin < 8) :
    (clear_bit_u8 reg pin).testBit pin = false := by
  unfold clear_bit_u8 to_u8 U8_ONE_VALUE U8_BIT_REG_MASK
  have h256 : (256 : Nat) = 2 ^ 8 := by norm_num
  have h255 : Nat.testBit 255 pin = true := by
    have e : (255 : Nat) = 2 ^ 8 - 1 := by norm_num
    rw [e, Nat.testBit_two_pow_sub_one]
    simp [h]
  rw [h256, Nat.testBit_mod_two_pow, Nat.one_shiftLeft]
  simp [h, h255, Nat.testBit_two_pow_self]

/-- For a non-negative value the conversion to `uint16_t` is the floor reduced
modulo 2^16. -/
theorem f64_to_u16_of_nonneg (x : ℚ) (hx : 0 ≤ x) :
    f64_to_u16 x = to_u16 (Int.toNat (Int.floor x)) := by
  unfold f64_to_u16 to_u16
  rw [if_pos hx]
  obtain ⟨n, hn⟩ := Int.eq_ofNat_of_zero_le (Int.floor_nonneg.mpr hx)
  rw [hn]
  norm_cast

/-- The conversion to `uint16_t` of a value between `k` and `k + 1`, for a
16-bit `k`, is `k`. -/
theorem f64_to_u16_eq (x : ℚ) (k : ℕ) (h1 : (k : ℚ) ≤ x) (h2 : x < (k : ℚ) + 1)
    (hk : k < 65536) : f64_to_u16 x = k := by
  have hx : (0 : ℚ) ≤ x := le_trans (Nat.cast_nonneg k) h1
  rw [f64_to_u16_of_nonneg x hx]
  have hfl : Int.floor x = (k : ℤ) := by
    rw [Int.floor_eq_iff]
    exact ⟨by exact_mod_cast h1, by exact_mod_cast h2⟩
  rw [hfl]
  simpa [to_u16] using Nat.mod_eq_of_lt hk

/-- The result of the conversion to `uint16_t` is a 16-bit value. -/
theorem f64_to_u16_lt (x : ℚ) : f64_to_u16 x < 65536 := by
  unfold f64_to_u16
  have h1 := Int.emod_nonneg (if 0 ≤ x then Int.floor x else Int.ceil x)
    (by norm_num : (65536 : ℤ) ≠ 0)
  have h2 := Int.emod_lt_of_pos (if 0 ≤ x then Int.floor x else Int.ceil x)
    (by norm_num : (0 : ℤ) < 65536)
  omega

/-- Rounding to the nearest integer moves a value by at most one half. -/
theorem round_half_even_abs_sub_le (m : ℚ) : |(round_half_even m : ℚ) - m| ≤ 1 / 2 := by
  have h1 := Int.floor_le m
  have h2 := Int.lt_floor_add_one m
  unfold round_half_even
  simp only
  split_ifs with a b c
  · rw [abs_le]; constructor <;> linarith
  · rw [abs_le]; push_cast; constructor <;> linarith
  · rw [abs_le]; push_cast at *; constructor <;> linarith
  · rw [abs_le]; push_cast at *; constructor <;> linarith

/-- An integer closer than one half to a value is what the value rounds to. -/
theorem round_half_even_eq_of_abs_sub_lt (m : ℚ) (n : ℤ) (h : |m - (n : ℚ)| < 1 / 2) :
    round_half_even m = n := by
  have h0 := round_half_even_abs_sub_le m
  rw [abs_lt] at h
  rw [abs_le] at h0
  have hq : |((round_half_even m - n : ℤ) : ℚ)| < 1 := by
    rw [abs_lt]; push_cast; constructor <;> linarith
  have h3 : |round_half_even m - n| < 1 := by exact_mod_cast hq
  have h4 := Int.abs_lt_one_iff.mp h3
  omega

theorem f64_ulp_pos (x : ℚ) : 0 < f64_ulp x := by
  unfold f64_ulp; positivity

/-- The unit in the last place of a positive `x` is at most `x / 2 ^ 52`. -/
theorem f64_ulp_le (x : ℚ) (hx : 0 < x) : f64_ulp x ≤ x / 2 ^ 52 := by
  unfold f64_ulp
  have h := Int.zpow_log_le_self (b := 2) (r := x) (by norm_num) hx
  rw [zpow_sub₀ (by norm_num)]
  have e : ((2 : ℚ) ^ (52 : ℤ)) = 2 ^ 52 := by norm_cast
  rw [e]
  apply div_le_div_of_nonneg_right _ (by positivity)
  simpa using h

/-- Rounding to binary64 has a relative error of at most `2 ^ (-53)`. -/
theorem f64_round_abs_sub_le (x : ℚ) (hx : 0 ≤ x) :
    |f64_round x - x| ≤ x / 2 ^ 53 := by
  rcases hx.lt_or_eq with hpos | h0
  · have hu := f64_ulp_pos x
    have hle := f64_ulp_le x hpos
    have hr := round_half_even_abs_sub_le (x / f64_ulp x)
    have e : f64_round x - x
        = ((round_half_even (x / f64_ulp x) : ℚ) - x / f64_ulp x) * f64_ulp x := by
      unfold f64_round
      rw [if_pos hpos]
      field_simp
    rw [e, abs_mul, abs_of_pos hu]
    calc |(round_half_even (x / f64_ulp x) : ℚ) - x / f64_ulp x| * f64_ulp x
        ≤ 1 / 2 * f64_ulp x := mul_le_mul_of_nonneg_right hr hu.le
      _ ≤ 1 / 2 * (x / 2 ^ 52) := by linarith
      _ = x / 2 ^ 53 := by ring
  · subst h0
    simp [f64_round]

/-- The binary64 rounding of a positive `x` with `2 ^ e ≤ x < 2 ^ (e + 1)` is
`n * 2 ^ (e - 52)` for the integer `n` closer than one half to
`x / 2 ^ (e - 52)`. -/
theorem f64_round_eq (x : ℚ) (e n : ℤ) (hx : 0 < x)
    (h1 : (2 : ℚ) ^ e ≤ x) (h2 : x < (2 : ℚ) ^ (e + 1))
    (h3 : |x / (2 : ℚ) ^ (e - 52) - (n : ℚ)| < 1 / 2) :
    f64_round x = (n : ℚ) * (2 : ℚ) ^ (e - 52) := by
  have hlog : Int.log 2 x = e := by
    have a1 : e ≤ Int.log 2 x := (Int.zpow_le_iff_le_log (b := 2) (by norm_num) hx).mp
      (by simpa using h1)
    have a2 : Int.log 2 x < e + 1 := (Int.lt_zpow_iff_log_lt (b := 2) (by norm_num) hx).mp
      (by simpa using h2)
    omega
  unfold f64_round
  rw [if_pos hx]
  unfold f64_ulp
  rw [hlog, round_half_even_eq_of_abs_sub_lt _ n h3]

theorem pwm_cycle_duration_eq (frequency : Nat) :
    pwm_cycle_duration frequency = (1000 / frequency) % 65536 := by
  unfold pwm_cycle_duration PWMM_TO_CONVERT_TO_US
  have h : (1 : ℚ) / (frequency : ℚ) * ((1000 : ℕ) : ℚ) = ((1000 : ℕ) : ℚ) / (frequency : ℚ) := by
    ring
  rw [h, f64_to_u16_of_nonneg _ (by positivity)]
  unfold to_u16
  rw [Rat.floor_natCast_div_natCast]
  norm_cast

/-- The value of `pwm_t_on` from the two roundings: `n1 * 2 ^ (e1 - 52)` is the
rounded quotient, `n2 * 2 ^ (e2 - 52)` the rounded product and `k` its integer
part. -/
theorem pwm_t_on_of_rounding (d c k : ℕ) (e1 n1 e2 n2 : ℤ)
    (a0 : (0 : ℚ) < (d : ℚ) / 100)
    (a1 : (2 : ℚ) ^ e1 ≤ (d : ℚ) / 100) (a2 : (d : ℚ) / 100 < (2 : ℚ) ^ (e1 + 1))
    (a3 : |(d : ℚ) / 100 / (2 : ℚ) ^ (e1 - 52) - (n1 : ℚ)| < 1 / 2)
    (b0 : (0 : ℚ) < (n1 : ℚ) * (2 : ℚ) ^ (e1 - 52) * (c : ℚ))
    (b1 : (2 : ℚ) ^ e2 ≤ (n1 : ℚ) * (2 : ℚ) ^ (e1 - 52) * (c : ℚ))
    (b2 : (n1 : ℚ) * (2 : ℚ) ^ (e1 - 52) * (c : ℚ) < (2 : ℚ) ^ (e2 + 1))
    (b3 : |(n1 : ℚ) * (2 : ℚ) ^ (e1 - 52) * (c : ℚ) / (2 : ℚ) ^ (e2 - 52) - (n2 : ℚ)| < 1 / 2)
    (k1 : (k : ℚ) ≤ (n2 : ℚ) * (2 : ℚ) ^ (e2 - 52))
    (k2 : (n2 : ℚ) * (2 : ℚ) ^ (e2 - 52) < (k : ℚ) + 1) (hk : k < 65536) :
    pwm_t_on d c = k := by
  unfold pwm_t_on PWMM_TO_CONVERT_FROM_PRESENTAGE
  have e100 : ((100 : ℕ) : ℚ) = 100 := by norm_num
  rw [e100, f64_round_eq _ e1 n1 a0 a1 a2 a3, f64_round_eq _ e2 n2 b0 b1 b2 b3]
  exact f64_to_u16_eq _ k k1 k2 hk

/-- A duty cycle of 30 % of a cycle of 50 ticks gives an on-time of 15 ticks:
`30.0 / 100` rounds to `5404319552844595 * 2 ^ (-54)` and its product with 50
rounds to 15. -/
theorem pwm_t_on_30_50 : pwm_t_on 30 50 = 15 :=
  pwm_t_on_of_rounding 30 50 15 (-2) 5404319552844595 3 8444249301319680
    (by norm_num) (by norm_num) (by norm_num) (by norm_num [abs_lt])
    (by norm_num) (by norm_num) (by norm_num) (by norm_num [abs_lt])
    (by norm_num) (by norm_num) (by norm_num)

/-- A duty cycle of 50 % of a cycle of 50 ticks gives an on-time of 25 ticks. -/
theorem pwm_t_on_50_50 : pwm_t_on 50 50 = 25 :=
  pwm_t_on_of_rounding 50 50 25 (-1) 4503599627370496 4 7036874417766400
    (by norm_num) (by norm_num) (by norm_num) (by norm_num [abs_lt])
    (by norm_num) (by norm_num) (by norm_num) (by norm_num [abs_lt])
    (by norm_num) (by norm_num) (by norm_num)

/-- The on-time computed from a duty cycle of at most 100 and a 16-bit cycle
duration is the natural-number quotient `duty_cycle * cycle_duration / 100` or
one less, and is that quotient whenever the division leaves a remainder. -/
theorem pwm_t_on_bounds (d c : ℕ) (hd : d ≤ 100) (hc : c < 65536) :
    pwm_t_on d c ≤ d * c / 100 ∧ d * c / 100 ≤ pwm_t_on d c + 1 ∧
    (d * c % 100 ≠ 0 → pwm_t_on d c = d * c / 100) := by
  have e100 : ((100 : ℕ) : ℚ) = 100 := by norm_num
  have hdq : (d : ℚ) ≤ 100 := by exact_mod_cast hd
  have hcq : (c : ℚ) ≤ 65535 := by exact_mod_cast (by omega : c ≤ 65535)
  have hd0 : (0 : ℚ) ≤ (d : ℚ) := Nat.cast_nonneg d
  have hc0 : (0 : ℚ) ≤ (c : ℚ) := Nat.cast_nonneg c
  have hq0 : (0 : ℚ) ≤ (d : ℚ) / 100 := by positivity
  -- the two roundings
  have ha := f64_round_abs_sub_le ((d : ℚ) / 100) hq0
  rw [abs_le] at ha
  set a := f64_round ((d : ℚ) / 100) with ha_def
  have ha0 : 0 ≤ a := by
    have : (d : ℚ) / 100 / 2 ^ 53 ≤ (d : ℚ) / 100 := by
      apply div_le_self hq0; norm_num
    linarith [ha.1]
  have hp0 : 0 ≤ a * (c : ℚ) := mul_nonneg ha0 hc0
  have hy := f64_round_abs_sub_le (a * (c : ℚ)) hp0
  rw [abs_le] at hy
  set y := f64_round (a * (c : ℚ)) with hy_def
  -- the exact product
  have hXle : (d : ℚ) * (c : ℚ) / 100 ≤ 65535 := by
    have : (d : ℚ) * (c : ℚ) ≤ 100 * 65535 := mul_le_mul hdq hcq hc0 (by norm_num)
    linarith
  have hpX1 : a * (c : ℚ) - (d : ℚ) * (c : ℚ) / 100 ≤ (d : ℚ) * (c : ℚ) / 100 / 2 ^ 53 := by
    have := mul_le_mul_of_nonneg_right ha.2 hc0
    have e : (a - (d : ℚ) / 100) * (c : ℚ) = a * (c : ℚ) - (d : ℚ) * (c : ℚ) / 100 := by ring
    have e2 : (d : ℚ) / 100 / 2 ^ 53 * (c : ℚ) = (d : ℚ) * (c : ℚ) / 100 / 2 ^ 53 := by ring
    linarith
  have hpX2 : -((d : ℚ) * (c : ℚ) / 100 / 2 ^ 53) ≤ a * (c : ℚ) - (d : ℚ) * (c : ℚ) / 100 := by
    have := mul_le_mul_of_nonneg_right ha.1 hc0
    have e : (a - (d : ℚ) / 100) * (c : ℚ) = a * (c : ℚ) - (d : ℚ) * (c : ℚ) / 100 := by ring
    have e2 : -((d : ℚ) / 100 / 2 ^ 53) * (c : ℚ) = -((d : ℚ) * (c : ℚ) / 100 / 2 ^ 53) := by
      ring
    linarith
  have hple : a * (c : ℚ) ≤ 65536 := by
    have : (d : ℚ) * (c : ℚ) / 100 / 2 ^ 53 ≤ 1 := by
      rw [div_le_one (by norm_num)]; linarith [show (65535 : ℚ) ≤ 2 ^ 53 by norm_num]
    linarith
  have herr : a * (c : ℚ) / 2 ^ 53 ≤ 1 / 400 := by
    rw [div_le_iff₀ (by norm_num)]
    have : (65536 : ℚ) ≤ 1 / 400 * 2 ^ 53 := by norm_num
    linarith
  have herr2 : (d : ℚ) * (c : ℚ) / 100 / 2 ^ 53 ≤ 1 / 400 := by
    rw [div_le_iff₀ (by norm_num)]
    have : (65536 : ℚ) ≤ 1 / 400 * 2 ^ 53 := by norm_num
    linarith
  have hyu : y < (d : ℚ) * (c : ℚ) / 100 + 1 / 100 := by linarith [hy.2]
  have hyl : (d : ℚ) * (c : ℚ) / 100 - 1 / 100 < y := by linarith [hy.1]
  have hy0 : 0 ≤ y := by
    have : a * (c : ℚ) / 2 ^ 53 ≤ a * (c : ℚ) := by
      apply div_le_self hp0; norm_num
    linarith [hy.1]
  -- quotient and remainder
  have hdm := Nat.div_add_mod (d * c) 100
  have hml := Nat.mod_lt (d * c) (by norm_num : 100 > 0)
  set k := d * c / 100 with hk_def
  set j := d * c % 100 with hj_def
  have hXkj : (d : ℚ) * (c : ℚ) / 100 = (k : ℚ) + (j : ℚ) / 100 := by
    have : ((d * c : ℕ) : ℚ) = ((100 * k + j : ℕ) : ℚ) := by rw [hdm]
    push_cast at this
    rw [this]; ring
  have hjq : (j : ℚ) ≤ 99 := by exact_mod_cast (by omega : j ≤ 99)
  have hj0 : (0 : ℚ) ≤ (j : ℚ) := Nat.cast_nonneg j
  have hk0 : (0 : ℚ) ≤ (k : ℚ) := Nat.cast_nonneg k
  have hkle : (k : ℚ) ≤ 65535 := by linarith [div_nonneg hj0 (by norm_num : (0 : ℚ) ≤ 100)]
  -- the stored value
  have hfn : f64_to_u16 y = Int.toNat (Int.floor y) := by
    rw [f64_to_u16_of_nonneg y hy0]
    unfold to_u16
    apply Nat.mod_eq_of_lt
    have h1 : Int.floor y < 65536 := by
      rw [Int.floor_lt]
      have : (j : ℚ) / 100 ≤ 99 / 100 := by linarith
      push_cast
      linarith
    have h2 : 0 ≤ Int.floor y := Int.floor_nonneg.mpr hy0
    omega
  have hton : pwm_t_on d c = Int.toNat (Int.floor y) := by
    unfold pwm_t_on PWMM_TO_CONVERT_FROM_PRESENTAGE
    rw [e100]
    exact hfn
  have hfl0 : 0 ≤ Int.floor y := Int.floor_nonneg.mpr hy0
  have hup : Int.floor y ≤ (k : ℤ) := by
    have h1 := Int.floor_le y
    have h2 : ((Int.floor y : ℤ) : ℚ) < (k : ℚ) + 1 := by
      have : (j : ℚ) / 100 ≤ 99 / 100 := by linarith
      linarith
    have h3 : Int.floor y < (k : ℤ) + 1 := by exact_mod_cast h2
    omega
  have hlo : (k : ℤ) - 1 ≤ Int.floor y := by
    rw [Int.le_floor]
    push_cast
    have : (0 : ℚ) ≤ (j : ℚ) / 100 := by positivity
    by_cases hk1 : k = 0
    · rw [hk1]; push_cast; linarith
    · linarith
  refine ⟨by rw [hton]; omega, by rw [hton]; omega, fun hj => ?_⟩
  have hj1 : (1 : ℚ) ≤ (j : ℚ) := by exact_mod_cast (Nat.one_le_iff_ne_zero.mpr hj)
  have hlo2 : (k : ℤ) ≤ Int.floor y := by
    rw [Int.le_floor]
    push_cast
    have : (1 : ℚ) / 100 ≤ (j : ℚ) / 100 := by linarith
    linarith
  rw [hton]
  omega

/-- The on-time computed from a duty cycle of at most 100 never exceeds the
cycle duration it is computed from. -/
theorem pwm_t_on_le_cycle (duty_cycle cycle_duration : Nat) (hd : duty_cycle ≤ 100) :
    pwm_t_on duty_cycle cycle_duration ≤ cycle_duration := by
  by_cases hc : cycle_duration < 65536
  · have h1 := (pwm_t_on_bounds duty_cycle cycle_duration hd hc).1
    have h2 : duty_cycle * cycle_duration / 100 ≤ 100 * cycle_duration / 100 :=
      Nat.div_le_div_right (Nat.mul_le_mul_right _ hd)
    have h3 : 100 * cycle_duration / 100 = cycle_duration :=
      Nat.mul_div_cancel_left _ (by norm_num)
    omega
  · have h1 : pwm_t_on duty_cycle cycle_duration < 65536 := f64_to_u16_lt _
    omega

/-- C6: for every channel with `frequency > 0` and `duty_cycle ≤ 100`, the
channel satisfies `t_on ≤ cycle_duration` after `pwm_init` and after
`pwm_change_frequency_or_duty_cycle`. -/
theorem pwm_t_on_le_cycle_duration (w : PwmState) (a : Nat)
    (_hf : 0 < (w.mem a).frequency) (hd : (w.mem a).duty_cycle ≤ 100) :
    ((pwm_init (some a) w).2.mem a).t_on ≤ ((pwm_init (some a) w).2.mem a).cycle_duration ∧
    ((pwm_change_frequency_or_duty_cycle (some a) w).2.mem a).t_on ≤
      ((pwm_change_frequency_or_duty_cycle (some a) w).2.mem a).cycle_duration := by
  constructor
  · simp only [pwm_init, Function.update_same]
    exact pwm_t_on_le_cycle _ _ hd
  · simp only [pwm_change_frequency_or_duty_cycle, Function.update_same]
    exact pwm_t_on_le_cycle _ _ hd

/-- Witness for C6: the channel of the application (20 Hz, 30 %). -/
theorem pwm_t_on_le_cycle_duration_witness :
    ((pwm_init (some 0) pwm_power_on).2.mem 0).t_on ≤
      ((pwm_init (some 0) pwm_power_on).2.mem 0).cycle_duration :=
  (pwm_t_on_le_cycle_duration pwm_power_on 0 (by decide) (by decide)).1

/-- After `DIO_write_pin` the written pin has the written level. -/
theorem pin_level_DIO_write_pin (port : dio_enu_port_t) (pin : dio_enu_pin_t)
    (level : dio_enu_level_t) (r : DioRegs) :
    pin_level (DIO_write_pin port pin level r).2 port pin = level := by
  have hp : pin.val < 8 := by cases pin <;> decide
  cases port <;> cases level <;>
    simp [DIO_write_pin, pin_level, DioRegs.WR, DIO_MAX_PINS, hp,
      set_bit_u8_testBit, clear_bit_u8_testBit]

/-- The state `pwm_running_14`, evaluated: tick 14, the channel in its on-time
with `cycle_duration = 50` and `t_on = 15`, pin 2 of port A an output driven
HIGH. -/
theorem pwm_running_14_eval :
    pwm_running_14.pwm_tick = 14 ∧
    pwm_running_14.mem 0 =
      { gs_str_pwm_pin with cycle_duration := 50, t_on := 15, pwm_state := PWM_ON } ∧
    pwm_running_14.dio = { DioRegs.reset with DATA_DIRECTION_PORTA := 4, WR_PORT_A := 4 } := by
  simp [pwm_running_14, Function.iterate_succ, pwm_tick_counter, pwm_tick_counter_loop,
    pwm_checking, pwm_init, pwm_start, pwm_power_on, PwmState.init, two_channel_mem,
    gs_str_pwm_pin, pwm_cycle_duration_eq, pwm_t_on_30_50, pwm_t_on_50_50, pwm_actual_time, to_u32,
    DIO_write_pin, DIO_init, DioRegs.reset, DIO_MAX_PINS, PWM_CHANNEL_MAX, U8_ZERO_VALUE,
    dio_enu_pin_t.val, dio_u8_enu_direction_t.val, set_bit_u8, to_u8, U8_ONE_VALUE]

/-- C7 fails as stated: a channel registered a second time by `pwm_init` while
its pin is HIGH has state `PWM_OFF` with the pin still HIGH; `pwm_checking` at
the next tick, at an elapsed time (15) between `t_on` (15) and `cycle_duration`
(50), finds the state already `PWM_OFF`, writes nothing, and the pin ends
HIGH, not LOW. -/
theorem pwm_checking_leaves_pin_high_when_already_off :
    (pwm_reinitialised.mem 0).t_on = 15 ∧
    (pwm_reinitialised.mem 0).cycle_duration = 50 ∧
    pwm_actual_time (pwm_reinitialised.mem 0).pwm_tick_ss pwm_reinitialised.pwm_tick = 15 ∧
    ((pwm_checking (some 0) pwm_reinitialised).2.mem 0).pwm_state = PWM_OFF ∧
    pin_level (pwm_checking (some 0) pwm_reinitialised).2.dio PORTA PIN2
      = DIO_PIN_HIGH_LEVEL := by
  have h := pwm_running_14_eval
  simp [pwm_reinitialised, pwm_checking, pwm_init, h.1, h.2.1, h.2.2, gs_str_pwm_pin,
    pwm_cycle_duration_eq, pwm_t_on_30_50, pwm_t_on_50_50, pwm_actual_time, to_u32, DIO_init, DioRegs.reset,
    pin_level, DioRegs.WR, DIO_MAX_PINS, dio_enu_pin_t.val, dio_u8_enu_direction_t.val, to_u8]
  decide

/-- C7 (amended): `pwm_checking` on a NULL channel returns `PWM_NOK` and changes
nothing.  On a non-null channel it returns `PWM_OK` and, with `elapsed`
computed from `pwm_tick` and `pwm_tick_ss`: if `elapsed < t_on` the channel ends
with state `PWM_ON`, the pin being written HIGH when the state was not already
`PWM_ON` and no register being written when it was; else if
`elapsed < cycle_duration` it ends with state `PWM_OFF`, the pin being written
LOW when the state was not already `PWM_OFF` and no register being written when
it was; otherwise `pwm_tick_ss` becomes the current `pwm_tick` and state and
registers are unchanged.  Hence, when the pin level agreed with the state
before the call, the pin ends HIGH in the first case and LOW in the second. -/
theorem pwm_checking_cases (w : PwmState) (a : Nat) :
    pwm_checking none w = (PWM_NOK, w) ∧
    (pwm_checking (some a) w).1 = PWM_OK ∧
    (pwm_actual_time (w.mem a).pwm_tick_ss w.pwm_tick < (w.mem a).t_on →
      ((pwm_checking (some a) w).2.mem a).pwm_state = PWM_ON ∧
      ((w.mem a).pwm_state ≠ PWM_ON →
        pin_level (pwm_checking (some a) w).2.dio (w.mem a).enu_port_index
          (w.mem a).enu_pin_index = DIO_PIN_HIGH_LEVEL) ∧
      ((w.mem a).pwm_state = PWM_ON → (pwm_checking (some a) w).2.dio = w.dio)) ∧
    (¬ pwm_actual_time (w.mem a).pwm_tick_ss w.pwm_tick < (w.mem a).t_on →
      pwm_actual_time (w.mem a).pwm_tick_ss w.pwm_tick < (w.mem a).cycle_duration →
      ((pwm_checking (some a) w).2.mem a).pwm_state = PWM_OFF ∧
      ((w.mem a).pwm_state ≠ PWM_OFF →
        pin_level (pwm_checking (some a) w).2.dio (w.mem a).enu_port_index
          (w.mem a).enu_pin_index = DIO_PIN_LOW_LEVEL) ∧
      ((w.mem a).pwm_state = PWM_OFF → (pwm_checking (some a) w).2.dio = w.dio)) ∧
    (¬ pwm_actual_time (w.mem a).pwm_tick_ss w.pwm_tick < (w.mem a).t_on →
      ¬ pwm_actual_time (w.mem a).pwm_tick_ss w.pwm_tick < (w.mem a).cycle_duration →
      ((pwm_checking (some a) w).2.mem a).pwm_tick_ss = w.pwm_tick ∧
      ((pwm_checking (some a) w).2.mem a).pwm_state = (w.mem a).pwm_state ∧
      (pwm_checking (some a) w).2.dio = w.dio) ∧
    (pin_level w.dio (w.mem a).enu_port_index (w.mem a).enu_pin_index
        = (if (w.mem a).pwm_state = PWM_ON then DIO_PIN_HIGH_LEVEL else DIO_PIN_LOW_LEVEL) →
      (pwm_actual_time (w.mem a).pwm_tick_ss w.pwm_tick < (w.mem a).t_on →
        pin_level (pwm_checking (some a) w).2.dio (w.mem a).enu_port_index
          (w.mem a).enu_pin_index = DIO_PIN_HIGH_LEVEL) ∧
      (¬ pwm_actual_time (w.mem a).pwm_tick_ss w.pwm_tick < (w.mem a).t_on →
        pwm_actual_time (w.mem a).pwm_tick_ss w.pwm_tick < (w.mem a).cycle_duration →
        pin_level (pwm_checking (some a) w).2.dio (w.mem a).enu_port_index
          (w.mem a).enu_pin_index = DIO_PIN_LOW_LEVEL)) := by
  refine ⟨rfl, ?_, ?_, ?_, ?_, ?_⟩
  · simp only [pwm_checking]
    split_ifs <;> rfl
  · intro h
    by_cases hs : (w.mem a).pwm_state = PWM_ON
    · simp [pwm_checking, h, hs]
    · simp [pwm_checking, h, hs, pin_level_DIO_write_pin]
  · intro h1 h2
    by_cases hs : (w.mem a).pwm_state = PWM_OFF
    · simp [pwm_checking, h1, h2, hs]
    · simp [pwm_checking, h1, h2, hs, pin_level_DIO_write_pin]
  · intro h1 h2
    simp [pwm_checking, h1, h2]
  · intro hcoh
    constructor
    · intro h
      by_cases hs : (w.mem a).pwm_state = PWM_ON
      · simpa [pwm_checking, h, hs] using hcoh
      · simp [pwm_checking, h, hs, pin_level_DIO_write_pin]
    · intro h1 h2
      by_cases hs : (w.mem a).pwm_state = PWM_OFF
      · simpa [pwm_checking, h1, h2, hs] using hcoh
      · simp [pwm_checking, h1, h2, hs, pin_level_DIO_write_pin]

/-- Witness for C7 (amended): the started application channel, whose pin is
HIGH and whose state is `PWM_ON`, checked by the 15th tick callback, at elapsed
time 15 (`t_on = 15`, `cycle_duration = 50`): the pin ends LOW. -/
theorem pwm_checking_cases_witness :
    pin_level (pwm_checking (some 0) pwm_running_15).2.dio
      (pwm_running_15.mem 0).enu_port_index (pwm_running_15.mem 0).enu_pin_index
      = DIO_PIN_LOW_LEVEL :=
  have h := pwm_running_14_eval
  ((pwm_checking_cases pwm_running_15 0).2.2.2.2.2
    (by
      simp [pwm_running_15, h.1, h.2.1, h.2.2, gs_str_pwm_pin, DioRegs.reset, pin_level,
        DioRegs.WR, dio_enu_pin_t.val]
      decide)).2
    (by simp [pwm_running_15, h.1, h.2.1, gs_str_pwm_pin, pwm_actual_time, to_u32])
    (by simp [pwm_running_15, h.1, h.2.1, gs_str_pwm_pin, pwm_actual_time, to_u32])

/-- The function `pwm_checking` writes none of the static variables of the
module. -/
theorem pwm_checking_statics (p : Option Nat) (w : PwmState) :
    (pwm_checking p w).2.gs_arr_str_pwm_configuration = w.gs_arr_str_pwm_configuration ∧
    (pwm_checking p w).2.gs_u8_pwm_channel_counter = w.gs_u8_pwm_channel_counter ∧
    (pwm_checking p w).2.pwm_tick = w.pwm_tick := by
  cases p with
  | none => exact ⟨rfl, rfl, rfl⟩
  | some a =>
    simp only [pwm_checking]
    split_ifs <;> exact ⟨rfl, rfl, rfl⟩

/-- The function `pwm_checking` leaves every channel object other than its
argument unchanged. -/
theorem pwm_checking_mem_other (p : Option Nat) (w : PwmState) (a : Nat)
    (h : p ≠ some a) : (pwm_checking p w).2.mem a = w.mem a := by
  cases p with
  | none => rfl
  | some b =>
    have hab : a ≠ b := fun e => h (by rw [e])
    simp only [pwm_checking]
    split_ifs <;> simp [Function.update_noteq hab]

/-- The loop of `pwm_tick_counter` leaves table and channel counter unchanged,
and leaves unchanged every channel object whose address is not in the table. -/
theorem pwm_tick_counter_loop_frame (a : Nat) (n : Nat) :
    ∀ (i : Nat) (w : PwmState),
      (∀ j, w.gs_arr_str_pwm_configuration.getD j none ≠ some a) →
      (pwm_tick_counter_loop n i w).gs_arr_str_pwm_configuration
          = w.gs_arr_str_pwm_configuration ∧
      (pwm_tick_counter_loop n i w).gs_u8_pwm_channel_counter
          = w.gs_u8_pwm_channel_counter ∧
      (pwm_tick_counter_loop n i w).mem a = w.mem a := by
  induction n with
  | zero => intro i w _; exact ⟨rfl, rfl, rfl⟩
  | succ n ih =>
    intro i w h
    simp only [pwm_tick_counter_loop]
    split_ifs with hc
    · have hs := pwm_checking_statics (w.gs_arr_str_pwm_configuration.getD i none) w
      have hm := pwm_checking_mem_other (w.gs_arr_str_pwm_configuration.getD i none) w a (h i)
      have h2 := ih (i + 1)
        (pwm_checking (w.gs_arr_str_pwm_configuration.getD i none) w).2
        (by rw [hs.1]; exact h)
      exact ⟨h2.1.trans hs.1, h2.2.1.trans hs.2.1, h2.2.2.trans hm⟩
    · exact ⟨rfl, rfl, rfl⟩

/-- C10 (the code at the failing input): after two successful `pwm_init` calls
on the distinct channels at addresses 0 and 1, the table holds only the second
one, at index 0, because `gs_u8_pwm_channel_counter` is still 0; and however
many times `pwm_tick_counter` runs after both channels were started, the
channel at address 0 is never checked: it keeps state `PWM_ON` and its start
tick although its on-time of 15 ticks has long elapsed. -/
theorem pwm_init_second_registration_replaces_first (n : Nat) :
    (pwm_init (some 0) pwm_power_on).1 = PWM_OK ∧
    (pwm_init (some 1) (pwm_init (some 0) pwm_power_on).2).1 = PWM_OK ∧
    (pwm_init (some 1) (pwm_init (some 0) pwm_power_on).2).2.gs_arr_str_pwm_configuration
      = [some 1, none, none, none, none] ∧
    (pwm_init (some 1) (pwm_init (some 0) pwm_power_on).2).2.gs_u8_pwm_channel_counter = 0 ∧
    (pwm_two_registered.mem 0).t_on = 15 ∧
    ((pwm_tick_counter^[n] pwm_two_registered).mem 0).pwm_state = PWM_ON ∧
    ((pwm_tick_counter^[n] pwm_two_registered).mem 0).pwm_tick_ss = 0 := by
  have htab : pwm_two_registered.gs_arr_str_pwm_configuration
      = [some 1, none, none, none, none] := rfl
  have hinv : ∀ k : Nat,
      (pwm_tick_counter^[k] pwm_two_registered).gs_arr_str_pwm_configuration
          = [some 1, none, none, none, none] ∧
      (pwm_tick_counter^[k] pwm_two_registered).mem 0 = pwm_two_registered.mem 0 := by
    intro k
    induction k with
    | zero => exact ⟨htab, rfl⟩
    | succ k ih =>
      rw [Function.iterate_succ_apply']
      have hno : ∀ j, ({ (pwm_tick_counter^[k] pwm_two_registered) with
          pwm_tick := to_u32 ((pwm_tick_counter^[k] pwm_two_registered).pwm_tick + 1) }
            : PwmState).gs_arr_str_pwm_configuration.getD j none ≠ some 0 := by
        intro j
        show (pwm_tick_counter^[k] pwm_two_registered).gs_arr_str_pwm_configuration.getD j none
          ≠ some 0
        rw [ih.1]
        match j with
        | 0 => decide
        | 1 => decide
        | 2 => decide
        | 3 => decide
        | 4 => decide
        | j + 5 => simp
      have h := pwm_tick_counter_loop_frame 0 PWM_CHANNEL_MAX U8_ZERO_VALUE _ hno
      exact ⟨h.1.trans ih.1, h.2.2.trans ih.2⟩
  have hmem : pwm_two_registered.mem 0 =
      { gs_str_pwm_pin with cycle_duration := 50, t_on := 15, pwm_state := PWM_ON } := by
    simp [pwm_two_registered, pwm_init, pwm_start, pwm_power_on, PwmState.init,
      two_channel_mem, gs_str_pwm_pin, pwm_cycle_duration_eq, pwm_t_on_30_50, pwm_t_on_50_50]
  refine ⟨rfl, rfl, rfl, rfl, ?_, ?_, ?_⟩
  · rw [hmem]
  · rw [(hinv n).2, hmem]
  · rw [(hinv n).2, hmem]
    rfl

/-! ### Echo-ranging driver -/

/-- After `n` overflow callbacks the overflow count has advanced by `n`, in 32
bits; nothing else changes. -/
theorem HULTRASONIC_vidTimerCBF_iterate (n : Nat) (s : UltrasonicState) :
    HULTRASONIC_vidTimerCBF^[n] s =
      { s with g_v_u16_ovfCounts :=
          if n = 0 then s.g_v_u16_ovfCounts else to_u32 (s.g_v_u16_ovfCounts + n) } := by
  induction n with
  | zero => rfl
  | succ n ih =>
    rw [Function.iterate_succ_apply', ih]
    simp only [HULTRASONIC_vidTimerCBF, to_u32]
    by_cases h : n = 0
    · subst h
      simp
    · simp only [h, if_false, Nat.succ_ne_zero]
      congr 1
      omega

/-- The falling-edge branch of `HULTRASONIC_vidSigCalc` (phase flag 1). -/
theorem HULTRASONIC_vidSigCalc_flag_one (t : UltrasonicState) (h : t.g_v_u8_flag = 1) :
    (HULTRASONIC_vidSigCalc t).global_f64distance
      = ((to_u32 (to_u8 t.TCNT2_ADD + 256 * to_u16 t.g_v_u16_ovfCounts) : ℕ) : ℚ)
          * CONSTANT_TO_DISTANCE ∧
    (HULTRASONIC_vidSigCalc t).g_v_u8_flag = 0 ∧
    (HULTRASONIC_vidSigCalc t).g_v_u16_ovfCounts = 0 ∧
    (HULTRASONIC_vidSigCalc t).g_v_u16_ovf = 0 ∧
    (HULTRASONIC_vidSigCalc t).timer2_clock_on = false ∧
    (HULTRASONIC_vidSigCalc t).exti1_sense = EXTI_RISING_EDGE ∧
    (HULTRASONIC_vidSigCalc t).exti1_enabled = true := by
  simp [HULTRASONIC_vidSigCalc, h, timing_stop_2, timing_get_ticks_2, extim_init_enable_EXTI_1]

/-- C8 fails as stated: with an overflow count of 65536 and a captured value of
10, the falling-edge branch publishes `10 * CONSTANT_TO_DISTANCE`, not
`(65536 * 256 + 10) * CONSTANT_TO_DISTANCE`: the count passes through the
16-bit variable `g_v_u16_ovf`. -/
theorem HULTRASONIC_vidSigCalc_overflow_count_truncated :
    (HULTRASONIC_vidSigCalc
        { UltrasonicState.init with
          g_v_u8_flag := 1, g_v_u16_ovfCounts := 65536, TCNT2_ADD := 10 }).global_f64distance
      = 10 * CONSTANT_TO_DISTANCE ∧
    (HULTRASONIC_vidSigCalc
        { UltrasonicState.init with
          g_v_u8_flag := 1, g_v_u16_ovfCounts := 65536, TCNT2_ADD := 10 }).global_f64distance
      ≠ ((65536 * 256 + 10 : ℕ) : ℚ) * CONSTANT_TO_DISTANCE := by
  have h : (HULTRASONIC_vidSigCalc
        { UltrasonicState.init with
          g_v_u8_flag := 1, g_v_u16_ovfCounts := 65536, TCNT2_ADD := 10 }).global_f64distance
      = 10 * CONSTANT_TO_DISTANCE := by
    simp [HULTRASONIC_vidSigCalc, UltrasonicState.init, timing_stop_2, timing_get_ticks_2,
      extim_init_enable_EXTI_1, to_u8, to_u16, to_u32]
  refine ⟨h, ?_⟩
  rw [h]
  norm_num [CONSTANT_TO_DISTANCE]

/-- C8 (amended): starting from an idle driver, a rising edge, then `n`
timer-2 overflow callbacks (`n` a 32-bit count), then a falling edge at which
the counter register holds `c ≤ 255`: the falling-edge branch publishes
`((n mod 65536) * 256 + c) * CONSTANT_TO_DISTANCE`, which is
`(n * 256 + c) * CONSTANT_TO_DISTANCE` whenever `n < 65536`; it then has the
phase flag and the overflow count at 0, timer 2 stopped, and interrupt 1
enabled for a rising edge. -/
theorem HULTRASONIC_vidSigCalc_falling_edge (s : UltrasonicState) (n c : Nat)
    (hidle : s.g_v_u8_flag = 0) (hn : n < 4294967296) (hc : c ≤ 255) :
    (HULTRASONIC_vidSigCalc
        { (HULTRASONIC_vidTimerCBF^[n] (HULTRASONIC_vidSigCalc s)) with
          TCNT2_ADD := c }).global_f64distance
      = (((n % 65536) * 256 + c : ℕ) : ℚ) * CONSTANT_TO_DISTANCE ∧
    (n < 65536 →
      (HULTRASONIC_vidSigCalc
          { (HULTRASONIC_vidTimerCBF^[n] (HULTRASONIC_vidSigCalc s)) with
            TCNT2_ADD := c }).global_f64distance
        = ((n * 256 + c : ℕ) : ℚ) * CONSTANT_TO_DISTANCE) ∧
    (HULTRASONIC_vidSigCalc
        { (HULTRASONIC_vidTimerCBF^[n] (HULTRASONIC_vidSigCalc s)) with
          TCNT2_ADD := c }).g_v_u8_flag = 0 ∧
    (HULTRASONIC_vidSigCalc
        { (HULTRASONIC_vidTimerCBF^[n] (HULTRASONIC_vidSigCalc s)) with
          TCNT2_ADD := c }).g_v_u16_ovfCounts = 0 ∧
    (HULTRASONIC_vidSigCalc
        { (HULTRASONIC_vidTimerCBF^[n] (HULTRASONIC_vidSigCalc s)) with
          TCNT2_ADD := c }).timer2_clock_on = false ∧
    (HULTRASONIC_vidSigCalc
        { (HULTRASONIC_vidTimerCBF^[n] (HULTRASONIC_vidSigCalc s)) with
          TCNT2_ADD := c }).exti1_sense = EXTI_RISING_EDGE ∧
    (HULTRASONIC_vidSigCalc
        { (HULTRASONIC_vidTimerCBF^[n] (HULTRASONIC_vidSigCalc s)) with
          TCNT2_ADD := c }).exti1_enabled = true := by
  have hcount : (HULTRASONIC_vidTimerCBF^[n] (HULTRASONIC_vidSigCalc s)).g_v_u16_ovfCounts = n := by
    rw [HULTRASONIC_vidTimerCBF_iterate]
    by_cases h0 : n = 0
    · subst h0
      simp [HULTRASONIC_vidSigCalc, hidle, timing_start_2, extim_init_enable_EXTI_1]
    · simp [HULTRASONIC_vidSigCalc, hidle, timing_start_2, extim_init_enable_EXTI_1, h0, to_u32]
      omega
  have hflag : (HULTRASONIC_vidTimerCBF^[n] (HULTRASONIC_vidSigCalc s)).g_v_u8_flag = 1 := by
    rw [HULTRASONIC_vidTimerCBF_iterate]
    simp [HULTRASONIC_vidSigCalc, hidle, timing_start_2, extim_init_enable_EXTI_1]
  have hticks : to_u32 (to_u8 c + 256 * to_u16 n) = (n % 65536) * 256 + c := by
    unfold to_u32 to_u8 to_u16
    omega
  generalize HULTRASONIC_vidTimerCBF^[n] (HULTRASONIC_vidSigCalc s) = t at hcount hflag
  have hf := HULTRASONIC_vidSigCalc_flag_one { t with TCNT2_ADD := c } hflag
  subst hcount
  have h1 := hf.1
  change _ = ((to_u32 (to_u8 c + 256 * to_u16 t.g_v_u16_ovfCounts) : ℕ) : ℚ)
    * CONSTANT_TO_DISTANCE at h1
  rw [hticks] at h1
  refine ⟨h1, ?_, hf.2.1, hf.2.2.1, hf.2.2.2.2.1, hf.2.2.2.2.2.1, hf.2.2.2.2.2.2⟩
  intro hlt
  rw [h1, Nat.mod_eq_of_lt hlt]

/-- Witness for C8 (amended): two overflows and a captured value of 10 give
`522 * CONSTANT_TO_DISTANCE`. -/
theorem HULTRASONIC_vidSigCalc_falling_edge_witness :
    (HULTRASONIC_vidSigCalc
        { (HULTRASONIC_vidTimerCBF^[2] (HULTRASONIC_vidSigCalc UltrasonicState.init)) with
          TCNT2_ADD := 10 }).global_f64distance
      = 522 * CONSTANT_TO_DISTANCE :=
  ((HULTRASONIC_vidSigCalc_falling_edge UltrasonicState.init 2 10 rfl (by decide)
      (by decide)).2.1 (by decide)).trans (by norm_num)

/-! ### Navigation decision state machine -/

/-- The function `APP_make_decision` never stores `OBSTACLE_HOLD_MOVING`. -/
theorem APP_make_decision_ne_hold (reading : ℚ) :
    (APP_make_decision reading).2 ≠ OBSTACLE_HOLD_MOVING := by
  simp only [APP_make_decision]
  split_ifs <;> decide

/-- A property of the state that the body of a timed loop preserves, and that
does not depend on the timeout handle or on the number of reads, holds when
the loop ends. -/
theorem APP_timed_loop_preserves (P : AppState → Prop) (env : AppEnv) (d : Nat)
    (body : AppState → AppState) (hbody : ∀ s, P s → P (body s))
    (hframe : ∀ (s : AppState) (t : TimingState) (n : Nat),
      P s → P { s with timing := t, reads := n }) :
    ∀ (fuel : Nat) (st st' : AppState),
      P st → APP_timed_loop env d body fuel st = some st' → P st' := by
  intro fuel
  induction fuel with
  | zero =>
    intro st st' _ h
    simp [APP_timed_loop] at h
  | succ fuel ih =>
    intro st st' hP h
    have h1 : P (app_timing_time_out env d st).2 := hframe st _ _ hP
    have h2 : P (app_motor_started env (app_timing_time_out env d st).2).2 :=
      hframe _ (app_timing_time_out env d st).2.timing _ h1
    simp only [APP_timed_loop] at h
    split_ifs at h with hto hm
    · exact ih _ _ (hbody _ h2) h
    · cases h
      exact h2
    · cases h
      exact h1

/-- A property of the state that the body of a band loop preserves, and that
does not depend on the number of reads, holds when the loop ends. -/
theorem APP_band_loop_preserves (P : AppState → Prop) (env : AppEnv)
    (band : en_Dist_states_t) (body : AppState → AppState)
    (hbody : ∀ s, P s → P (body s))
    (hframe : ∀ (s : AppState) (t : TimingState) (n : Nat),
      P s → P { s with timing := t, reads := n }) :
    ∀ (fuel : Nat) (st st' : AppState),
      P st → APP_band_loop env band body fuel st = some st' → P st' := by
  intro fuel
  induction fuel with
  | zero =>
    intro st st' _ h
    simp [APP_band_loop] at h
  | succ fuel ih =>
    intro st st' hP h
    have h2 : P (app_motor_started env st).2 := hframe st st.timing _ hP
    simp only [APP_band_loop] at h
    split_ifs at h with hb hm
    · exact ih _ _ (hbody _ h2) h
    · cases h
      exact h2
    · cases h
      exact hP

/-- A sample taken anywhere but after a rotation or after a hold wait leaves
the rotation counter and the current run unchanged, and stores a band other
than `OBSTACLE_HOLD_MOVING`. -/
theorem app_sample_core (env : AppEnv) (site : sample_site) (s : AppState)
    (h1 : site ≠ after_rotate) (h2 : site ≠ after_hold) :
    (app_sample env site s).gs_u8_rotate_counter = s.gs_u8_rotate_counter ∧
    mid_resample_run (app_sample env site s).trace = mid_resample_run s.trace ∧
    (app_sample env site s).en_Dist_states ≠ OBSTACLE_HOLD_MOVING := by
  refine ⟨rfl, ?_, APP_make_decision_ne_hold _⟩
  cases site <;> first | exact absurd rfl h1 | exact absurd rfl h2 | rfl

/-- One iteration of the control loop preserves `APP_rotation_inv`. -/
theorem APP_vidStart_loop_body_inv (env : AppEnv) (fuel : Nat) (st st' : AppState)
    (hinv : APP_rotation_inv st) (h : APP_vidStart_loop_body env fuel st = some st') :
    APP_rotation_inv st' := by
  obtain ⟨hc, hle, hh⟩ := hinv
  have e4 : APP_MAX_CAR_ROTATE - 1 = 4 := rfl
  rw [e4] at hle hh
  generalize hk : mid_resample_run st.trace = k at hc hle hh
  -- the part of the state that only the end of a rotation and the end of a hold change
  let P : AppState → Prop := fun s =>
    s.gs_u8_rotate_counter = 1 + k ∧ mid_resample_run s.trace = k ∧
      s.en_Dist_states ≠ OBSTACLE_HOLD_MOVING
  let Q : AppState → Prop := fun s =>
    s.gs_u8_rotate_counter = 1 + k ∧ mid_resample_run s.trace = k
  have hPframe : ∀ (s : AppState) (t : TimingState) (n : Nat),
      P s → P { s with timing := t, reads := n } := fun s t n hp => hp
  have hQframe : ∀ (s : AppState) (t : TimingState) (n : Nat),
      Q s → Q { s with timing := t, reads := n } := fun s t n hq => hq
  have hPsample : ∀ (site : sample_site), site ≠ after_rotate → site ≠ after_hold →
      ∀ s, Q s → P (app_sample env site s) := by
    intro site h1 h2 s hq
    have hs := app_sample_core env site s h1 h2
    exact ⟨hs.1.trans hq.1, hs.2.1.trans hq.2, hs.2.2⟩
  have hPQ : ∀ s, P s → Q s := fun s hp => ⟨hp.1, hp.2.1⟩
  have hPcar : ∀ (c : car_command) (d : Nat) (s : AppState),
      P s → P (app_car c { s with duty_cycle := d }) := fun c d s hp => hp
  have hPinv : ∀ s, k < 4 → P s → APP_rotation_inv s := by
    intro s hk4 hp
    refine ⟨?_, ?_, ?_⟩
    · rw [hp.1, hp.2.1]
    · rw [hp.2.1, e4]
      omega
    · rw [hp.2.1, e4]
      constructor
      · intro e
        exact absurd e hp.2.2
      · intro e
        omega
  by_cases hgate : st.gs_u8_rotate_counter < APP_MAX_CAR_ROTATE
  · -- the loop head samples: the state is a band
    have hk4 : k < 4 := by
      unfold APP_MAX_CAR_ROTATE at hgate
      omega
    have hP1 : P (app_sample env loop_head st) :=
      hPsample loop_head (by decide) (by decide) st ⟨hc, hk⟩
    simp only [APP_vidStart_loop_body, APP_loop_head, hgate, if_true] at h
    generalize app_sample env loop_head st = st1 at h hP1
    split_ifs at h with b1 b2 b3 b4 b5
    · -- NO_OBSTACLES
      rw [Option.bind_eq_some] at h
      obtain ⟨st2, hl, h⟩ := h
      have hP2 : P st2 :=
        APP_timed_loop_preserves P env _ _
          (fun s hp => hPsample no_obstacle_window (by decide) (by decide) _
            (hPQ _ (hPcar CAR_FORWARD APP_CAR_SPEED_30_PRE s hp)))
          hPframe fuel st1 st2 hP1 hl
      split_ifs at h with b6
      · exact hPinv _ hk4
          (APP_band_loop_preserves P env _ _
            (fun s hp => hPsample no_obstacle_cruise (by decide) (by decide) s (hPQ s hp))
            hPframe fuel _ st' (hPcar CAR_FORWARD APP_CAR_SPEED_50_PRE st2 hP2) h)
      · cases h
        exact hPinv _ hk4 hP2
    · -- OBSTACLE_70_30
      exact hPinv _ hk4
        (APP_band_loop_preserves P env _ _
          (fun s hp => hPsample far_band (by decide) (by decide) s (hPQ s hp))
          hPframe fuel _ st' (hPcar CAR_FORWARD APP_CAR_SPEED_30_PRE st1 hP1) h)
    · -- OBSTACLE_30_20
      rw [Option.bind_eq_some] at h
      obtain ⟨st4, hl, h⟩ := h
      cases h
      have hP3 : P (APP_begin_rotation st1) := by
        simp only [APP_begin_rotation]
        split_ifs <;> exact hP1
      have hP4 : P st4 :=
        APP_timed_loop_preserves P env _ _
          (fun s hp => hPsample rotate_window (by decide) (by decide) s (hPQ s hp))
          hPframe fuel _ st4 hP3 hl
      obtain ⟨h41, h42, _⟩ := hP4
      unfold APP_after_rotation
      simp only [app_sample, app_car]
      split_ifs with m1 m2
      · -- the re-sample is OBSTACLE_30_20 and the counter reaches the maximum
        simp only [to_u8, APP_MAX_CAR_ROTATE, h41] at m2
        refine ⟨?_, ?_, ?_⟩
        · simp only [mid_resample_run, m1, if_true, to_u8, h41, h42]
          omega
        · simp only [mid_resample_run, m1, if_true, h42, e4]
          omega
        · simp only [mid_resample_run, m1, if_true, h42, e4, true_iff]
          omega
      · -- the re-sample is OBSTACLE_30_20 and the counter stays below the maximum
        simp only [to_u8, APP_MAX_CAR_ROTATE, h41] at m2
        refine ⟨?_, ?_, ?_⟩
        · simp only [mid_resample_run, m1, if_true, to_u8, h41, h42]
          omega
        · simp only [mid_resample_run, m1, if_true, h42, e4]
          omega
        · simp only [mid_resample_run, m1, if_true, h42, e4]
          constructor
          · intro e
            cases e
          · intro e
            omega
      · -- the re-sample is another band
        refine ⟨?_, ?_, ?_⟩
        · simp only [mid_resample_run, m1, if_false, U8_ONE_VALUE]
        · simp only [mid_resample_run, m1, if_false]
          omega
        · simp only [mid_resample_run, m1, if_false, e4]
          constructor
          · intro e
            exact absurd e (APP_make_decision_ne_hold _)
          · intro e
            omega
    · -- OBSTACLE_LESS_20
      exact hPinv _ hk4
        (APP_band_loop_preserves P env _ _
          (fun s hp => hPsample near_band (by decide) (by decide) s (hPQ s hp))
          hPframe fuel _ st' (hPcar CAR_BACKWARD APP_CAR_SPEED_30_PRE st1 hP1) h)
    · -- OBSTACLE_HOLD_MOVING cannot be the result of a sample
      exact absurd b5 hP1.2.2
    · cases h
      exact hPinv _ hk4 hP1
  · -- the loop head does not sample: the state is OBSTACLE_HOLD_MOVING
    have hk4 : k = 4 := by
      unfold APP_MAX_CAR_ROTATE at hgate
      omega
    have hhold : st.en_Dist_states = OBSTACLE_HOLD_MOVING := hh.mpr hk4
    simp only [APP_vidStart_loop_body, APP_loop_head, hgate, if_false, hhold] at h
    simp only [reduceCtorEq, if_false, if_true] at h
    rw [Option.bind_eq_some] at h
    obtain ⟨st2, hl, h⟩ := h
    cases h
    refine ⟨?_, ?_, ?_⟩
    · simp only [app_sample, mid_resample_run, U8_ONE_VALUE]
    · simp only [app_sample, mid_resample_run]
      omega
    · simp only [app_sample, mid_resample_run, e4]
      constructor
      · intro e
        exact absurd e (APP_make_decision_ne_hold _)
      · intro e
        omega

/-- C1: with `d = min r 99`, `APP_make_decision` stores `NO_OBSTACLES` if
`d > 70`, `OBSTACLE_70_30` if `30 < d ≤ 70`, `OBSTACLE_30_20` if `20 ≤ d ≤ 30`
and `OBSTACLE_LESS_20` if `d < 20`; it never stores `NO_DECISION`; the
boundary values 70, 30 and 20 fall in `OBSTACLE_70_30`, `OBSTACLE_30_20` and
`OBSTACLE_30_20`; and the band a sample leaves in the state of the control loop
is this function of the reading, whatever the state was before. -/
theorem APP_make_decision_bands (r : ℚ) :
    (min r 99 > 70 → (APP_make_decision r).2 = NO_OBSTACLES) ∧
    (30 < min r 99 ∧ min r 99 ≤ 70 → (APP_make_decision r).2 = OBSTACLE_70_30) ∧
    (20 ≤ min r 99 ∧ min r 99 ≤ 30 → (APP_make_decision r).2 = OBSTACLE_30_20) ∧
    (min r 99 < 20 → (APP_make_decision r).2 = OBSTACLE_LESS_20) ∧
    (APP_make_decision r).2 ≠ NO_DECISION ∧
    (APP_make_decision 70).2 = OBSTACLE_70_30 ∧
    (APP_make_decision 30).2 = OBSTACLE_30_20 ∧
    (APP_make_decision 20).2 = OBSTACLE_30_20 ∧
    (∀ (env : AppEnv) (site : sample_site) (s : AppState),
      env.distance s.reads = r →
      (app_sample env site s).en_Dist_states = (APP_make_decision r).2) := by
  have hd : (if r > APP_MAX_MEASURED_DIST then APP_MAX_MEASURED_DIST else r) = min r 99 := by
    unfold APP_MAX_MEASURED_DIST
    by_cases h : r > 99
    · rw [if_pos h, min_eq_right (le_of_lt h)]
    · rw [if_neg h, min_eq_left (not_lt.mp h)]
  simp only [APP_make_decision, hd, APP_DISTANCE_70_CM, APP_DISTANCE_30_CM, APP_DISTANCE_20_CM]
  refine ⟨?_, ?_, ?_, ?_, ?_, ?_, ?_, ?_, ?_⟩
  · intro h
    rw [if_pos h]
  · intro h
    rw [if_neg (not_lt.mpr h.2), if_pos h]
  · intro h
    rw [if_neg (by linarith [h.2]), if_neg (by intro c; linarith [c.1, h.2]), if_pos h]
  · intro h
    rw [if_neg (by linarith), if_neg (by intro c; linarith [c.1]),
      if_neg (by intro c; linarith [c.1]), if_pos h]
  · split_ifs with h1 h2 h3 h4
    · decide
    · decide
    · decide
    · decide
    · exfalso
      by_cases c : min r 99 ≤ 30
      · exact h3 ⟨not_lt.mp h4, c⟩
      · exact h2 ⟨not_le.mp c, not_lt.mp h1⟩
  · decide
  · decide
  · decide
  · intro env site s hr
    simp only [app_sample, APP_make_decision, hr, hd, APP_DISTANCE_70_CM, APP_DISTANCE_30_CM,
      APP_DISTANCE_20_CM]

/-- Witness for C1: a reading of 150 is clamped to 99 and classified
`NO_OBSTACLES`; a reading of 25 is classified `OBSTACLE_30_20`. -/
theorem APP_make_decision_bands_witness :
    (APP_make_decision 150).2 = NO_OBSTACLES ∧ (APP_make_decision 25).2 = OBSTACLE_30_20 :=
  ⟨(APP_make_decision_bands 150).1 (by norm_num),
    (APP_make_decision_bands 25).2.2.1 (by norm_num)⟩

/-- C9: for every reading above 99.0 (`APP_MAX_MEASURED_DIST`),
`APP_make_decision` stores exactly 99 in the distance output; for every
reading of at most 99.0 it stores the reading unchanged; and this is the value
a sample leaves in `gs_fl_dist`. -/
theorem APP_make_decision_clamp (r : ℚ) :
    (r > 99 → (APP_make_decision r).1 = 99) ∧
    (r ≤ 99 → (APP_make_decision r).1 = r) ∧
    (∀ (env : AppEnv) (site : sample_site) (s : AppState),
      env.distance s.reads = r →
      (app_sample env site s).gs_fl_dist = (APP_make_decision r).1) := by
  simp only [APP_make_decision, APP_MAX_MEASURED_DIST]
  refine ⟨?_, ?_, ?_⟩
  · intro h
    rw [if_pos h]
  · intro h
    rw [if_neg (not_lt.mpr h)]
  · intro env site s hr
    simp only [app_sample, APP_make_decision, hr, APP_MAX_MEASURED_DIST]

/-- Witness for C9: a reading of 150 is stored as 99, a reading of 42 as 42. -/
theorem APP_make_decision_clamp_witness :
    (APP_make_decision 150).1 = 99 ∧ (APP_make_decision 42).1 = 42 :=
  ⟨(APP_make_decision_clamp 150).1 (by norm_num),
    (APP_make_decision_clamp 42).2.1 (by norm_num)⟩

/-- C2 fails as stated: from the initial state (rotation counter 1), with every
reading at 25 cm, the state after three iterations of the control loop is
still `OBSTACLE_30_20` and after the fourth it is `OBSTACLE_HOLD_MOVING`, with
the counter at 5, when exactly four post-rotation re-samples have been taken,
all `OBSTACLE_30_20`: the hold is forced at the fourth such re-sample, not the
fifth.  The fifth iteration is the hold itself: it takes no post-rotation
re-sample, resets the counter to 1 and leaves the hold state. -/
theorem APP_hold_forced_at_fourth_resample :
    (APP_vidStart_loop env_always_25 3 3 AppState.init).map
        (fun s => (s.en_Dist_states, s.gs_u8_rotate_counter, post_rotation_resamples s.trace))
      = some (OBSTACLE_30_20, 4, [OBSTACLE_30_20, OBSTACLE_30_20, OBSTACLE_30_20]) ∧
    (APP_vidStart_loop env_always_25 3 4 AppState.init).map
        (fun s => (s.en_Dist_states, s.gs_u8_rotate_counter, post_rotation_resamples s.trace))
      = some (OBSTACLE_HOLD_MOVING, 5,
          [OBSTACLE_30_20, OBSTACLE_30_20, OBSTACLE_30_20, OBSTACLE_30_20]) ∧
    (APP_vidStart_loop env_always_25 4 5 AppState.init).map
        (fun s => (s.en_Dist_states, s.gs_u8_rotate_counter, post_rotation_resamples s.trace))
      = some (OBSTACLE_30_20, 1,
          [OBSTACLE_30_20, OBSTACLE_30_20, OBSTACLE_30_20, OBSTACLE_30_20]) := by
  decide

/-- C2 (amended): with `APP_MAX_CAR_ROTATE = 5` and the rotation counter
starting at 1, at the head of every iteration of the control loop the counter
is one more than the number of consecutive post-rotation re-samples that
classified as `OBSTACLE_30_20` (counted since the last post-rotation re-sample
of another band or the last hold), that number is at most 4, and the state is
`OBSTACLE_HOLD_MOVING` exactly when it is 4.  So the hold is forced exactly at
the fourth (`APP_MAX_CAR_ROTATE - 1`) consecutive such re-sample, at no earlier
one, and once for that run, which the hold ends. -/
theorem APP_hold_exactly_at_fourth_mid_resample :
    APP_rotation_inv AppState.init ∧
    ∀ (env : AppEnv) (fuel n : Nat) (st st' : AppState),
      APP_rotation_inv st → APP_vidStart_loop env fuel n st = some st' →
      APP_rotation_inv st' := by
  constructor
  · refine ⟨rfl, by decide, ?_⟩
    constructor
    · intro e
      cases e
    · intro e
      cases e
  · intro env fuel n
    induction n with
    | zero =>
      intro st st' hinv h
      simp only [APP_vidStart_loop] at h
      cases h
      exact hinv
    | succ n ih =>
      intro st st' hinv h
      have hm : APP_rotation_inv (app_motor_started env st).2 := hinv
      simp only [APP_vidStart_loop] at h
      split_ifs at h with hs
      · rw [Option.bind_eq_some] at h
        obtain ⟨st1, hb, h⟩ := h
        exact ih st1 st' (APP_vidStart_loop_body_inv env fuel _ st1 hm hb) h
      · cases h
        exact hm

/-- Witness for C2 (amended): with every reading at 25 cm, four iterations from
the initial state end at a state that satisfies the relation, with a run of
four and the state `OBSTACLE_HOLD_MOVING`. -/
theorem APP_hold_exactly_at_fourth_mid_resample_witness :
    ∃ st4 : AppState,
      APP_vidStart_loop env_always_25 3 4 AppState.init = some st4 ∧
      APP_rotation_inv st4 ∧
      st4.en_Dist_states = OBSTACLE_HOLD_MOVING ∧ mid_resample_run st4.trace = 4 := by
  have hev : (APP_vidStart_loop env_always_25 3 4 AppState.init).map
      (fun s => (s.en_Dist_states, mid_resample_run s.trace))
        = some (OBSTACLE_HOLD_MOVING, 4) := by decide
  obtain ⟨st4, h4⟩ : ∃ st4, APP_vidStart_loop env_always_25 3 4 AppState.init = some st4 :=
    Option.isSome_iff_exists.mp (by decide)
  rw [h4] at hev
  simp only [Option.map_some', Option.some.injEq, Prod.mk.injEq] at hev
  exact ⟨st4, h4,
    APP_hold_exactly_at_fourth_mid_resample.2 env_always_25 3 4 AppState.init st4
      APP_hold_exactly_at_fourth_mid_resample.1 h4,
    hev.1, hev.2⟩

/-! ### Timeout service: reset -/

/-- C20: from every handle state, `timing_break_time_out` leaves the handle
fresh (`TIMING_CATCH`, timestamp 0) and does not change the tick counter;
calling it twice equals calling it once; and the next `timing_time_out` call,
at whatever tick `t` it is made, behaves exactly as on a fresh handle: the old
timestamp plays no part, the elapsed value it measures is that from `t` to `t`
(zero), and for a duration of at least 1 it stores `t` as the captured
timestamp and returns `TIMING_NOT_TIME_OUT`. -/
theorem timing_break_time_out_discards_window (s : TimingState) (t d : Nat) :
    (timing_break_time_out s).gs_enu_catch_state = TIMING_CATCH ∧
    (timing_break_time_out s).gs_u16_timestamp = 0 ∧
    (timing_break_time_out s).gs_u16_sys_tick = s.gs_u16_sys_tick ∧
    timing_break_time_out (timing_break_time_out s) = timing_break_time_out s ∧
    timing_time_out d { timing_break_time_out s with gs_u16_sys_tick := t }
      = timing_time_out d ⟨t, TIMING_CATCH, 0⟩ ∧
    timing_actual_time t t = 0 ∧
    (1 ≤ d →
      (timing_time_out d { timing_break_time_out s with gs_u16_sys_tick := t }).1
        = TIMING_NOT_TIME_OUT ∧
      (timing_time_out d
          { timing_break_time_out s with gs_u16_sys_tick := t }).2.gs_u16_timestamp = t ∧
      (timing_time_out d
          { timing_break_time_out s with gs_u16_sys_tick := t }).2.gs_enu_catch_state
        = TIMING_NOT_CATCH) := by
  have h0 : timing_actual_time t t = 0 := by
    simp [timing_actual_time, to_u16]
  refine ⟨rfl, rfl, rfl, rfl, rfl, h0, ?_⟩
  intro hd
  have hlt : ¬ (d ≤ timing_actual_time t t) := by
    rw [h0]
    omega
  simp [timing_time_out, timing_break_time_out, hlt]

/-- Witness for C20: an armed handle captured at tick 40, reset at tick 100 and
polled at tick 100 with duration 5, captures tick 100 and is pending. -/
theorem timing_break_time_out_discards_window_witness :
    (timing_time_out 5
        { timing_break_time_out ⟨100, TIMING_NOT_CATCH, 40⟩ with gs_u16_sys_tick := 100 }).1
      = TIMING_NOT_TIME_OUT ∧
    (timing_time_out 5
        { timing_break_time_out ⟨100, TIMING_NOT_CATCH, 40⟩ with
          gs_u16_sys_tick := 100 }).2.gs_u16_timestamp = 100 :=
  have h := (timing_break_time_out_discards_window ⟨100, TIMING_NOT_CATCH, 40⟩ 100 5).2.2.2.2.2.2
    (by decide)
  ⟨h.1, h.2.1⟩

/-! ### Software PWM engine: registration and durations -/

/-- C11 fails as stated: `pwm_init` on a non-null channel whose frequency is 0
returns `PWM_OK`, sets the state to `PWM_OFF` and stores the channel in slot 0
of the table. -/
theorem pwm_init_accepts_zero_frequency :
    ((PwmState.init zero_frequency_mem DioRegs.reset).mem 0).frequency = 0 ∧
    (pwm_init (some 0) (PwmState.init zero_frequency_mem DioRegs.reset)).1 = PWM_OK ∧
    (pwm_init (some 0)
        (PwmState.init zero_frequency_mem DioRegs.reset)).2.gs_arr_str_pwm_configuration
      = [some 0, none, none, none, none] := by
  refine ⟨rfl, rfl, rfl⟩

/-- C11 (amended): `pwm_init` does not look at the frequency.  For every
non-null channel, whatever its frequency, it returns `PWM_OK`, assigns
`cycle_duration` and `t_on` from the stored frequency and duty cycle, sets the
state to `PWM_OFF` and stores the pointer in the table at index
`gs_u8_pwm_channel_counter`; it returns `PWM_NOK`, and changes nothing, only
for a NULL pointer. -/
theorem pwm_init_any_frequency (w : PwmState) (a : Nat) :
    (pwm_init (some a) w).1 = PWM_OK ∧
    ((pwm_init (some a) w).2.mem a).cycle_duration = pwm_cycle_duration (w.mem a).frequency ∧
    ((pwm_init (some a) w).2.mem a).t_on
      = pwm_t_on (w.mem a).duty_cycle (pwm_cycle_duration (w.mem a).frequency) ∧
    ((pwm_init (some a) w).2.mem a).pwm_state = PWM_OFF ∧
    (w.gs_u8_pwm_channel_counter < w.gs_arr_str_pwm_configuration.length →
      (pwm_init (some a) w).2.gs_arr_str_pwm_configuration.getD
        w.gs_u8_pwm_channel_counter none = some a) ∧
    pwm_init none w = (PWM_NOK, w) := by
  refine ⟨rfl, ?_, ?_, ?_, ?_, rfl⟩
  · simp [pwm_init]
  · simp [pwm_init]
  · simp [pwm_init]
  · intro h
    simp [pwm_init, List.getD_eq_getElem?_getD, List.getElem?_set, h]

/-- Witness for C11 (amended): the channel of frequency 0 is registered in
slot 0. -/
theorem pwm_init_any_frequency_witness :
    (pwm_init (some 0)
        (PwmState.init zero_frequency_mem DioRegs.reset)).2.gs_arr_str_pwm_configuration.getD
      0 none = some 0 :=
  (pwm_init_any_frequency (PwmState.init zero_frequency_mem DioRegs.reset) 0).2.2.2.2.1
    (by decide)

/-- C13 fails as stated: `CONSTANT_TO_DISTANCE` (0.0010718) is not equal to
`34300 * (1 / MCU_CLOCK) / 2` (0.001071875). -/
theorem CONSTANT_TO_DISTANCE_not_exact :
    CONSTANT_TO_DISTANCE ≠ 34300 * (1 / (MCU_CLOCK : ℚ)) / 2 := by
  norm_num [CONSTANT_TO_DISTANCE, MCU_CLOCK]

/-- C13 (amended): with a speed of sound of 34300 cm/s and a tick period of
`1 / MCU_CLOCK` seconds, `speed_of_sound * tick_period / 2` is 0.001071875, and
`CONSTANT_TO_DISTANCE` is that value cut after its seventh decimal place: it is
smaller by 0.000000075, less than one unit of the seventh place. -/
theorem CONSTANT_TO_DISTANCE_truncated :
    34300 * (1 / (MCU_CLOCK : ℚ)) / 2 = 1071875 / 1000000000 ∧
    34300 * (1 / (MCU_CLOCK : ℚ)) / 2 - CONSTANT_TO_DISTANCE = 75 / 1000000000 ∧
    CONSTANT_TO_DISTANCE
      = (Int.floor (34300 * (1 / (MCU_CLOCK : ℚ)) / 2 * 10000000) : ℚ) / 10000000 := by
  have h1 : 34300 * (1 / (MCU_CLOCK : ℚ)) / 2 = 1071875 / 1000000000 := by
    norm_num [MCU_CLOCK]
  refine ⟨h1, ?_, ?_⟩
  · rw [h1]
    norm_num [CONSTANT_TO_DISTANCE]
  · rw [h1]
    have hf : Int.floor ((1071875 : ℚ) / 1000000000 * 10000000) = 10718 := by
      rw [Int.floor_eq_iff]
      constructor <;> norm_num
    rw [hf]
    norm_num [CONSTANT_TO_DISTANCE]

/-! ### Software PWM engine: stop and reconfiguration -/

/-- Clearing bit `pin` of an 8-bit register leaves its other bits as they
were. -/
theorem clear_bit_u8_testBit_other (reg pin j : Nat) (hj : j < 8) (hne : j ≠ pin) :
    (clear_bit_u8 reg pin).testBit j = reg.testBit j := by
  unfold clear_bit_u8 to_u8 U8_ONE_VALUE U8_BIT_REG_MASK
  have h256 : (256 : Nat) = 2 ^ 8 := by norm_num
  have h255 : Nat.testBit 255 j = true := by
    have e : (255 : Nat) = 2 ^ 8 - 1 := by norm_num
    rw [e, Nat.testBit_two_pow_sub_one]
    simp [hj]
  rw [h256, Nat.testBit_mod_two_pow, Nat.one_shiftLeft]
  simp [hj, h255, Nat.testBit_two_pow, Ne.symm hne]

/-- Clearing the same bit of an 8-bit register twice is clearing it once. -/
theorem clear_bit_u8_idem (reg pin : Nat) (hp : pin < 8) :
    clear_bit_u8 (clear_bit_u8 reg pin) pin = clear_bit_u8 reg pin := by
  unfold clear_bit_u8 to_u8 U8_ONE_VALUE U8_BIT_REG_MASK
  rw [Nat.one_shiftLeft]
  have hm : 255 ^^^ 2 ^ pin < 256 := by
    have h1 : (255 : Nat) < 2 ^ 8 := by norm_num
    have h2 : 2 ^ pin < 2 ^ 8 := Nat.pow_lt_pow_right (by norm_num) hp
    exact Nat.xor_lt_two_pow h1 h2
  have hle : reg &&& (255 ^^^ 2 ^ pin) < 256 := lt_of_le_of_lt Nat.and_le_right hm
  rw [Nat.mod_eq_of_lt hle, Nat.land_assoc, Nat.and_self, Nat.mod_eq_of_lt hle]

/-- Writing a pin LOW twice is writing it LOW once. -/
theorem DIO_write_pin_low_idem (port : dio_enu_port_t) (pin : dio_enu_pin_t) (r : DioRegs) :
    (DIO_write_pin port pin DIO_PIN_LOW_LEVEL
        (DIO_write_pin port pin DIO_PIN_LOW_LEVEL r).2).2
      = (DIO_write_pin port pin DIO_PIN_LOW_LEVEL r).2 := by
  have hp : pin.val < 8 := by cases pin <;> decide
  cases port <;> simp [DIO_write_pin, DIO_MAX_PINS, hp, clear_bit_u8_idem]

/-- Setting bit `pin` of an 8-bit register leaves its other bits as they
were. -/
theorem set_bit_u8_testBit_other (reg pin j : Nat) (hj : j < 8) (hne : j ≠ pin) :
    (set_bit_u8 reg pin).testBit j = reg.testBit j := by
  unfold set_bit_u8 to_u8 U8_ONE_VALUE
  have h256 : (256 : Nat) = 2 ^ 8 := by norm_num
  rw [h256, Nat.testBit_mod_two_pow, Nat.one_shiftLeft]
  simp [hj, Nat.testBit_two_pow, Ne.symm hne]

/-- The function `DIO_write_pin` changes the level of no pin but the one
written, and changes no data-direction register. -/
theorem DIO_write_pin_other (port : dio_enu_port_t) (pin : dio_enu_pin_t)
    (level : dio_enu_level_t) (r : DioRegs) :
    (∀ (port2 : dio_enu_port_t) (pin2 : dio_enu_pin_t),
      (port2 ≠ port ∨ pin2 ≠ pin) →
      pin_level (DIO_write_pin port pin level r).2 port2 pin2 = pin_level r port2 pin2) ∧
    (DIO_write_pin port pin level r).2.DATA_DIRECTION_PORTA = r.DATA_DIRECTION_PORTA ∧
    (DIO_write_pin port pin level r).2.DATA_DIRECTION_PORTB = r.DATA_DIRECTION_PORTB ∧
    (DIO_write_pin port pin level r).2.DATA_DIRECTION_PORTC = r.DATA_DIRECTION_PORTC ∧
    (DIO_write_pin port pin level r).2.DATA_DIRECTION_PORTD = r.DATA_DIRECTION_PORTD := by
  have hp : pin.val < 8 := by cases pin <;> decide
  refine ⟨?_, ?_, ?_, ?_, ?_⟩
  · intro port2 pin2 hne
    have hp2 : pin2.val < 8 := by cases pin2 <;> decide
    by_cases hport : port2 = port
    · subst hport
      have hpin : pin2 ≠ pin := by
        rcases hne with h | h
        · exact absurd rfl h
        · exact h
      have hv : pin2.val ≠ pin.val := by
        intro e
        apply hpin
        cases pin2 <;> cases pin <;> first | rfl | exact absurd e (by decide)
      cases port2 <;> cases level <;>
        simp [DIO_write_pin, pin_level, DioRegs.WR, DIO_MAX_PINS, hp,
          clear_bit_u8_testBit_other _ _ _ hp2 hv, set_bit_u8_testBit_other _ _ _ hp2 hv]
    · cases port2 <;> cases port <;> cases level <;>
        first
        | exact absurd rfl hport
        | simp [DIO_write_pin, pin_level, DioRegs.WR, DIO_MAX_PINS, hp]
  all_goals
    cases port <;> cases level <;> simp [DIO_write_pin, DIO_MAX_PINS, hp]

/-- C19: for every non-null channel in any state, `pwm_stop` returns `PWM_OK`
and leaves the channel with state `PWM_OFF`, `pwm_tick_ss = 0` and its pin LOW;
no other pin changes level and no data-direction register changes; applying
`pwm_stop` a second time changes nothing more and again returns `PWM_OK`.  For
a NULL channel it returns `PWM_NOK` and changes nothing. -/
theorem pwm_stop_spec (w : PwmState) (a : Nat) :
    (pwm_stop (some a) w).1 = PWM_OK ∧
    ((pwm_stop (some a) w).2.mem a).pwm_state = PWM_OFF ∧
    ((pwm_stop (some a) w).2.mem a).pwm_tick_ss = 0 ∧
    pin_level (pwm_stop (some a) w).2.dio (w.mem a).enu_port_index (w.mem a).enu_pin_index
      = DIO_PIN_LOW_LEVEL ∧
    (∀ (port2 : dio_enu_port_t) (pin2 : dio_enu_pin_t),
      (port2 ≠ (w.mem a).enu_port_index ∨ pin2 ≠ (w.mem a).enu_pin_index) →
      pin_level (pwm_stop (some a) w).2.dio port2 pin2 = pin_level w.dio port2 pin2) ∧
    (pwm_stop (some a) w).2.dio.DATA_DIRECTION_PORTA = w.dio.DATA_DIRECTION_PORTA ∧
    (pwm_stop (some a) w).2.dio.DATA_DIRECTION_PORTB = w.dio.DATA_DIRECTION_PORTB ∧
    (pwm_stop (some a) w).2.dio.DATA_DIRECTION_PORTC = w.dio.DATA_DIRECTION_PORTC ∧
    (pwm_stop (some a) w).2.dio.DATA_DIRECTION_PORTD = w.dio.DATA_DIRECTION_PORTD ∧
    pwm_stop (some a) (pwm_stop (some a) w).2 = (PWM_OK, (pwm_stop (some a) w).2) ∧
    pwm_stop none w = (PWM_NOK, w) := by
  have ho := DIO_write_pin_other (w.mem a).enu_port_index (w.mem a).enu_pin_index
    DIO_PIN_LOW_LEVEL w.dio
  refine ⟨rfl, ?_, ?_, ?_, ?_, ho.2.1, ho.2.2.1, ho.2.2.2.1, ho.2.2.2.2, ?_, rfl⟩
  · simp [pwm_stop]
  · simp [pwm_stop, U8_ZERO_VALUE]
  · simp only [pwm_stop]
    exact pin_level_DIO_write_pin _ _ _ _
  · intro port2 pin2 hne
    exact ho.1 port2 pin2 hne
  · simp only [pwm_stop, Function.update_same, Function.update_idem, DIO_write_pin_low_idem]

/-- Witness for C19: stopping the started application channel leaves pin 2 of
port A LOW, and pin 5 of port A as it was. -/
theorem pwm_stop_spec_witness :
    pin_level
        (pwm_stop (some 0) (pwm_start (some 0) (pwm_init (some 0) pwm_power_on).2).2).2.dio
        PORTA PIN5
      = pin_level (pwm_start (some 0) (pwm_init (some 0) pwm_power_on).2).2.dio PORTA PIN5 :=
  (pwm_stop_spec (pwm_start (some 0) (pwm_init (some 0) pwm_power_on).2).2 0).2.2.2.2.1
    PORTA PIN5 (Or.inr (by decide))

/-- C18 fails as stated: the application channel (`t_on = 15`,
`cycle_duration = 50`, started at tick 0) is reconfigured to a duty cycle of 50
after the 14th tick.  At the 15th tick, still inside the running cycle,
`pwm_checking` with the old durations switches the channel off and drives the
pin LOW, while after the reconfiguration (`t_on = 25`) it leaves the channel
on with the pin HIGH. -/
theorem pwm_change_visible_inside_cycle :
    ((pwm_checking (some 0) pwm_running_15).2.mem 0).pwm_state = PWM_OFF ∧
    pin_level (pwm_checking (some 0) pwm_running_15).2.dio PORTA PIN2 = DIO_PIN_LOW_LEVEL ∧
    (pwm_reconfigured_15.mem 0).t_on = 25 ∧
    (pwm_reconfigured_15.mem 0).cycle_duration = 50 ∧
    pwm_actual_time (pwm_reconfigured_15.mem 0).pwm_tick_ss pwm_reconfigured_15.pwm_tick = 15 ∧
    ((pwm_checking (some 0) pwm_reconfigured_15).2.mem 0).pwm_state = PWM_ON ∧
    pin_level (pwm_checking (some 0) pwm_reconfigured_15).2.dio PORTA PIN2
      = DIO_PIN_HIGH_LEVEL := by
  have h := pwm_running_14_eval
  refine ⟨?_, ?_, ?_, ?_, ?_, ?_, ?_⟩
  · simp [pwm_running_15, pwm_checking, h.1, h.2.1, h.2.2, gs_str_pwm_pin, pwm_actual_time,
      to_u32]
  · simp [pwm_running_15, pwm_checking, h.1, h.2.1, h.2.2, gs_str_pwm_pin, pwm_actual_time,
      to_u32, DIO_write_pin, DioRegs.reset, pin_level, DioRegs.WR, DIO_MAX_PINS,
      dio_enu_pin_t.val, clear_bit_u8, to_u8, U8_ONE_VALUE, U8_BIT_REG_MASK]
    decide
  · simp [pwm_reconfigured_15, pwm_change_frequency_or_duty_cycle, h.2.1, gs_str_pwm_pin,
      pwm_cycle_duration_eq, pwm_t_on_30_50, pwm_t_on_50_50]
  · simp [pwm_reconfigured_15, pwm_change_frequency_or_duty_cycle, h.2.1, gs_str_pwm_pin,
      pwm_cycle_duration_eq, pwm_t_on_30_50, pwm_t_on_50_50]
  · simp [pwm_reconfigured_15, pwm_change_frequency_or_duty_cycle, h.1, h.2.1, gs_str_pwm_pin,
      pwm_actual_time, to_u32]
  · simp [pwm_reconfigured_15, pwm_checking, pwm_change_frequency_or_duty_cycle, h.1, h.2.1,
      h.2.2, gs_str_pwm_pin, pwm_cycle_duration_eq, pwm_t_on_30_50, pwm_t_on_50_50, pwm_actual_time, to_u32]
  · simp [pwm_reconfigured_15, pwm_checking, pwm_change_frequency_or_duty_cycle, h.1, h.2.1,
      h.2.2, gs_str_pwm_pin, pwm_cycle_duration_eq, pwm_t_on_30_50, pwm_t_on_50_50, pwm_actual_time, to_u32,
      DioRegs.reset, pin_level, DioRegs.WR, dio_enu_pin_t.val]
    decide

/-- C18 (amended): a reconfiguration takes effect at once.
`pwm_change_frequency_or_duty_cycle` stores the new `cycle_duration` and `t_on`
in the channel and leaves its state, its `pwm_tick_ss`, the tick counter and
the registers as they were; the next `pwm_checking` call, wherever in the
running cycle it falls, compares the elapsed time with the new `t_on` and the
new `cycle_duration`. -/
theorem pwm_change_takes_effect_at_once (w : PwmState) (a : Nat) :
    (pwm_change_frequency_or_duty_cycle (some a) w).1 = PWM_OK ∧
    ((pwm_change_frequency_or_duty_cycle (some a) w).2.mem a).cycle_duration
      = pwm_cycle_duration (w.mem a).frequency ∧
    ((pwm_change_frequency_or_duty_cycle (some a) w).2.mem a).t_on
      = pwm_t_on (w.mem a).duty_cycle (pwm_cycle_duration (w.mem a).frequency) ∧
    ((pwm_change_frequency_or_duty_cycle (some a) w).2.mem a).pwm_state
      = (w.mem a).pwm_state ∧
    ((pwm_change_frequency_or_duty_cycle (some a) w).2.mem a).pwm_tick_ss
      = (w.mem a).pwm_tick_ss ∧
    (pwm_change_frequency_or_duty_cycle (some a) w).2.pwm_tick = w.pwm_tick ∧
    (pwm_change_frequency_or_duty_cycle (some a) w).2.dio = w.dio ∧
    ((pwm_checking (some a) (pwm_change_frequency_or_duty_cycle (some a) w).2).2.mem a).pwm_state
      = (if pwm_actual_time (w.mem a).pwm_tick_ss w.pwm_tick
            < pwm_t_on (w.mem a).duty_cycle (pwm_cycle_duration (w.mem a).frequency)
          then PWM_ON
        else if pwm_actual_time (w.mem a).pwm_tick_ss w.pwm_tick
            < pwm_cycle_duration (w.mem a).frequency
          then PWM_OFF
        else (w.mem a).pwm_state) := by
  refine ⟨rfl, ?_, ?_, ?_, ?_, rfl, rfl, ?_⟩
  · simp [pwm_change_frequency_or_duty_cycle]
  · simp [pwm_change_frequency_or_duty_cycle]
  · simp [pwm_change_frequency_or_duty_cycle]
  · simp [pwm_change_frequency_or_duty_cycle]
  · simp only [pwm_checking, pwm_change_frequency_or_duty_cycle, Function.update_same]
    by_cases h1 : pwm_actual_time (w.mem a).pwm_tick_ss w.pwm_tick
        < pwm_t_on (w.mem a).duty_cycle (pwm_cycle_duration (w.mem a).frequency)
    · by_cases hs : (w.mem a).pwm_state = PWM_ON
      · simp [h1, hs]
      · simp [h1, hs]
    · by_cases h2 : pwm_actual_time (w.mem a).pwm_tick_ss w.pwm_tick
          < pwm_cycle_duration (w.mem a).frequency
      · by_cases hs : (w.mem a).pwm_state = PWM_OFF
        · simp [h1, h2, hs]
        · simp [h1, h2, hs]
      · simp [h1, h2]

/-- C17 (the code at the failing input): the application channel is
registered, started and stopped.  It is then `PWM_OFF` with its pin LOW and
still in slot 0 of the table; the very next invocation of `pwm_tick_counter`
finds an elapsed time of 1 below `t_on = 15`, sets the state to `PWM_ON` and
drives the pin HIGH. -/
theorem pwm_tick_counter_restarts_stopped_channel :
    (pwm_stopped.mem 0).pwm_state = PWM_OFF ∧
    pin_level pwm_stopped.dio PORTA PIN2 = DIO_PIN_LOW_LEVEL ∧
    pwm_stopped.gs_arr_str_pwm_configuration = [some 0, none, none, none, none] ∧
    ((pwm_tick_counter pwm_stopped).mem 0).pwm_state = PWM_ON ∧
    pin_level (pwm_tick_counter pwm_stopped).dio PORTA PIN2 = DIO_PIN_HIGH_LEVEL := by
  refine ⟨?_, ?_, rfl, ?_, ?_⟩
  · simp [pwm_stopped, pwm_stop, pwm_start, pwm_init]
  · simp [pwm_stopped, pwm_stop, pwm_start, pwm_init, pwm_power_on, PwmState.init,
      two_channel_mem, gs_str_pwm_pin, pin_level_DIO_write_pin]
  · simp [pwm_stopped, pwm_tick_counter, pwm_tick_counter_loop, pwm_checking, pwm_stop,
      pwm_start, pwm_init, pwm_power_on, PwmState.init, two_channel_mem, gs_str_pwm_pin,
      pwm_cycle_duration_eq, pwm_t_on_30_50, pwm_t_on_50_50, pwm_actual_time, to_u32, PWM_CHANNEL_MAX,
      U8_ZERO_VALUE]
  · simp [pwm_stopped, pwm_tick_counter, pwm_tick_counter_loop, pwm_checking, pwm_stop,
      pwm_start, pwm_init, pwm_power_on, PwmState.init, two_channel_mem, gs_str_pwm_pin,
      pwm_cycle_duration_eq, pwm_t_on_30_50, pwm_t_on_50_50, pwm_actual_time, to_u32, PWM_CHANNEL_MAX,
      U8_ZERO_VALUE, pin_level_DIO_write_pin]

/-! ### Navigation decision state machine: counter reset, hold and speed-up -/

/-- C14 (the code at the failing input): with readings of 25 cm except for the
sample at the head of the second iteration, which is 50 cm, the re-sample after
the first rotation raises the rotation counter to 2; the second iteration then
handles `OBSTACLE_70_30` with the counter still at 2, not at its initial value
1; and the re-sample after the next rotation raises it to 3, although the two
`OBSTACLE_30_20` re-samples were separated by a sample in another band. -/
theorem APP_far_band_handled_with_counter_above_initial :
    ((APP_vidStart_loop env_far_between 3 1 AppState.init).map
        (fun s => APP_loop_head env_far_between (app_motor_started env_far_between s).2)).map
        (fun s => (s.en_Dist_states, s.gs_u8_rotate_counter))
      = some (OBSTACLE_70_30, 2) ∧
    (APP_vidStart_loop env_far_between 3 2 AppState.init).map
        (fun s => (s.gs_u8_rotate_counter, last_motion_command s.trace))
      = some (2, some CAR_FORWARD) ∧
    (APP_vidStart_loop env_far_between 3 3 AppState.init).map
        (fun s => (s.en_Dist_states, s.gs_u8_rotate_counter, post_rotation_resamples s.trace))
      = some (OBSTACLE_30_20, 3, [OBSTACLE_30_20, OBSTACLE_30_20]) := by
  decide

/-- C15 fails as stated: with every reading at 25 cm the fifth iteration of the
control loop handles `OBSTACLE_HOLD_MOVING`, and after it the rotation counter
is 1, not 0. -/
theorem APP_counter_one_after_hold :
    (APP_vidStart_loop env_always_25 4 4 AppState.init).map (fun s => s.en_Dist_states)
      = some OBSTACLE_HOLD_MOVING ∧
    (APP_vidStart_loop env_always_25 4 5 AppState.init).map (fun s => s.gs_u8_rotate_counter)
      = some 1 := by
  decide

/-- When an iteration of the control loop ends in `OBSTACLE_HOLD_MOVING`, the
most recent call to CAR_CONTROL is the `CAR_STOP` of line 291. -/
theorem APP_vidStart_loop_body_hold_after_stop (env : AppEnv) (fuel : Nat)
    (st st' : AppState) (h : APP_vidStart_loop_body env fuel st = some st')
    (hh : st'.en_Dist_states = OBSTACLE_HOLD_MOVING) :
    last_motion_command st'.trace = some CAR_STOP := by
  let P : AppState → Prop := fun s => s.en_Dist_states ≠ OBSTACLE_HOLD_MOVING
  have hPframe : ∀ (s : AppState) (t : TimingState) (n : Nat),
      P s → P { s with timing := t, reads := n } := fun s t n hp => hp
  have hPsample : ∀ (site : sample_site) (s : AppState), P (app_sample env site s) :=
    fun site s => APP_make_decision_ne_hold _
  simp only [APP_vidStart_loop_body] at h
  generalize APP_loop_head env st = st1 at h
  split_ifs at h with b1 b2 b3 b4 b5
  · rw [Option.bind_eq_some] at h
    obtain ⟨st2, hl, h⟩ := h
    have hP1 : P st1 := by
      show st1.en_Dist_states ≠ OBSTACLE_HOLD_MOVING
      rw [b1]
      decide
    have hP2 : P st2 :=
      APP_timed_loop_preserves P env APP_5_SEC_WITHOUT_OBSTACLES
        (fun s => app_sample env no_obstacle_window
          (app_car CAR_FORWARD { s with duty_cycle := APP_CAR_SPEED_30_PRE }))
        (fun s _ => hPsample _ _) hPframe fuel st1 st2 hP1 hl
    split_ifs at h with b6
    · exact absurd hh
        (APP_band_loop_preserves P env NO_OBSTACLES (app_sample env no_obstacle_cruise)
          (fun s _ => hPsample _ s) hPframe fuel
          (app_car CAR_FORWARD { st2 with duty_cycle := APP_CAR_SPEED_50_PRE }) st' hP2 h)
    · cases h
      exact absurd hh hP2
  · have hP1 : P st1 := by
      show st1.en_Dist_states ≠ OBSTACLE_HOLD_MOVING
      rw [b2]
      decide
    exact absurd hh
      (APP_band_loop_preserves P env OBSTACLE_70_30 (app_sample env far_band)
        (fun s _ => hPsample _ s) hPframe fuel
        (app_car CAR_FORWARD { st1 with duty_cycle := APP_CAR_SPEED_30_PRE }) st' hP1 h)
  · rw [Option.bind_eq_some] at h
    obtain ⟨st4, _, h⟩ := h
    cases h
    simp only [APP_after_rotation, app_sample, app_car]
    split_ifs <;> rfl
  · have hP1 : P st1 := by
      show st1.en_Dist_states ≠ OBSTACLE_HOLD_MOVING
      rw [b4]
      decide
    exact absurd hh
      (APP_band_loop_preserves P env OBSTACLE_LESS_20 (app_sample env near_band)
        (fun s _ => hPsample _ s) hPframe fuel
        (app_car CAR_BACKWARD { st1 with duty_cycle := APP_CAR_SPEED_30_PRE }) st' hP1 h)
  · rw [Option.bind_eq_some] at h
    obtain ⟨st2, _, h⟩ := h
    cases h
    exact absurd hh (APP_make_decision_ne_hold _)
  · cases h
    exact absurd hh b5

/-- C30: in the falling-edge branch of `HULTRASONIC_vidSigCalc` (flag 1), with a
timer-2 capture `c ≤ 255` and an overflow count `n`, the count passes through
the 16-bit `g_v_u16_ovf`, so `global_u32Ticks` becomes `c + 256 * (n mod 65536)`;
that total never exceeds 16777215, and it is the total the published distance
is computed from. -/
theorem HULTRASONIC_vidSigCalc_ticks_through_16_bits (s : UltrasonicState)
    (hflag : s.g_v_u8_flag = 1) (hc : s.TCNT2_ADD ≤ 255) :
    (HULTRASONIC_vidSigCalc s).global_u32Ticks
      = s.TCNT2_ADD + 256 * (s.g_v_u16_ovfCounts % 65536) ∧
    (HULTRASONIC_vidSigCalc s).global_u32Ticks ≤ 16777215 ∧
    (HULTRASONIC_vidSigCalc s).global_f64distance
      = ((s.TCNT2_ADD + 256 * (s.g_v_u16_ovfCounts % 65536) : ℕ) : ℚ)
          * CONSTANT_TO_DISTANCE := by
  have hn : s.g_v_u16_ovfCounts % 65536 < 65536 := Nat.mod_lt _ (by norm_num)
  have h8 : to_u8 s.TCNT2_ADD = s.TCNT2_ADD := by
    unfold to_u8; exact Nat.mod_eq_of_lt (by omega)
  have h32 : to_u32 (s.TCNT2_ADD + 256 * (s.g_v_u16_ovfCounts % 65536))
      = s.TCNT2_ADD + 256 * (s.g_v_u16_ovfCounts % 65536) := by
    unfold to_u32; exact Nat.mod_eq_of_lt (by omega)
  have ht : (HULTRASONIC_vidSigCalc s).global_u32Ticks
      = s.TCNT2_ADD + 256 * (s.g_v_u16_ovfCounts % 65536) := by
    have : (HULTRASONIC_vidSigCalc s).global_u32Ticks
        = to_u32 (to_u8 s.TCNT2_ADD + 256 * to_u16 s.g_v_u16_ovfCounts) := by
      simp [HULTRASONIC_vidSigCalc, hflag, timing_stop_2, timing_get_ticks_2,
        extim_init_enable_EXTI_1]
    rw [this, h8]
    simpa [to_u16] using h32
  refine ⟨ht, by rw [ht]; omega, ?_⟩
  rw [(HULTRASONIC_vidSigCalc_flag_one s hflag).1, h8]
  have : to_u16 s.g_v_u16_ovfCounts = s.g_v_u16_ovfCounts % 65536 := by simp [to_u16]
  rw [this, h32]

/-- C30 at a concrete input: capture 10 and overflow count 65537 give 266 ticks. -/
theorem HULTRASONIC_vidSigCalc_ticks_through_16_bits_witness :
    (HULTRASONIC_vidSigCalc
        { UltrasonicState.init with
          g_v_u8_flag := 1, g_v_u16_ovfCounts := 65537, TCNT2_ADD := 10 }).global_u32Ticks
      = 10 + 256 * (65537 % 65536) :=
  (HULTRASONIC_vidSigCalc_ticks_through_16_bits
    { UltrasonicState.init with
      g_v_u8_flag := 1, g_v_u16_ovfCounts := 65537, TCNT2_ADD := 10 } rfl (by decide)).1

/-! ### Echo-ranging driver: who writes the published distance -/

/-- C21: the published distance is written only in the falling-edge branch of
`HULTRASONIC_vidSigCalc` (flag 1).  The rising-edge branch (flag 0) sets the
flag to 1 and the overflow count to 0 and keeps the distance; for any other
flag value the handler changes nothing; `HULTRASONIC_vidTimerCBF` changes only
the overflow count, adding one (in 32 bits); `HULTRASONIC_u8Read` returns the
published value and leaves every variable of the driver, in particular the
distance, the flag and the overflow count, as it was. -/
theorem HULTRASONIC_distance_written_only_on_falling_edge (s : UltrasonicState)
    (r : DioRegs) :
    ((HULTRASONIC_vidSigCalc s).global_f64distance ≠ s.global_f64distance →
      s.g_v_u8_flag = 1) ∧
    (s.g_v_u8_flag = 0 →
      (HULTRASONIC_vidSigCalc s).g_v_u8_flag = 1 ∧
      (HULTRASONIC_vidSigCalc s).g_v_u16_ovfCounts = 0 ∧
      (HULTRASONIC_vidSigCalc s).global_f64distance = s.global_f64distance) ∧
    (s.g_v_u8_flag ≠ 0 → s.g_v_u8_flag ≠ 1 → HULTRASONIC_vidSigCalc s = s) ∧
    ((HULTRASONIC_vidTimerCBF s).global_f64distance = s.global_f64distance ∧
      (HULTRASONIC_vidTimerCBF s).g_v_u16_ovfCounts
        = (s.g_v_u16_ovfCounts + 1) % 4294967296 ∧
      (s.g_v_u16_ovfCounts + 1 < 4294967296 →
        (HULTRASONIC_vidTimerCBF s).g_v_u16_ovfCounts = s.g_v_u16_ovfCounts + 1) ∧
      { HULTRASONIC_vidTimerCBF s with g_v_u16_ovfCounts := s.g_v_u16_ovfCounts } = s) ∧
    ((HULTRASONIC_u8Read_call s r).1 = s.global_f64distance ∧
      (HULTRASONIC_u8Read_call s r).1 = HULTRASONIC_u8Read s ∧
      (HULTRASONIC_u8Read_call s r).2.1 = s) := by
  refine ⟨?_, ?_, ?_, ⟨rfl, ?_, ?_, rfl⟩, rfl, rfl, rfl⟩
  · intro h
    by_contra h1
    apply h
    by_cases h0 : s.g_v_u8_flag = 0
    · simp [HULTRASONIC_vidSigCalc, h0, timing_start_2, extim_init_enable_EXTI_1]
    · simp [HULTRASONIC_vidSigCalc, h0, h1]
  · intro h0
    simp [HULTRASONIC_vidSigCalc, h0, timing_start_2, extim_init_enable_EXTI_1]
  · intro h0 h1
    simp [HULTRASONIC_vidSigCalc, h0, h1]
  · simp [HULTRASONIC_vidTimerCBF, to_u32]
  · intro h
    simp only [HULTRASONIC_vidTimerCBF, to_u32]
    exact Nat.mod_eq_of_lt (by simpa using h)

/-- C21 at the driver's initial state (flag 0): the rising edge keeps the
published distance and sets flag 1, count 0. -/
theorem HULTRASONIC_distance_written_only_on_falling_edge_witness :
    UltrasonicState.init.g_v_u8_flag = 0 ∧
    (HULTRASONIC_vidSigCalc UltrasonicState.init).g_v_u8_flag = 1 ∧
    (HULTRASONIC_vidSigCalc UltrasonicState.init).g_v_u16_ovfCounts = 0 ∧
    (HULTRASONIC_vidSigCalc UltrasonicState.init).global_f64distance
      = UltrasonicState.init.global_f64distance :=
  ⟨rfl, (HULTRASONIC_distance_written_only_on_falling_edge UltrasonicState.init
    DioRegs.reset).2.1 rfl⟩

/-! ### Timeout service: the elapsed time across the wrap of the tick counter -/

/-- After `k` tick callbacks the tick counter has advanced by `k` modulo 65536
and the capture state and the timestamp are as before. -/
theorem function_callback_1_iterate (s : TimingState) (k : Nat)
    (hs : s.gs_u16_sys_tick ≤ 65535) :
    (function_callback_1^[k] s).gs_u16_sys_tick = (s.gs_u16_sys_tick + k) % 65536 ∧
    (function_callback_1^[k] s).gs_enu_catch_state = s.gs_enu_catch_state ∧
    (function_callback_1^[k] s).gs_u16_timestamp = s.gs_u16_timestamp := by
  induction k with
  | zero => exact ⟨(Nat.mod_eq_of_lt (by simpa using Nat.lt_succ_of_le hs)).symm, rfl, rfl⟩
  | succ k ih =>
    rw [Function.iterate_succ_apply']
    obtain ⟨h1, h2, h3⟩ := ih
    refine ⟨?_, h2, h3⟩
    simp only [function_callback_1, to_u16, h1]
    omega

/-- C27: for a captured timestamp and a current tick value (both 16-bit),
`timing_time_out` computes, when the counter has wrapped (captured > current),
`((current - captured) mod 65536) - 1`, one less than the number of ticks since
the capture, and otherwise exactly `current - captured`.  Hence, for a window
captured at tick value `captured` and tested `k` tick callbacks later
(`k ≤ 65535`) against a duration `d`: if the counter wrapped in between the
test reports expiry exactly when `d + 1 ≤ k`, and if it did not, exactly when
`d ≤ k`. -/
theorem timing_actual_time_one_short_across_wrap (captured current k d : Nat)
    (hc : captured ≤ 65535) (hn : current ≤ 65535) (hk : k ≤ 65535) :
    (captured > current →
      timing_actual_time captured current = (current + 65536 - captured) % 65536 - 1 ∧
      (timing_actual_time captured current : ℤ)
        = ((current : ℤ) - (captured : ℤ)) % 65536 - 1) ∧
    (captured ≤ current →
      timing_actual_time captured current = current - captured) ∧
    (65536 ≤ captured + k →
      ((timing_time_out d
          (function_callback_1^[k]
            { gs_u16_sys_tick := captured, gs_enu_catch_state := TIMING_NOT_CATCH
              gs_u16_timestamp := captured })).1 = TIMING_TIME_OUT ↔ d + 1 ≤ k)) ∧
    (captured + k < 65536 →
      ((timing_time_out d
          (function_callback_1^[k]
            { gs_u16_sys_tick := captured, gs_enu_catch_state := TIMING_NOT_CATCH
              gs_u16_timestamp := captured })).1 = TIMING_TIME_OUT ↔ d ≤ k)) := by
  have hw : captured > current →
      timing_actual_time captured current = (current + 65536 - captured) % 65536 - 1 := by
    intro h
    simp only [timing_actual_time, if_pos h, to_u16, TIMING_MAX_SYS_TICK]
    omega
  have hnw : captured ≤ current →
      timing_actual_time captured current = current - captured := by
    intro h
    simp only [timing_actual_time, if_neg (Nat.not_lt.mpr h), to_u16]
    omega
  have hrun : ∀ s : TimingState, s.gs_enu_catch_state = TIMING_NOT_CATCH →
      ((timing_time_out d s).1 = TIMING_TIME_OUT ↔
        d ≤ timing_actual_time s.gs_u16_timestamp s.gs_u16_sys_tick) := by
    intro s hs
    simp only [timing_time_out, hs]
    split_ifs with h1 h2 <;> simp_all
  obtain ⟨ht, hcs, hts⟩ := function_callback_1_iterate
    { gs_u16_sys_tick := captured, gs_enu_catch_state := TIMING_NOT_CATCH
      gs_u16_timestamp := captured } k hc
  refine ⟨fun h => ⟨hw h, ?_⟩, hnw, ?_, ?_⟩
  · rw [hw h]
    omega
  · intro h
    rw [hrun _ hcs, hts, ht]
    have hlt : captured > (captured + k) % 65536 := by omega
    rw [show timing_actual_time captured ((captured + k) % 65536)
        = ((captured + k) % 65536 + 65536 - captured) % 65536 - 1 from by
      simp only [timing_actual_time, if_pos hlt, to_u16, TIMING_MAX_SYS_TICK]
      omega]
    omega
  · intro h
    rw [hrun _ hcs, hts, ht]
    have hle : captured ≤ (captured + k) % 65536 := by omega
    rw [show timing_actual_time captured ((captured + k) % 65536)
        = (captured + k) % 65536 - captured from by
      simp only [timing_actual_time, if_neg (Nat.not_lt.mpr hle), to_u16]
      omega]
    omega

/-- C27 at concrete inputs: captured at 65535 and read at 1 (two ticks later)
the elapsed time is 1, and a window of duration 2 captured at 65535 has not
expired two ticks later. -/
theorem timing_actual_time_one_short_across_wrap_witness :
    timing_actual_time 65535 1 = (1 + 65536 - 65535) % 65536 - 1 ∧
    ¬ (timing_time_out 2
        (function_callback_1^[2]
          { gs_u16_sys_tick := 65535, gs_enu_catch_state := TIMING_NOT_CATCH
            gs_u16_timestamp := 65535 })).1 = TIMING_TIME_OUT :=
  ⟨((timing_actual_time_one_short_across_wrap 65535 1 2 2 (by decide) (by decide)
      (by decide)).1 (by decide)).1,
   fun h => absurd
    (((timing_actual_time_one_short_across_wrap 65535 1 2 2 (by decide) (by decide)
      (by decide)).2.2.1 (by decide)).mp h) (by decide)⟩

/-! ### Timeout service: `timing_init_1` -/

/-- The exact reload value of `timing_init_1` is `65536 - 125 t / 8`. -/
theorem timing_init_1_reload_eq (t : Nat) :
    timing_init_1_reload t = 65536 - 125 * (t : ℚ) / 8 := by
  unfold timing_init_1_reload timing_init_1_cycle_time TIMING_MAX_U16_VALUE
    TIMING_PRESCALLER_1024 MCU_CLOCK TIMING_1000_TO_CONVERT_TO_MS
  norm_num
  ring

/-- C23: `timing_init_1 t` returns `TIMING_NOK` exactly when `t < 1000`.  When
it does, nothing is written: `timer_configuration_1`, the registered overflow
callback and the registers of timer 1 are as before.  Otherwise it returns
`TIMING_OK`, the configuration holds normal mode, prescaler 1024 and the
overflow interrupt enabled, the overflow callback is `function_callback_1`
(the tick-increment handler), and `timer1_initialization` has run (counter
cleared, overflow-interrupt enable bit of `TIMSK` set, interrupts enabled). -/
theorem timing_init_1_spec (t : Nat) (s : Timer1State) :
    ((timing_init_1 t s).1 = TIMING_NOK ↔ t < 1000) ∧
    (t < 1000 → (timing_init_1 t s).2 = s) ∧
    (1000 ≤ t →
      (timing_init_1 t s).1 = TIMING_OK ∧
      (timing_init_1 t s).2.timer_configuration_1.timer_mode = TIMER_MODE_NORMAL ∧
      (timing_init_1 t s).2.timer_configuration_1.timer_prescaller = TIMER_PRESCALLER_1024 ∧
      (timing_init_1 t s).2.timer_configuration_1.timer_of_interrupt
        = TIMER_OVERFLOW_INTERRUPT_ENABLE ∧
      (timing_init_1 t s).2.timer_configuration_1.timer_oc_interrupt
        = s.timer_configuration_1.timer_oc_interrupt ∧
      (timing_init_1 t s).2.timer1_callback_OVF = some ptr_function_callback_1 ∧
      (timing_init_1 t s).2.TCNT1_ADD = 0 ∧
      Nat.testBit (timing_init_1 t s).2.TIMSK_ADD TOIE1_BIT = true ∧
      (timing_init_1 t s).2.global_interrupt = true) := by
  by_cases h : t < 1000
  · have e : timing_init_1 t s = (TIMING_NOK, s) := by
      simp [timing_init_1, TIMING_1_SEC_VALUE_IN_MS, h]
    rw [e]
    exact ⟨⟨fun _ => h, fun _ => rfl⟩, fun _ => rfl, fun h1 => absurd h (by omega)⟩
  · have e : timing_init_1 t s
        = (TIMING_OK, timer1_initialization (timer1_initialize_callback_OVF
            ptr_function_callback_1
            { s with timer_configuration_1 :=
                { s.timer_configuration_1 with
                  OCR := f64_to_u16 (timing_init_1_reload t)
                  timer_mode := TIMER_MODE_NORMAL
                  timer_prescaller := TIMER_PRESCALLER_1024
                  timer_of_interrupt := TIMER_OVERFLOW_INTERRUPT_ENABLE } })) := by
      simp [timing_init_1, TIMING_1_SEC_VALUE_IN_MS, h]
    rw [e]
    refine ⟨⟨fun h1 => (by cases h1), fun h1 => absurd h1 h⟩, fun h1 => absurd h1 h,
      fun _ => ?_⟩
    have hbit : ∀ a b : Nat, ((a ||| (b <<< 4 ||| 4)) % 256).testBit 2 = true := by
      intro a b
      have h4 : Nat.testBit 4 2 = true := by decide
      rw [show (256 : ℕ) = 2 ^ 8 from rfl, Nat.testBit_mod_two_pow, Nat.testBit_or,
        Nat.testBit_or, h4]
      simp
    refine ⟨rfl, rfl, rfl, rfl, rfl, rfl, rfl, ?_, rfl⟩
    simp only [timer1_initialization, timer1_initialize_callback_OVF,
      TIMER_OVERFLOW_INTERRUPT_ENABLE, U8_ONE_VALUE, TOIE1_BIT, OCIE1A_BIT, WGM10_BIT,
      WGM11_BIT, timer_mode_t.val, true_or, if_true, to_u8]
    exact hbit _ _

/-- C23 at concrete inputs: 999 ms is refused and leaves the power-on state as
it is; 1000 ms is accepted and registers the tick handler. -/
theorem timing_init_1_spec_witness :
    (timing_init_1 999 Timer1State.init).2 = Timer1State.init ∧
    (timing_init_1 1000 Timer1State.init).1 = TIMING_OK ∧
    (timing_init_1 1000 Timer1State.init).2.timer1_callback_OVF
      = some ptr_function_callback_1 :=
  ⟨(timing_init_1_spec 999 Timer1State.init).2.1 (by decide),
   ((timing_init_1_spec 1000 Timer1State.init).2.2 (by decide)).1,
   ((timing_init_1_spec 1000 Timer1State.init).2.2 (by decide)).2.2.2.2.2.1⟩

/-- C24 fails as stated: a period of 5000 ms is accepted by `timing_init_1`
(it returns `TIMING_OK`), yet the exact reload value
`65536 - 5000 * 16000 / 1024` is -12589, which is not in 0..65535. -/
theorem timing_init_1_reload_negative_for_5000 :
    (timing_init_1 5000 Timer1State.init).1 = TIMING_OK ∧
    timing_init_1_reload 5000 = -12589 ∧
    ¬ (0 ≤ timing_init_1_reload 5000 ∧ timing_init_1_reload 5000 ≤ 65535) := by
  have h : timing_init_1_reload 5000 = -12589 := by
    rw [timing_init_1_reload_eq]; norm_num
  refine ⟨by simp [timing_init_1, TIMING_1_SEC_VALUE_IN_MS], h, ?_⟩
  rw [h]
  norm_num

/-- C24, amended: for a period `t` accepted by `timing_init_1`
(1000 ≤ t ≤ 65535 ms) the exact reload value `65536 - t * 16000 / 1024` lies in
0..65535 exactly when `t ≤ 4194`; it never exceeds 49911, and from 4195 ms on
it is negative.  For `t ≤ 4194` the value stored in the configuration is its
integer part `(524288 - 125 t) / 8`. -/
theorem timing_init_1_reload_fits_up_to_4194 (t : Nat) (s : Timer1State)
    (hlo : 1000 ≤ t) (_hhi : t ≤ 65535) :
    ((0 ≤ timing_init_1_reload t ∧ timing_init_1_reload t ≤ 65535) ↔ t ≤ 4194) ∧
    timing_init_1_reload t ≤ 49911 ∧
    (4195 ≤ t → timing_init_1_reload t < 0) ∧
    (t ≤ 4194 →
      (timing_init_1 t s).2.timer_configuration_1.OCR = (524288 - 125 * t) / 8) := by
  have hq : (1000 : ℚ) ≤ (t : ℚ) := by exact_mod_cast hlo
  have e := timing_init_1_reload_eq t
  refine ⟨⟨fun h => ?_, fun h => ?_⟩, ?_, fun h => ?_, fun h => ?_⟩
  · by_contra hc
    have : (4195 : ℚ) ≤ (t : ℚ) := by exact_mod_cast (by omega : 4195 ≤ t)
    rw [e] at h
    linarith [h.1]
  · have : (t : ℚ) ≤ 4194 := by exact_mod_cast h
    rw [e]
    constructor <;> linarith
  · rw [e]; linarith
  · have : (4195 : ℚ) ≤ (t : ℚ) := by exact_mod_cast h
    rw [e]; linarith
  · have hocr : (timing_init_1 t s).2.timer_configuration_1.OCR
        = f64_to_u16 (timing_init_1_reload t) := by
      have hn : ¬ t < 1000 := by omega
      simp [timing_init_1, TIMING_1_SEC_VALUE_IN_MS, hn, timer1_initialization,
        timer1_initialize_callback_OVF, TIMER_OVERFLOW_INTERRUPT_ENABLE, U8_ONE_VALUE]
    have hr : timing_init_1_reload t = ((524288 - 125 * t : ℕ) : ℚ) / ((8 : ℕ) : ℚ) := by
      rw [e, Nat.cast_sub (by omega)]
      push_cast
      ring
    rw [hocr, hr, f64_to_u16_of_nonneg _ (by positivity)]
    unfold to_u16
    rw [Rat.floor_natCast_div_natCast]
    have hlt : (524288 - 125 * t) / 8 < 65536 := by omega
    have hfl : ((((524288 - 125 * t : ℕ) : ℤ) / ((8 : ℕ) : ℤ)).toNat)
        = (524288 - 125 * t) / 8 := by norm_cast
    rw [hfl]
    exact Nat.mod_eq_of_lt hlt

/-- C24 (amended) at a concrete input: for 1000 ms the reload value is in range
and the stored value is 49911. -/
theorem timing_init_1_reload_fits_up_to_4194_witness :
    (0 ≤ timing_init_1_reload 1000 ∧ timing_init_1_reload 1000 ≤ 65535) ∧
    (timing_init_1 1000 Timer1State.init).2.timer_configuration_1.OCR
      = (524288 - 125 * 1000) / 8 :=
  ⟨(timing_init_1_reload_fits_up_to_4194 1000 Timer1State.init (by decide)
      (by decide)).1.mpr (by decide),
   (timing_init_1_reload_fits_up_to_4194 1000 Timer1State.init (by decide)
      (by decide)).2.2.2 (by decide)⟩

/-! ### Software PWM engine: the waveform produced by the tick callback -/

/-- With an empty table beyond slot 0 (channel counter 0), one tick callback
advances `pwm_tick` and checks the channel of slot 0 once. -/
theorem pwm_tick_counter_single (w : PwmState) (a : Nat)
    (hc : w.gs_u8_pwm_channel_counter = 0)
    (ht : w.gs_arr_str_pwm_configuration.getD 0 none = some a) :
    pwm_tick_counter w
      = (pwm_checking (some a) { w with pwm_tick := to_u32 (w.pwm_tick + 1) }).2 := by
  have hs := pwm_checking_statics (some a) { w with pwm_tick := to_u32 (w.pwm_tick + 1) }
  have h1 : ¬ (1 ≤ (pwm_checking (some a)
      { w with pwm_tick := to_u32 (w.pwm_tick + 1) }).2.gs_u8_pwm_channel_counter ∧
      (pwm_checking (some a)
        { w with pwm_tick := to_u32 (w.pwm_tick + 1) }).2.gs_u8_pwm_channel_counter
          < PWM_CHANNEL_MAX) := by
    rw [hs.2.1]
    simp [hc]
  have h0 : (0 ≤ w.gs_u8_pwm_channel_counter ∧ w.gs_u8_pwm_channel_counter < PWM_CHANNEL_MAX) := by
    rw [hc]; exact ⟨le_refl 0, by decide⟩
  show pwm_tick_counter_loop 5 0 { w with pwm_tick := to_u32 (w.pwm_tick + 1) } = _
  rw [pwm_tick_counter_loop]
  simp only [h0, and_self, if_true, ht]
  rw [pwm_tick_counter_loop]
  simp only [zero_add, h1, if_false]

/-- One `pwm_checking` of a channel whose pin agrees with its state: the fields
set by `pwm_init` are kept, the state follows the elapsed time, the cycle
start is moved only when the cycle has elapsed, and the pin agrees with the
state afterwards. -/
theorem pwm_checking_coherent (w : PwmState) (a : Nat)
    (hcoh : pin_level w.dio (w.mem a).enu_port_index (w.mem a).enu_pin_index
      = (if (w.mem a).pwm_state = PWM_ON then DIO_PIN_HIGH_LEVEL else DIO_PIN_LOW_LEVEL)) :
    ((pwm_checking (some a) w).2.mem a).enu_port_index = (w.mem a).enu_port_index ∧
    ((pwm_checking (some a) w).2.mem a).enu_pin_index = (w.mem a).enu_pin_index ∧
    ((pwm_checking (some a) w).2.mem a).t_on = (w.mem a).t_on ∧
    ((pwm_checking (some a) w).2.mem a).cycle_duration = (w.mem a).cycle_duration ∧
    ((pwm_checking (some a) w).2.mem a).pwm_state
      = (if pwm_actual_time (w.mem a).pwm_tick_ss w.pwm_tick < (w.mem a).t_on then PWM_ON
         else if pwm_actual_time (w.mem a).pwm_tick_ss w.pwm_tick < (w.mem a).cycle_duration
           then PWM_OFF
         else (w.mem a).pwm_state) ∧
    ((pwm_checking (some a) w).2.mem a).pwm_tick_ss
      = (if pwm_actual_time (w.mem a).pwm_tick_ss w.pwm_tick < (w.mem a).t_on then
           (w.mem a).pwm_tick_ss
         else if pwm_actual_time (w.mem a).pwm_tick_ss w.pwm_tick < (w.mem a).cycle_duration
           then (w.mem a).pwm_tick_ss
         else w.pwm_tick) ∧
    pin_level (pwm_checking (some a) w).2.dio (w.mem a).enu_port_index
        (w.mem a).enu_pin_index
      = (if ((pwm_checking (some a) w).2.mem a).pwm_state = PWM_ON then DIO_PIN_HIGH_LEVEL
         else DIO_PIN_LOW_LEVEL) := by
  by_cases h1 : pwm_actual_time (w.mem a).pwm_tick_ss w.pwm_tick < (w.mem a).t_on
  · by_cases hs : (w.mem a).pwm_state = PWM_ON
    · simp [pwm_checking, h1, hs, hcoh]
    · simp [pwm_checking, h1, hs, pin_level_DIO_write_pin]
  · by_cases h2 : pwm_actual_time (w.mem a).pwm_tick_ss w.pwm_tick < (w.mem a).cycle_duration
    · by_cases hs : (w.mem a).pwm_state = PWM_OFF
      · simp [pwm_checking, h1, h2, hs, hcoh]
      · simp [pwm_checking, h1, h2, hs, pin_level_DIO_write_pin]
    · simp [pwm_checking, h1, h2, hcoh]

/-- The channel of slot 0, started by `pwm_start` at tick `T0` with
`1 ≤ t_on < cycle_duration`, after `j` tick callbacks without wrap of
`pwm_tick`: with `j = cycle_duration * q + r` and `r < cycle_duration`, the
cycle start is `T0 + cycle_duration * q`, the state is `PWM_ON` exactly when
`r < t_on` in the first cycle and `1 ≤ r < t_on` in a later one, and the pin
agrees with the state. -/
theorem pwm_tick_counter_iterate_running (w : PwmState) (a : Nat)
    (hc : w.gs_u8_pwm_channel_counter = 0)
    (ht : w.gs_arr_str_pwm_configuration.getD 0 none = some a)
    (hton : 1 ≤ (w.mem a).t_on) (hcyc : (w.mem a).t_on < (w.mem a).cycle_duration) :
    ∀ j : Nat, w.pwm_tick + j < 4294967296 →
      (pwm_tick_counter^[j] (pwm_start (some a) w).2).gs_u8_pwm_channel_counter = 0 ∧
      (pwm_tick_counter^[j] (pwm_start (some a) w).2).gs_arr_str_pwm_configuration.getD 0 none
        = some a ∧
      (pwm_tick_counter^[j] (pwm_start (some a) w).2).pwm_tick = w.pwm_tick + j ∧
      ((pwm_tick_counter^[j] (pwm_start (some a) w).2).mem a).enu_port_index
        = (w.mem a).enu_port_index ∧
      ((pwm_tick_counter^[j] (pwm_start (some a) w).2).mem a).enu_pin_index
        = (w.mem a).enu_pin_index ∧
      ((pwm_tick_counter^[j] (pwm_start (some a) w).2).mem a).t_on = (w.mem a).t_on ∧
      ((pwm_tick_counter^[j] (pwm_start (some a) w).2).mem a).cycle_duration
        = (w.mem a).cycle_duration ∧
      pin_level (pwm_tick_counter^[j] (pwm_start (some a) w).2).dio
          (w.mem a).enu_port_index (w.mem a).enu_pin_index
        = (if ((pwm_tick_counter^[j] (pwm_start (some a) w).2).mem a).pwm_state = PWM_ON
           then DIO_PIN_HIGH_LEVEL else DIO_PIN_LOW_LEVEL) ∧
      ∃ q r : Nat, j = (w.mem a).cycle_duration * q + r ∧ r < (w.mem a).cycle_duration ∧
        ((pwm_tick_counter^[j] (pwm_start (some a) w).2).mem a).pwm_tick_ss
          = w.pwm_tick + (w.mem a).cycle_duration * q ∧
        (((pwm_tick_counter^[j] (pwm_start (some a) w).2).mem a).pwm_state = PWM_ON ↔
          (q = 0 ∧ r < (w.mem a).t_on) ∨ (1 ≤ q ∧ 1 ≤ r ∧ r < (w.mem a).t_on)) := by
  intro j
  induction j with
  | zero =>
    intro _
    refine ⟨hc, ht, rfl, ?_, ?_, ?_, ?_, ?_, 0, 0, ?_, ?_, ?_, ?_⟩
    · simp [pwm_start]
    · simp [pwm_start]
    · simp [pwm_start]
    · simp [pwm_start]
    · simp [pwm_start, pin_level_DIO_write_pin]
    · simp
    · omega
    · simp [pwm_start]
    · simp only [Function.iterate_zero, id_eq, pwm_start, Function.update_same, true_iff]
      left
      exact ⟨trivial, hton⟩
  | succ j ih =>
    intro hw
    obtain ⟨i1, i2, i3, i4, i5, i6, i7, i8, q, r, hj, hr, hss, hst⟩ := ih (by omega)
    rw [Function.iterate_succ_apply']
    generalize pwm_tick_counter^[j] (pwm_start (some a) w).2 = wj at *
    rw [pwm_tick_counter_single wj a i1 i2]
    have htk : to_u32 (wj.pwm_tick + 1) = w.pwm_tick + (j + 1) := by
      rw [i3]
      unfold to_u32
      exact Nat.mod_eq_of_lt (by omega)
    rw [htk]
    have hs := pwm_checking_statics (some a) { wj with pwm_tick := w.pwm_tick + (j + 1) }
    have hk := pwm_checking_coherent { wj with pwm_tick := w.pwm_tick + (j + 1) } a
      (by simpa only [i4, i5] using i8)
    simp only [i4, i5, i6, i7, hss] at hk
    obtain ⟨k1, k2, k3, k4, k5, k6, k7⟩ := hk
    have he : pwm_actual_time (w.pwm_tick + (w.mem a).cycle_duration * q)
        (w.pwm_tick + (j + 1)) = r + 1 := by
      unfold pwm_actual_time to_u32
      rw [if_neg (by omega)]
      rw [Nat.mod_eq_of_lt (by omega)]
      omega
    rw [he] at k5 k6
    refine ⟨hs.2.1.trans i1, ?_, hs.2.2, k1, k2, k3, k4, k7, ?_⟩
    · rw [hs.1]; exact i2
    · by_cases hr1 : r + 1 < (w.mem a).cycle_duration
      · refine ⟨q, r + 1, by omega, hr1, ?_, ?_⟩
        · rw [k6]
          split_ifs <;> rfl
        · rw [k5]
          by_cases h1 : r + 1 < (w.mem a).t_on
          · simp only [if_pos h1, true_iff]
            by_cases hq : q = 0
            · exact Or.inl ⟨hq, h1⟩
            · exact Or.inr ⟨by omega, by omega, h1⟩
          · simp only [if_neg h1, if_pos hr1]
            constructor
            · intro h; cases h
            · rintro (⟨_, h⟩ | ⟨_, _, h⟩) <;> exact absurd h h1
      · have h1 : ¬ r + 1 < (w.mem a).t_on := by omega
        refine ⟨q + 1, 0, ?_, by omega, ?_, ?_⟩
        · rw [Nat.mul_succ]; omega
        · rw [k6, if_neg h1, if_neg hr1, Nat.mul_succ]
          show w.pwm_tick + (j + 1) = _
          omega
        · rw [k5, if_neg h1, if_neg hr1]
          constructor
          · intro h
            rcases hst.mp h with ⟨_, h2⟩ | ⟨_, _, h2⟩ <;> omega
          · rintro (⟨h, _⟩ | ⟨_, h, _⟩) <;> omega

/-- The state of the started channel after `j` tick callbacks, in terms of `j`
alone. -/
theorem pwm_state_after_ticks (w : PwmState) (a j : Nat)
    (hc : w.gs_u8_pwm_channel_counter = 0)
    (ht : w.gs_arr_str_pwm_configuration.getD 0 none = some a)
    (hton : 1 ≤ (w.mem a).t_on) (hcyc : (w.mem a).t_on < (w.mem a).cycle_duration)
    (hw : w.pwm_tick + j < 4294967296) :
    ((pwm_tick_counter^[j] (pwm_start (some a) w).2).mem a).pwm_state = PWM_ON ↔
      (j < (w.mem a).cycle_duration ∧ j < (w.mem a).t_on) ∨
      ((w.mem a).cycle_duration ≤ j ∧ 1 ≤ j % (w.mem a).cycle_duration ∧
        j % (w.mem a).cycle_duration < (w.mem a).t_on) := by
  obtain ⟨_, _, _, _, _, _, _, _, q, r, hj, hr, _, hst⟩ :=
    pwm_tick_counter_iterate_running w a hc ht hton hcyc j hw
  rw [hst]
  have hmod : j % (w.mem a).cycle_duration = r := by
    rw [hj, Nat.mul_add_mod, Nat.mod_eq_of_lt hr]
  rw [hmod]
  rcases Nat.eq_zero_or_pos q with hq | hq
  · subst hq
    have hjr : j = r := by simpa using hj
    constructor
    · rintro (⟨_, h⟩ | ⟨h, _⟩)
      · exact Or.inl ⟨by omega, by omega⟩
      · omega
    · rintro (⟨_, h⟩ | ⟨h, _⟩)
      · exact Or.inl ⟨rfl, by omega⟩
      · omega
  · have hge : (w.mem a).cycle_duration ≤ (w.mem a).cycle_duration * q :=
      Nat.le_mul_of_pos_right _ hq
    constructor
    · rintro (⟨h, _⟩ | ⟨_, h1, h2⟩)
      · omega
      · exact Or.inr ⟨by omega, h1, h2⟩
    · rintro (⟨h, _⟩ | ⟨_, h1, h2⟩)
      · omega
      · exact Or.inr ⟨hq, h1, h2⟩

/-- C29: for the channel registered in slot 0 of the table and started by
`pwm_start`, with `1 ≤ t_on < cycle_duration`, after `j ≥ 0` consecutive
`pwm_tick_counter` invocations without wrap of `pwm_tick` the channel is
`PWM_ON` exactly when `j < cycle_duration` and `j < t_on`, or
`j ≥ cycle_duration` and `1 ≤ j mod cycle_duration < t_on`; the pin is HIGH
exactly when the state is `PWM_ON`.  So among the `cycle_duration` tick counts
of cycle `m` the pin is HIGH at `t_on` of them for `m = 0` and at `t_on - 1` of
them for every `m ≥ 1`, and with `t_on = 1` it is never HIGH from the second
cycle on. -/
theorem pwm_waveform_after_start (w : PwmState) (a j : Nat)
    (hc : w.gs_u8_pwm_channel_counter = 0)
    (ht : w.gs_arr_str_pwm_configuration.getD 0 none = some a)
    (hton : 1 ≤ (w.mem a).t_on) (hcyc : (w.mem a).t_on < (w.mem a).cycle_duration)
    (hw : w.pwm_tick + j < 4294967296) :
    (((pwm_tick_counter^[j] (pwm_start (some a) w).2).mem a).pwm_state = PWM_ON ↔
      (j < (w.mem a).cycle_duration ∧ j < (w.mem a).t_on) ∨
      ((w.mem a).cycle_duration ≤ j ∧ 1 ≤ j % (w.mem a).cycle_duration ∧
        j % (w.mem a).cycle_duration < (w.mem a).t_on)) ∧
    (pin_level (pwm_tick_counter^[j] (pwm_start (some a) w).2).dio
        (w.mem a).enu_port_index (w.mem a).enu_pin_index = DIO_PIN_HIGH_LEVEL ↔
      ((pwm_tick_counter^[j] (pwm_start (some a) w).2).mem a).pwm_state = PWM_ON) ∧
    ((w.mem a).t_on = 1 → (w.mem a).cycle_duration ≤ j →
      ((pwm_tick_counter^[j] (pwm_start (some a) w).2).mem a).pwm_state = PWM_OFF ∧
      pin_level (pwm_tick_counter^[j] (pwm_start (some a) w).2).dio
        (w.mem a).enu_port_index (w.mem a).enu_pin_index = DIO_PIN_LOW_LEVEL) ∧
    (∀ m : Nat, w.pwm_tick + (w.mem a).cycle_duration * (m + 1) ≤ 4294967296 →
      ((Finset.range (w.mem a).cycle_duration).filter (fun i =>
          pin_level (pwm_tick_counter^[(w.mem a).cycle_duration * m + i]
              (pwm_start (some a) w).2).dio
            (w.mem a).enu_port_index (w.mem a).enu_pin_index = DIO_PIN_HIGH_LEVEL)).card
        = if m = 0 then (w.mem a).t_on else (w.mem a).t_on - 1) := by
  have hpin : ∀ k, w.pwm_tick + k < 4294967296 →
      (pin_level (pwm_tick_counter^[k] (pwm_start (some a) w).2).dio
          (w.mem a).enu_port_index (w.mem a).enu_pin_index = DIO_PIN_HIGH_LEVEL ↔
        ((pwm_tick_counter^[k] (pwm_start (some a) w).2).mem a).pwm_state = PWM_ON) := by
    intro k hk
    obtain ⟨_, _, _, _, _, _, _, h8, _⟩ :=
      pwm_tick_counter_iterate_running w a hc ht hton hcyc k hk
    rw [h8]
    split_ifs with h <;> simp [h]
  have hst := pwm_state_after_ticks w a j hc ht hton hcyc hw
  refine ⟨hst, hpin j hw, ?_, ?_⟩
  · intro h1 hj
    have hoff : ((pwm_tick_counter^[j] (pwm_start (some a) w).2).mem a).pwm_state
        = PWM_OFF := by
      cases hs : ((pwm_tick_counter^[j] (pwm_start (some a) w).2).mem a).pwm_state with
      | PWM_OFF => rfl
      | PWM_ON =>
        rcases hst.mp hs with ⟨h, _⟩ | ⟨_, h2, h3⟩ <;> omega
    refine ⟨hoff, ?_⟩
    obtain ⟨_, _, _, _, _, _, _, h8, _⟩ :=
      pwm_tick_counter_iterate_running w a hc ht hton hcyc j hw
    rw [h8, hoff]
    rfl
  · intro m hm
    have hmul : (w.mem a).cycle_duration * (m + 1)
        = (w.mem a).cycle_duration * m + (w.mem a).cycle_duration := Nat.mul_succ _ _
    have hset : (Finset.range (w.mem a).cycle_duration).filter (fun i =>
          pin_level (pwm_tick_counter^[(w.mem a).cycle_duration * m + i]
              (pwm_start (some a) w).2).dio
            (w.mem a).enu_port_index (w.mem a).enu_pin_index = DIO_PIN_HIGH_LEVEL)
        = if m = 0 then Finset.range (w.mem a).t_on else Finset.Ico 1 (w.mem a).t_on := by
      ext i
      simp only [Finset.mem_filter, Finset.mem_range]
      constructor
      · rintro ⟨hi, hp⟩
        have hk : w.pwm_tick + ((w.mem a).cycle_duration * m + i) < 4294967296 := by omega
        have hs := (pwm_state_after_ticks w a _ hc ht hton hcyc hk).mp ((hpin _ hk).mp hp)
        have hmod : ((w.mem a).cycle_duration * m + i) % (w.mem a).cycle_duration = i := by
          rw [Nat.mul_add_mod, Nat.mod_eq_of_lt hi]
        rw [hmod] at hs
        rcases Nat.eq_zero_or_pos m with h0 | h0
        · subst h0
          rw [if_pos rfl, Finset.mem_range]
          rcases hs with ⟨_, h⟩ | ⟨_, _, h⟩
          · simpa using h
          · exact h
        · have hge : (w.mem a).cycle_duration ≤ (w.mem a).cycle_duration * m :=
            Nat.le_mul_of_pos_right _ h0
          rw [if_neg (by omega), Finset.mem_Ico]
          rcases hs with ⟨h, _⟩ | ⟨_, h1, h2⟩
          · omega
          · exact ⟨h1, h2⟩
      · intro hi
        rcases Nat.eq_zero_or_pos m with h0 | h0
        · subst h0
          rw [if_pos rfl, Finset.mem_range] at hi
          have hic : i < (w.mem a).cycle_duration := by omega
          have hk : w.pwm_tick + ((w.mem a).cycle_duration * 0 + i) < 4294967296 := by omega
          refine ⟨hic, (hpin _ hk).mpr
            ((pwm_state_after_ticks w a _ hc ht hton hcyc hk).mpr (Or.inl ?_))⟩
          constructor <;> omega
        · have hge : (w.mem a).cycle_duration ≤ (w.mem a).cycle_duration * m :=
            Nat.le_mul_of_pos_right _ h0
          rw [if_neg (by omega), Finset.mem_Ico] at hi
          have hic : i < (w.mem a).cycle_duration := by omega
          have hk : w.pwm_tick + ((w.mem a).cycle_duration * m + i) < 4294967296 := by omega
          have hmod : ((w.mem a).cycle_duration * m + i) % (w.mem a).cycle_duration = i := by
            rw [Nat.mul_add_mod, Nat.mod_eq_of_lt hic]
          refine ⟨hic, (hpin _ hk).mpr
            ((pwm_state_after_ticks w a _ hc ht hton hcyc hk).mpr (Or.inr ?_))⟩
          rw [hmod]
          exact ⟨by omega, hi.1, hi.2⟩
    rw [hset]
    split_ifs
    · exact Finset.card_range _
    · exact Nat.card_Ico _ _

/-- C29 at a concrete input: the application channel (`t_on = 15`,
`cycle_duration = 50`) registered and started at tick 0 is `PWM_ON` after 51
tick callbacks, the first tick count of the second cycle at which it is on. -/
theorem pwm_waveform_after_start_witness :
    ((pwm_init (some 0) pwm_power_on).2.mem 0).t_on = 15 ∧
    ((pwm_init (some 0) pwm_power_on).2.mem 0).cycle_duration = 50 ∧
    ((pwm_tick_counter^[51]
        (pwm_start (some 0) (pwm_init (some 0) pwm_power_on).2).2).mem 0).pwm_state
      = PWM_ON :=
  have hm : ((pwm_init (some 0) pwm_power_on).2.mem 0).t_on = 15 ∧
      ((pwm_init (some 0) pwm_power_on).2.mem 0).cycle_duration = 50 := by
    simp [pwm_init, pwm_power_on, PwmState.init, two_channel_mem, gs_str_pwm_pin,
      pwm_cycle_duration_eq, pwm_t_on_30_50, pwm_t_on_50_50]
  ⟨hm.1, hm.2,
    (pwm_waveform_after_start (pwm_init (some 0) pwm_power_on).2 0 51 rfl rfl
      (by simp [hm.1]) (by simp [hm.1, hm.2]) (by decide)).1.mpr
      (Or.inr ⟨by simp [hm.2], by simp [hm.2], by simp [hm.1, hm.2]⟩)⟩

/-! ### Car control: the pointer check -/

/-- The function `DIO_write_pin` returns `DIO_OK` for every pin of the enum. -/
theorem DIO_write_pin_ok (port : dio_enu_port_t) (pin : dio_enu_pin_t)
    (level : dio_enu_level_t) (r : DioRegs) : (DIO_write_pin port pin level r).1 = DIO_OK := by
  have hp : pin.val < 8 := by cases pin <;> decide
  cases port <;> cases level <;> simp [DIO_write_pin, DIO_MAX_PINS, hp]

/-- The function `DIO_init` returns `DIO_OK` for every pin of the enum. -/
theorem DIO_init_ok (port : dio_enu_port_t) (pin : dio_enu_pin_t)
    (d : dio_u8_enu_direction_t) (r : DioRegs) : (DIO_init port pin d r).1 = DIO_OK := by
  have hp : pin.val < 8 := by cases pin <;> decide
  cases port <;> simp [DIO_init, DIO_MAX_PINS, hp]

/-- The four MOTOR functions return `MOTOR_OK` and leave the registers as
their two DIO calls leave them. -/
theorem MOTOR_calls_ok (cfg : motor_str_config_t) (r : DioRegs) :
    MOTOR_INIT cfg r = (MOTOR_OK,
      (DIO_init cfg.port cfg.pin_num2 DIO_PIN_OUTPUT
        (DIO_init cfg.port cfg.pin_num1 DIO_PIN_OUTPUT r).2).2) ∧
    MOTOR_FORWARD cfg r = (MOTOR_OK,
      (DIO_write_pin cfg.port cfg.pin_num2 DIO_PIN_LOW_LEVEL
        (DIO_write_pin cfg.port cfg.pin_num1 DIO_PIN_HIGH_LEVEL r).2).2) ∧
    MOTOR_BACKWARD cfg r = (MOTOR_OK,
      (DIO_write_pin cfg.port cfg.pin_num2 DIO_PIN_HIGH_LEVEL
        (DIO_write_pin cfg.port cfg.pin_num1 DIO_PIN_LOW_LEVEL r).2).2) ∧
    MOTOR_STOP cfg r = (MOTOR_OK,
      (DIO_write_pin cfg.port cfg.pin_num2 DIO_PIN_LOW_LEVEL
        (DIO_write_pin cfg.port cfg.pin_num1 DIO_PIN_LOW_LEVEL r).2).2) := by
  refine ⟨?_, ?_, ?_, ?_⟩
  · simp [MOTOR_INIT, DIO_init_ok]
  · simp [MOTOR_FORWARD, DIO_write_pin_ok]
  · simp [MOTOR_BACKWARD, DIO_write_pin_ok]
  · simp [MOTOR_STOP, DIO_write_pin_ok]

/-- C25 (the code at the failing input): with both motor pointers valid and a
NULL PWM pointer, none of the six CAR functions returns `CAR_NULL_PTR`: each
returns `CAR_OK` after performing its motor operations, and `CAR_INIT` also
starts the tick timer.  For the application's motors on the power-on state,
`CAR_INIT(&gs_str_motor_1, &gs_str_motor_2, NULL)` returns `CAR_OK` having made
pins 0, 1, 3 and 4 of port A outputs and started the tick timer, and
`CAR_FORWARD` with the same arguments returns `CAR_OK` having driven pin 3
HIGH.  Only a NULL motor pointer yields `CAR_NULL_PTR` with nothing done. -/
theorem CAR_CONTROL_null_pwm_pointer_not_checked (m1 m2 : motor_str_config_t)
    (p : Option Nat) (c : CarState) :
    ((CAR_CONTROL.CAR_INIT (some m1) (some m2) none c).1 = CAR_OK ∧
      (CAR_CONTROL.CAR_INIT (some m1) (some m2) none c).2.pwm_tick_timer_started = true ∧
      (CAR_CONTROL.CAR_INIT (some m1) (some m2) none c).2.pwm.dio
        = (MOTOR_INIT m2 (MOTOR_INIT m1 c.pwm.dio).2).2) ∧
    ((CAR_CONTROL.CAR_FORWARD (some m1) (some m2) none c).1 = CAR_OK ∧
      (CAR_CONTROL.CAR_FORWARD (some m1) (some m2) none c).2.pwm.dio
        = (MOTOR_FORWARD m2 (MOTOR_FORWARD m1 c.pwm.dio).2).2) ∧
    ((CAR_CONTROL.CAR_BACKWARD (some m1) (some m2) none c).1 = CAR_OK ∧
      (CAR_CONTROL.CAR_BACKWARD (some m1) (some m2) none c).2.pwm.dio
        = (MOTOR_BACKWARD m2 (MOTOR_BACKWARD m1 c.pwm.dio).2).2) ∧
    ((CAR_CONTROL.CAR_REVERSE_RIGHT (some m1) (some m2) none c).1 = CAR_OK ∧
      (CAR_CONTROL.CAR_REVERSE_RIGHT (some m1) (some m2) none c).2.pwm.dio
        = (MOTOR_BACKWARD m2 (MOTOR_FORWARD m1 c.pwm.dio).2).2) ∧
    ((CAR_CONTROL.CAR_REVERSE_LEFT (some m1) (some m2) none c).1 = CAR_OK ∧
      (CAR_CONTROL.CAR_REVERSE_LEFT (some m1) (some m2) none c).2.pwm.dio
        = (MOTOR_FORWARD m2 (MOTOR_BACKWARD m1 c.pwm.dio).2).2) ∧
    ((CAR_CONTROL.CAR_STOP (some m1) (some m2) none c).1 = CAR_OK ∧
      (CAR_CONTROL.CAR_STOP (some m1) (some m2) none c).2.pwm.dio
        = (MOTOR_STOP m2 (MOTOR_STOP m1 c.pwm.dio).2).2) ∧
    ((CAR_CONTROL.CAR_INIT (some gs_str_motor_1) (some gs_str_motor_2) none car_power_on).1
        = CAR_OK ∧
      (CAR_CONTROL.CAR_INIT (some gs_str_motor_1) (some gs_str_motor_2) none
        car_power_on).2.pwm.dio.DATA_DIRECTION_PORTA = 27 ∧
      car_power_on.pwm.dio.DATA_DIRECTION_PORTA = 0 ∧
      (CAR_CONTROL.CAR_INIT (some gs_str_motor_1) (some gs_str_motor_2) none
        car_power_on).2.pwm_tick_timer_started = true ∧
      car_power_on.pwm_tick_timer_started = false ∧
      pin_level (CAR_CONTROL.CAR_FORWARD (some gs_str_motor_1) (some gs_str_motor_2) none
        car_power_on).2.pwm.dio PORTA PIN3 = DIO_PIN_HIGH_LEVEL ∧
      pin_level car_power_on.pwm.dio PORTA PIN3 = DIO_PIN_LOW_LEVEL) ∧
    (CAR_CONTROL.CAR_INIT none (some m2) p c = (CAR_NULL_PTR, c) ∧
      CAR_CONTROL.CAR_INIT (some m1) none p c = (CAR_NULL_PTR, c) ∧
      CAR_CONTROL.CAR_FORWARD none (some m2) p c = (CAR_NULL_PTR, c) ∧
      CAR_CONTROL.CAR_FORWARD (some m1) none p c = (CAR_NULL_PTR, c) ∧
      CAR_CONTROL.CAR_BACKWARD none (some m2) p c = (CAR_NULL_PTR, c) ∧
      CAR_CONTROL.CAR_BACKWARD (some m1) none p c = (CAR_NULL_PTR, c) ∧
      CAR_CONTROL.CAR_REVERSE_RIGHT none (some m2) p c = (CAR_NULL_PTR, c) ∧
      CAR_CONTROL.CAR_REVERSE_RIGHT (some m1) none p c = (CAR_NULL_PTR, c) ∧
      CAR_CONTROL.CAR_REVERSE_LEFT none (some m2) p c = (CAR_NULL_PTR, c) ∧
      CAR_CONTROL.CAR_REVERSE_LEFT (some m1) none p c = (CAR_NULL_PTR, c) ∧
      CAR_CONTROL.CAR_STOP none (some m2) p c = (CAR_NULL_PTR, c) ∧
      CAR_CONTROL.CAR_STOP (some m1) none p c = (CAR_NULL_PTR, c)) := by
  have hm := MOTOR_calls_ok
  refine ⟨?_, ?_, ?_, ?_, ?_, ?_, ?_, ?_⟩
  · simp [CAR_CONTROL.CAR_INIT, (hm _ _).1, pwm_init, pwm_start_tick]
  · simp [CAR_CONTROL.CAR_FORWARD, (hm _ _).2.1, pwm_change_frequency_or_duty_cycle, pwm_start]
  · simp [CAR_CONTROL.CAR_BACKWARD, (hm _ _).2.2.1, pwm_change_frequency_or_duty_cycle,
      pwm_start]
  · simp [CAR_CONTROL.CAR_REVERSE_RIGHT, (hm _ _).2.1, (hm _ _).2.2.1,
      pwm_change_frequency_or_duty_cycle, pwm_start]
  · simp [CAR_CONTROL.CAR_REVERSE_LEFT, (hm _ _).2.1, (hm _ _).2.2.1,
      pwm_change_frequency_or_duty_cycle, pwm_start]
  · simp [CAR_CONTROL.CAR_STOP, (hm _ _).2.2.2, pwm_stop]
  · refine ⟨?_, ?_, rfl, ?_, rfl, ?_, ?_⟩
    · simp [CAR_CONTROL.CAR_INIT, (hm _ _).1]
    · decide
    · simp [CAR_CONTROL.CAR_INIT, (hm _ _).1, pwm_start_tick]
    · decide
    · decide
  · refine ⟨rfl, ?_, rfl, ?_, rfl, ?_, rfl, ?_, rfl, ?_, rfl, ?_⟩ <;> rfl

/-! ### Navigation: the stop branch of `APP_vidStart` -/

/-- The call `CAR_STOP(&gs_str_motor_1, &gs_str_motor_2, &gs_str_pwm_pin)` with
the PWM channel on pin 2 of port A: it returns `CAR_OK`, both pins of both
motors and the PWM pin are LOW afterwards, and the channel is stopped. -/
theorem car_command_call_stop (duty : Nat) (c : CarState)
    (hport : (c.pwm.mem 0).enu_port_index = PORTA)
    (hpin : (c.pwm.mem 0).enu_pin_index = PIN2) :
    (car_command_call car_command.CAR_STOP duty c).1 = CAR_OK ∧
    pin_level (car_command_call car_command.CAR_STOP duty c).2.pwm.dio PORTA PIN3
      = DIO_PIN_LOW_LEVEL ∧
    pin_level (car_command_call car_command.CAR_STOP duty c).2.pwm.dio PORTA PIN4
      = DIO_PIN_LOW_LEVEL ∧
    pin_level (car_command_call car_command.CAR_STOP duty c).2.pwm.dio PORTA PIN0
      = DIO_PIN_LOW_LEVEL ∧
    pin_level (car_command_call car_command.CAR_STOP duty c).2.pwm.dio PORTA PIN1
      = DIO_PIN_LOW_LEVEL ∧
    pin_level (car_command_call car_command.CAR_STOP duty c).2.pwm.dio PORTA PIN2
      = DIO_PIN_LOW_LEVEL ∧
    ((car_command_call car_command.CAR_STOP duty c).2.pwm.mem 0).pwm_state = PWM_OFF ∧
    ((car_command_call car_command.CAR_STOP duty c).2.pwm.mem 0).pwm_tick_ss = 0 := by
  have hm := MOTOR_calls_ok
  have hw := pin_level_DIO_write_pin
  have ho := fun port pin level r => (DIO_write_pin_other port pin level r).1
  have e : (car_command_call car_command.CAR_STOP duty c).2.pwm.dio
      = (DIO_write_pin PORTA PIN2 DIO_PIN_LOW_LEVEL
          (DIO_write_pin PORTA PIN1 DIO_PIN_LOW_LEVEL
            (DIO_write_pin PORTA PIN0 DIO_PIN_LOW_LEVEL
              (DIO_write_pin PORTA PIN4 DIO_PIN_LOW_LEVEL
                (DIO_write_pin PORTA PIN3 DIO_PIN_LOW_LEVEL c.pwm.dio).2).2).2).2).2 := by
    simp [car_command_call, CAR_CONTROL.CAR_STOP, (hm _ _).2.2.2, pwm_stop, hport, hpin,
      gs_str_motor_1, gs_str_motor_2]
  refine ⟨?_, ?_, ?_, ?_, ?_, ?_, ?_, ?_⟩
  · simp [car_command_call, CAR_CONTROL.CAR_STOP, (hm _ _).2.2.2]
  · rw [e, ho _ _ _ _ _ _ (Or.inr (by decide)), ho _ _ _ _ _ _ (Or.inr (by decide)),
      ho _ _ _ _ _ _ (Or.inr (by decide)), ho _ _ _ _ _ _ (Or.inr (by decide)), hw]
  · rw [e, ho _ _ _ _ _ _ (Or.inr (by decide)), ho _ _ _ _ _ _ (Or.inr (by decide)),
      ho _ _ _ _ _ _ (Or.inr (by decide)), hw]
  · rw [e, ho _ _ _ _ _ _ (Or.inr (by decide)), ho _ _ _ _ _ _ (Or.inr (by decide)), hw]
  · rw [e, ho _ _ _ _ _ _ (Or.inr (by decide)), hw]
  · rw [e, hw]
  · simp [car_command_call, CAR_CONTROL.CAR_STOP, (hm _ _).2.2.2, pwm_stop]
  · simp [car_command_call, CAR_CONTROL.CAR_STOP, (hm _ _).2.2.2, pwm_stop, U8_ZERO_VALUE]

/-- The wait of the stop branch changes nothing but the number of reads. -/
theorem APP_wait_while_stopped_frame (env : AppEnv) :
    ∀ (fuel : Nat) (st st' : AppState),
      APP_wait_while_stopped env fuel st = some st' → st' = { st with reads := st'.reads } := by
  intro fuel
  induction fuel with
  | zero => intro st st' h; simp [APP_wait_while_stopped] at h
  | succ fuel ih =>
    intro st st' h
    simp only [APP_wait_while_stopped] at h
    split_ifs at h
    · exact ih { st with reads := st.reads + 1 } st' h
    · cases h; rfl

/-- The wait of the stop branch ends once the motor selection is no longer
`EN_MOTOR_STOP`: after `k` reads of `EN_MOTOR_STOP` and one of another value,
with more than `k` iterations allowed. -/
theorem APP_wait_while_stopped_ends (env : AppEnv) :
    ∀ (k fuel : Nat) (st : AppState),
      (∀ i, i < k → env.motorSel (st.reads + i) = EN_MOTOR_STOP) →
      env.motorSel (st.reads + k) ≠ EN_MOTOR_STOP → k < fuel →
      APP_wait_while_stopped env fuel st = some { st with reads := st.reads + k + 1 } := by
  intro k
  induction k with
  | zero =>
    intro fuel st _ hne hf
    obtain ⟨f, rfl⟩ : ∃ f, fuel = f + 1 := ⟨fuel - 1, by omega⟩
    simp only [APP_wait_while_stopped]
    rw [if_neg (by simpa using hne)]
  | succ k ih =>
    intro fuel st hst hne hf
    obtain ⟨f, rfl⟩ : ∃ f, fuel = f + 1 := ⟨fuel - 1, by omega⟩
    simp only [APP_wait_while_stopped]
    rw [if_pos (by simpa using hst 0 (by omega))]
    rw [ih f { st with reads := st.reads + 1 }
      (fun i hi => by
        have := hst (i + 1) (by omega)
        simpa [Nat.add_assoc, Nat.add_comm 1 i] using this)
      (by simpa [Nat.add_assoc, Nat.add_comm 1 k] using hne) (by omega)]
    simp [Nat.add_assoc, Nat.add_comm 1 k]

/-- The stop branch as a whole: when both evaluations of `en_motorSel` at the
top of `APP_vidStart` find `EN_MOTOR_STOP`, the call is the stop actions
followed by the wait. -/
theorem APP_vidStart_stopped_eq (env : AppEnv) (fuel : Nat) (x : AppTopState)
    (h1 : env.motorSel x.app.reads = EN_MOTOR_STOP)
    (h2 : env.motorSel (x.app.reads + 1) = EN_MOTOR_STOP) :
    APP_vidStart env fuel x
      = (APP_wait_while_stopped env fuel
          (APP_stop_actions { x with app := { x.app with reads := x.app.reads + 2 } }).app).map
          fun a => { APP_stop_actions { x with app := { x.app with reads := x.app.reads + 2 } }
                     with app := a } := by
  simp [APP_vidStart, app_motor_started, h1, h2]

/-- C22: when `APP_vidStart` runs with `en_motorSel == EN_MOTOR_STOP` (at both
evaluations at its top), whatever the obstacle state and the rotation counter
are: whenever it returns, it has issued `CAR_STOP` (one more entry in the
record of calls), `en_start_state` is `EN_UPDATE_DIR`, the timeout handle is
fresh (`TIMING_CATCH`, timestamp 0), and obstacle state, rotation counter and
chosen direction are as before; a following call that finds
`EN_MOTOR_START` then begins with `APP_updateDirection`.  It returns as soon as
`en_motorSel` is read with another value.  The `CAR_STOP` call, made with the
application's motors and its PWM channel on pin 2 of port A, returns `CAR_OK`
and leaves both pins of both motors and the PWM pin LOW and the channel
`PWM_OFF` with its start tick cleared. -/
theorem APP_vidStart_stop_branch (env : AppEnv) (fuel k : Nat) (x : AppTopState)
    (c : CarState)
    (h1 : env.motorSel x.app.reads = EN_MOTOR_STOP)
    (h2 : env.motorSel (x.app.reads + 1) = EN_MOTOR_STOP)
    (hport : (c.pwm.mem 0).enu_port_index = PORTA)
    (hpin : (c.pwm.mem 0).enu_pin_index = PIN2) :
    (∀ x', APP_vidStart env fuel x = some x' →
      x'.app.trace = app_event.car car_command.CAR_STOP x.app.duty_cycle :: x.app.trace ∧
      x'.en_start_state = EN_UPDATE_DIR ∧
      x'.app.timing.gs_enu_catch_state = TIMING_CATCH ∧
      x'.app.timing.gs_u16_timestamp = 0 ∧
      x'.app.en_Dist_states = x.app.en_Dist_states ∧
      x'.app.gs_u8_rotate_counter = x.app.gs_u8_rotate_counter ∧
      x'.app.u8_g_dirStateCounter = x.app.u8_g_dirStateCounter ∧
      (∀ (env2 : AppEnv) (fuel2 : Nat), env2.motorSel x'.app.reads = EN_MOTOR_START →
        APP_vidStart env2 fuel2 x'
          = ((APP_updateDirection env2 fuel2
                { x' with app := { x'.app with reads := x'.app.reads + 1 } }).map
              fun y => { y with en_start_state := UPDATE_OBSTACLE_STATE }).bind
            fun y => (APP_vidStart_while env2 fuel2 fuel2 y.app).map
              fun a => { y with app := a })) ∧
    ((∀ i, i < k → env.motorSel (x.app.reads + 2 + i) = EN_MOTOR_STOP) →
      env.motorSel (x.app.reads + 2 + k) ≠ EN_MOTOR_STOP → k < fuel →
      APP_vidStart env fuel x
        = some { APP_stop_actions x with
                 app := { (APP_stop_actions x).app with reads := x.app.reads + 2 + k + 1 } }) ∧
    ((car_command_call car_command.CAR_STOP x.app.duty_cycle c).1 = CAR_OK ∧
      pin_level (car_command_call car_command.CAR_STOP x.app.duty_cycle c).2.pwm.dio
        gs_str_motor_1.port gs_str_motor_1.pin_num1 = DIO_PIN_LOW_LEVEL ∧
      pin_level (car_command_call car_command.CAR_STOP x.app.duty_cycle c).2.pwm.dio
        gs_str_motor_1.port gs_str_motor_1.pin_num2 = DIO_PIN_LOW_LEVEL ∧
      pin_level (car_command_call car_command.CAR_STOP x.app.duty_cycle c).2.pwm.dio
        gs_str_motor_2.port gs_str_motor_2.pin_num1 = DIO_PIN_LOW_LEVEL ∧
      pin_level (car_command_call car_command.CAR_STOP x.app.duty_cycle c).2.pwm.dio
        gs_str_motor_2.port gs_str_motor_2.pin_num2 = DIO_PIN_LOW_LEVEL ∧
      pin_level (car_command_call car_command.CAR_STOP x.app.duty_cycle c).2.pwm.dio
        PORTA PIN2 = DIO_PIN_LOW_LEVEL ∧
      ((car_command_call car_command.CAR_STOP x.app.duty_cycle c).2.pwm.mem 0).pwm_state
        = PWM_OFF ∧
      ((car_command_call car_command.CAR_STOP x.app.duty_cycle c).2.pwm.mem 0).pwm_tick_ss
        = 0) := by
  have heq := APP_vidStart_stopped_eq env fuel x h1 h2
  refine ⟨?_, ?_, car_command_call_stop x.app.duty_cycle c hport hpin⟩
  · intro x' hx
    rw [heq, Option.map_eq_some'] at hx
    obtain ⟨a, ha, rfl⟩ := hx
    have hfr := APP_wait_while_stopped_frame env fuel _ a ha
    refine ⟨by rw [hfr]; rfl, rfl, by rw [hfr]; rfl, by rw [hfr]; rfl, by rw [hfr]; rfl,
      by rw [hfr]; rfl, by rw [hfr]; rfl, ?_⟩
    intro env2 fuel2 hs
    simp [APP_vidStart, APP_vidStart_before_loop, app_motor_started, hs, APP_stop_actions]
  · intro hst hne hk
    rw [heq, APP_wait_while_stopped_ends env k fuel _ hst hne hk]
    rfl

/-- C22 at a concrete input: from the initial state, with the motor selection
`EN_MOTOR_STOP` for the first five reads, the call returns at the sixth read
with the stop actions done; and on the car moving forward the `CAR_STOP` call
leaves pin 3 of port A (the first pin of motor 1) LOW. -/
theorem APP_vidStart_stop_branch_witness :
    APP_vidStart env_stopped_then_started 4 AppTopState.init
      = some { APP_stop_actions AppTopState.init with
               app := { (APP_stop_actions AppTopState.init).app with
                        reads := AppTopState.init.app.reads + 2 + 3 + 1 } } ∧
    pin_level (car_command_call car_command.CAR_STOP AppTopState.init.app.duty_cycle
        car_moving_forward).2.pwm.dio gs_str_motor_1.port gs_str_motor_1.pin_num1
      = DIO_PIN_LOW_LEVEL :=
  ⟨(APP_vidStart_stop_branch env_stopped_then_started 4 3 AppTopState.init
      car_moving_forward rfl rfl rfl rfl).2.1 (by decide) (by decide) (by decide),
   (APP_vidStart_stop_branch env_stopped_then_started 4 3 AppTopState.init
      car_moving_forward rfl rfl rfl rfl).2.2.2.1⟩

/-! ### Navigation: the rotation counter at the head of the control loop -/

/-- The initial state satisfies `APP_rotation_inv`. -/
theorem APP_rotation_inv_init : APP_rotation_inv AppState.init := by
  refine ⟨rfl, by decide, ?_⟩
  constructor
  · intro e
    cases e
  · intro e
    cases e

/-- Any number of iterations of the control loop preserves `APP_rotation_inv`. -/
theorem APP_vidStart_loop_inv (env : AppEnv) (fuel : Nat) :
    ∀ (n : Nat) (st st' : AppState),
      APP_rotation_inv st → APP_vidStart_loop env fuel n st = some st' →
      APP_rotation_inv st' := by
  intro n
  induction n with
  | zero =>
    intro st st' hinv h
    simp only [APP_vidStart_loop] at h
    cases h
    exact hinv
  | succ n ih =>
    intro st st' hinv h
    have hm : APP_rotation_inv (app_motor_started env st).2 := hinv
    simp only [APP_vidStart_loop] at h
    split_ifs at h with hs
    · rw [Option.bind_eq_some] at h
      obtain ⟨st1, hb, h⟩ := h
      exact ih st1 st' (APP_vidStart_loop_body_inv env fuel _ st1 hm hb) h
    · cases h
      exact hm

/-- The control loop run until it is left preserves `APP_rotation_inv`. -/
theorem APP_vidStart_while_inv (env : AppEnv) (fuel : Nat) :
    ∀ (n : Nat) (st st' : AppState),
      APP_rotation_inv st → APP_vidStart_while env fuel n st = some st' →
      APP_rotation_inv st' := by
  intro n
  induction n with
  | zero =>
    intro st st' _ h
    simp [APP_vidStart_while] at h
  | succ n ih =>
    intro st st' hinv h
    have hm : APP_rotation_inv (app_motor_started env st).2 := hinv
    simp only [APP_vidStart_while] at h
    split_ifs at h with hs
    · rw [Option.bind_eq_some] at h
      obtain ⟨st1, hb, h⟩ := h
      exact ih st1 st' (APP_vidStart_loop_body_inv env fuel _ st1 hm hb) h
    · cases h
      exact hm

/-- The debounce loop of `BTN_get_state` changes nothing but the number of
reads. -/
theorem BTN_get_state_loop_frame (env : AppEnv) :
    ∀ (n cnt : Nat) (st : AppState),
      (BTN_get_state_loop env n cnt st).2
        = { st with reads := (BTN_get_state_loop env n cnt st).2.reads } := by
  intro n
  induction n with
  | zero => intro cnt st; rfl
  | succ n ih =>
    intro cnt st
    simp only [BTN_get_state_loop, app_read_button]
    split_ifs
    · exact ih _ { st with reads := st.reads + 1 }
    · exact ih _ { st with reads := st.reads + 1 }

/-- The function `BTN_get_state` changes nothing but the number of reads. -/
theorem BTN_get_state_frame (env : AppEnv) (st : AppState) :
    (BTN_get_state env st).2 = { st with reads := (BTN_get_state env st).2.reads } := by
  simp only [BTN_get_state, app_read_button]
  split_ifs
  · exact BTN_get_state_loop_frame env _ _ { st with reads := st.reads + 1 }
  · exact BTN_get_state_loop_frame env _ _ { st with reads := st.reads + 1 }
  · rfl

/-- A property of the state that does not depend on the timeout handle, the
number of reads or the chosen direction is preserved by the direction-selection
loop. -/
theorem APP_updateDirection_loop_preserves (P : AppState → Prop)
    (hframe : ∀ (s : AppState) (t : TimingState) (n d : Nat),
      P s → P { s with timing := t, reads := n, u8_g_dirStateCounter := d })
    (env : AppEnv) :
    ∀ (fuel : Nat) (x y : AppTopState),
      P x.app → APP_updateDirection_loop env fuel x = some y → P y.app := by
  intro fuel
  induction fuel with
  | zero =>
    intro x y _ h
    simp [APP_updateDirection_loop] at h
  | succ fuel ih =>
    intro x y hP h
    have hr : P (app_timing_time_out env APP_WAIT_TO_SET_DIR_TIME x.app).2 :=
      hframe x.app _ _ x.app.u8_g_dirStateCounter hP
    have hb : ∀ d : Nat, P { (BTN_get_state env
        (app_timing_time_out env APP_WAIT_TO_SET_DIR_TIME x.app).2).2 with
        u8_g_dirStateCounter := d } := by
      intro d
      have e : ({ (BTN_get_state env
            (app_timing_time_out env APP_WAIT_TO_SET_DIR_TIME x.app).2).2 with
            u8_g_dirStateCounter := d } : AppState)
          = { (app_timing_time_out env APP_WAIT_TO_SET_DIR_TIME x.app).2 with
              timing := (app_timing_time_out env APP_WAIT_TO_SET_DIR_TIME x.app).2.timing
              reads := (BTN_get_state env
                (app_timing_time_out env APP_WAIT_TO_SET_DIR_TIME x.app).2).2.reads
              u8_g_dirStateCounter := d } :=
        congrArg (fun s : AppState => { s with u8_g_dirStateCounter := d })
          (BTN_get_state_frame env (app_timing_time_out env APP_WAIT_TO_SET_DIR_TIME x.app).2)
      exact (congrArg P e).mpr
        (hframe (app_timing_time_out env APP_WAIT_TO_SET_DIR_TIME x.app).2 _ _ d hr)
    have hb0 : P (BTN_get_state env
        (app_timing_time_out env APP_WAIT_TO_SET_DIR_TIME x.app).2).2 :=
      hb (BTN_get_state env
        (app_timing_time_out env APP_WAIT_TO_SET_DIR_TIME x.app).2).2.u8_g_dirStateCounter
    simp only [APP_updateDirection_loop] at h
    split_ifs at h
    · exact ih _ y (hb MOTOR_TURN_RIGHT) h
    · exact ih _ y (hb MOTOR_TURN_LEFT) h
    · exact ih _ y hb0 h
    · cases h
      exact hr

/-- A property of the state that does not depend on the timeout handle or the
number of reads is preserved by `delay_s`. -/
theorem delay_s_preserves (P : AppState → Prop)
    (hframe : ∀ (s : AppState) (t : TimingState) (n d : Nat),
      P s → P { s with timing := t, reads := n, u8_g_dirStateCounter := d })
    (env : AppEnv) (d : Nat) :
    ∀ (fuel : Nat) (st st' : AppState),
      P st → delay_s env d fuel st = some st' → P st' := by
  intro fuel
  induction fuel with
  | zero =>
    intro st st' _ h
    simp [delay_s] at h
  | succ fuel ih =>
    intro st st' hP h
    have hr : P (app_timing_time_out env d st).2 := hframe st _ _ st.u8_g_dirStateCounter hP
    simp only [delay_s] at h
    split_ifs at h
    · exact ih _ st' hr h
    · cases h
      exact hr

/-- Such a property is preserved by the part of the start branch that precedes
the control loop. -/
theorem APP_vidStart_before_loop_preserves (P : AppState → Prop)
    (hframe : ∀ (s : AppState) (t : TimingState) (n d : Nat),
      P s → P { s with timing := t, reads := n, u8_g_dirStateCounter := d })
    (env : AppEnv) (fuel : Nat) (x y : AppTopState)
    (hP : P x.app) (h : APP_vidStart_before_loop env fuel x = some y) : P y.app := by
  simp only [APP_vidStart_before_loop] at h
  split_ifs at h
  · rw [Option.map_eq_some'] at h
    obtain ⟨y0, hy0, rfl⟩ := h
    simp only [APP_updateDirection] at hy0
    rw [Option.bind_eq_some] at hy0
    obtain ⟨y1, h1, h2⟩ := hy0
    rw [Option.map_eq_some'] at h2
    obtain ⟨a, ha, rfl⟩ := h2
    exact delay_s_preserves P hframe env 2 fuel y1.app a
      (APP_updateDirection_loop_preserves P hframe env fuel x y1 hP h1) ha
  · cases h
    exact hP

/-- Such a property, when one iteration of the control loop preserves it, is
preserved by the control loop run until it is left. -/
theorem APP_vidStart_while_preserves (P : AppState → Prop)
    (hframe : ∀ (s : AppState) (t : TimingState) (n d : Nat),
      P s → P { s with timing := t, reads := n, u8_g_dirStateCounter := d })
    (env : AppEnv) (fuel : Nat)
    (hbody : ∀ st st' : AppState, P st → APP_vidStart_loop_body env fuel st = some st' → P st') :
    ∀ (n : Nat) (st st' : AppState),
      P st → APP_vidStart_while env fuel n st = some st' → P st' := by
  intro n
  induction n with
  | zero =>
    intro st st' _ h
    simp [APP_vidStart_while] at h
  | succ n ih =>
    intro st st' hP h
    have hm : P (app_motor_started env st).2 :=
      hframe st st.timing _ st.u8_g_dirStateCounter hP
    simp only [APP_vidStart_while] at h
    split_ifs at h with hs
    · rw [Option.bind_eq_some] at h
      obtain ⟨st1, hb, h⟩ := h
      exact ih st1 st' (hbody _ st1 hm hb) h
    · cases h
      exact hm

/-- Such a property, when it is also preserved by recording a `CAR_STOP` call,
is preserved by a whole call of `APP_vidStart`, through either branch. -/
theorem APP_vidStart_preserves (P : AppState → Prop)
    (hframe : ∀ (s : AppState) (t : TimingState) (n d : Nat),
      P s → P { s with timing := t, reads := n, u8_g_dirStateCounter := d })
    (hstop : ∀ s : AppState, P s → P (app_car CAR_STOP s))
    (env : AppEnv) (fuel : Nat)
    (hbody : ∀ st st' : AppState, P st → APP_vidStart_loop_body env fuel st = some st' → P st')
    (x x' : AppTopState) (hP : P x.app) (h : APP_vidStart env fuel x = some x') :
    P x'.app := by
  have hm : P (app_motor_started env x.app).2 :=
    hframe x.app x.app.timing _ x.app.u8_g_dirStateCounter hP
  simp only [APP_vidStart] at h
  split_ifs at h with hs hstopped
  · rw [Option.bind_eq_some] at h
    obtain ⟨y, hy, h⟩ := h
    rw [Option.map_eq_some'] at h
    obtain ⟨a, ha, rfl⟩ := h
    have hy1 : P y.app := APP_vidStart_before_loop_preserves P hframe env fuel _ y
      (show P ({ x with app := (app_motor_started env x.app).2 } : AppTopState).app from hm) hy
    exact APP_vidStart_while_preserves P hframe env fuel hbody fuel y.app a hy1 ha
  · rw [Option.map_eq_some'] at h
    obtain ⟨a, ha, rfl⟩ := h
    have hfr := APP_wait_while_stopped_frame env fuel _ a ha
    show P a
    rw [hfr]
    have h2 : P (app_car CAR_STOP
        { (app_motor_started env x.app).2 with
          reads := (app_motor_started env x.app).2.reads + 1 }) :=
      hstop _ (hframe _ (app_motor_started env x.app).2.timing _
        (app_motor_started env x.app).2.u8_g_dirStateCounter hm)
    exact hframe (app_car CAR_STOP
        { (app_motor_started env x.app).2 with
          reads := (app_motor_started env x.app).2.reads + 1 })
      (timing_break_time_out x.app.timing) a.reads x.app.u8_g_dirStateCounter h2
  · cases h
    exact hframe _ (app_motor_started env x.app).2.timing _
      (app_motor_started env x.app).2.u8_g_dirStateCounter hm

/-- Such a property is preserved by any number of successive calls of
`APP_vidStart`. -/
theorem APP_vidStart_calls_preserves (P : AppState → Prop)
    (hframe : ∀ (s : AppState) (t : TimingState) (n d : Nat),
      P s → P { s with timing := t, reads := n, u8_g_dirStateCounter := d })
    (hstop : ∀ s : AppState, P s → P (app_car CAR_STOP s))
    (env : AppEnv) (fuel : Nat)
    (hbody : ∀ st st' : AppState, P st → APP_vidStart_loop_body env fuel st = some st' → P st') :
    ∀ (k : Nat) (x x' : AppTopState),
      P x.app → APP_vidStart_calls env fuel k x = some x' → P x'.app := by
  intro k
  induction k with
  | zero =>
    intro x x' hP h
    simp only [APP_vidStart_calls] at h
    cases h
    exact hP
  | succ k ih =>
    intro x x' hP h
    simp only [APP_vidStart_calls] at h
    rw [Option.bind_eq_some] at h
    obtain ⟨x1, h1, h2⟩ := h
    exact ih x1 x' (APP_vidStart_preserves P hframe hstop env fuel hbody x x1 hP h1) h2

/-- The relation `APP_rotation_inv` does not depend on the timeout handle, the
number of reads or the chosen direction, and recording a `CAR_STOP` call
preserves it. -/
theorem APP_rotation_inv_frame :
    (∀ (s : AppState) (t : TimingState) (n d : Nat), APP_rotation_inv s →
      APP_rotation_inv { s with timing := t, reads := n, u8_g_dirStateCounter := d }) ∧
    (∀ s : AppState, APP_rotation_inv s → APP_rotation_inv (app_car CAR_STOP s)) :=
  ⟨fun _ _ _ _ h => h, fun _ h => h⟩

/-- A whole call of `APP_vidStart`, through either branch, preserves
`APP_rotation_inv`. -/
theorem APP_vidStart_inv (env : AppEnv) (fuel : Nat) (x x' : AppTopState)
    (hinv : APP_rotation_inv x.app) (h : APP_vidStart env fuel x = some x') :
    APP_rotation_inv x'.app :=
  APP_vidStart_preserves APP_rotation_inv APP_rotation_inv_frame.1 APP_rotation_inv_frame.2
    env fuel (APP_vidStart_loop_body_inv env fuel) x x' hinv h

/-- The part of the start branch before the control loop preserves
`APP_rotation_inv`. -/
theorem APP_vidStart_before_loop_inv (env : AppEnv) (fuel : Nat) (x y : AppTopState)
    (hinv : APP_rotation_inv x.app) (h : APP_vidStart_before_loop env fuel x = some y) :
    APP_rotation_inv y.app :=
  APP_vidStart_before_loop_preserves APP_rotation_inv APP_rotation_inv_frame.1 env fuel x y
    hinv h

/-- Successive calls of `APP_vidStart` preserve `APP_rotation_inv`. -/
theorem APP_vidStart_calls_inv (env : AppEnv) (fuel : Nat) :
    ∀ (k : Nat) (x x' : AppTopState),
      APP_rotation_inv x.app → APP_vidStart_calls env fuel k x = some x' →
      APP_rotation_inv x'.app :=
  APP_vidStart_calls_preserves APP_rotation_inv APP_rotation_inv_frame.1
    APP_rotation_inv_frame.2 env fuel (APP_vidStart_loop_body_inv env fuel)

/-- C28: at the head of every iteration of the control loop of `APP_vidStart`,
in a call made after any number of earlier calls from the initial state and
under any readings and stop/start events (`env`),
`1 ≤ gs_u8_rotate_counter ≤ APP_MAX_CAR_ROTATE`, and the counter equals
`APP_MAX_CAR_ROTATE` exactly when `en_Dist_states` is `OBSTACLE_HOLD_MOVING`.
Hence in any other state the head of the loop takes a sample, and the guard
skips the sample only in `OBSTACLE_HOLD_MOVING`. -/
theorem APP_rotate_counter_at_loop_head (env : AppEnv) (fuel k n : Nat)
    (x y : AppTopState) (st : AppState)
    (hcalls : APP_vidStart_calls env fuel k AppTopState.init = some x)
    (_hstart : (app_motor_started env x.app).1 = true)
    (hentry : APP_vidStart_before_loop env fuel
      { x with app := (app_motor_started env x.app).2 } = some y)
    (hloop : APP_vidStart_loop env fuel n y.app = some st) :
    1 ≤ st.gs_u8_rotate_counter ∧
    st.gs_u8_rotate_counter ≤ APP_MAX_CAR_ROTATE ∧
    (st.gs_u8_rotate_counter = APP_MAX_CAR_ROTATE ↔
      st.en_Dist_states = OBSTACLE_HOLD_MOVING) ∧
    (st.en_Dist_states ≠ OBSTACLE_HOLD_MOVING →
      APP_loop_head env st = app_sample env loop_head st) ∧
    (APP_loop_head env st = st → st.en_Dist_states = OBSTACLE_HOLD_MOVING) := by
  have i0 : APP_rotation_inv x.app :=
    APP_vidStart_calls_inv env fuel k _ x APP_rotation_inv_init hcalls
  have i1 : APP_rotation_inv y.app :=
    APP_vidStart_before_loop_inv env fuel _ y (show APP_rotation_inv
      ({ x with app := (app_motor_started env x.app).2 } : AppTopState).app from i0) hentry
  obtain ⟨hc, hle, hh⟩ := APP_vidStart_loop_inv env fuel n y.app st i1 hloop
  have e4 : APP_MAX_CAR_ROTATE - 1 = 4 := rfl
  have e5 : APP_MAX_CAR_ROTATE = 5 := rfl
  rw [e4] at hle hh
  rw [e5]
  refine ⟨by omega, by omega, ⟨fun h => hh.mpr (by omega), fun h => ?_⟩, fun hne => ?_,
    fun hfix => ?_⟩
  · have := hh.mp h
    omega
  · have hlt : st.gs_u8_rotate_counter < APP_MAX_CAR_ROTATE := by
      rw [e5]
      by_contra hge
      exact hne (hh.mpr (by omega))
    simp only [APP_loop_head, if_pos hlt]
  · by_contra hne
    have hlt : st.gs_u8_rotate_counter < APP_MAX_CAR_ROTATE := by
      rw [e5]
      by_contra hge
      exact hne (hh.mpr (by omega))
    simp only [APP_loop_head, if_pos hlt] at hfix
    have hr := congrArg AppState.reads hfix
    simp [app_sample] at hr

/-- C28 at a concrete run: a first call finds the motor stopped, the second
call selects the direction and enters the control loop; with every reading at
25 cm the head of the fifth iteration is reached in `OBSTACLE_HOLD_MOVING`,
and there the counter is within its bounds and equal to `APP_MAX_CAR_ROTATE`. -/
theorem APP_rotate_counter_at_loop_head_witness :
    ∃ (x y : AppTopState) (st : AppState),
      APP_vidStart_calls env_stopped_then_started 10 1 AppTopState.init = some x ∧
      (app_motor_started env_stopped_then_started x.app).1 = true ∧
      APP_vidStart_before_loop env_stopped_then_started 10
        { x with app := (app_motor_started env_stopped_then_started x.app).2 } = some y ∧
      APP_vidStart_loop env_stopped_then_started 10 4 y.app = some st ∧
      st.en_Dist_states = OBSTACLE_HOLD_MOVING ∧
      1 ≤ st.gs_u8_rotate_counter ∧
      st.gs_u8_rotate_counter ≤ APP_MAX_CAR_ROTATE ∧
      (st.gs_u8_rotate_counter = APP_MAX_CAR_ROTATE ↔
        st.en_Dist_states = OBSTACLE_HOLD_MOVING) := by
  have h : ((APP_vidStart_calls env_stopped_then_started 10 1 AppTopState.init).bind
      fun x => (APP_vidStart_before_loop env_stopped_then_started 10
        { x with app := (app_motor_started env_stopped_then_started x.app).2 }).bind
        fun y => (APP_vidStart_loop env_stopped_then_started 10 4 y.app).map
          fun st => ((app_motor_started env_stopped_then_started x.app).1,
            st.en_Dist_states)) = some (true, OBSTACLE_HOLD_MOVING) := by
    decide
  rw [Option.bind_eq_some] at h
  obtain ⟨x, hx, h⟩ := h
  rw [Option.bind_eq_some] at h
  obtain ⟨y, hy, h⟩ := h
  rw [Option.map_eq_some'] at h
  obtain ⟨st, hst, h⟩ := h
  simp only [Prod.mk.injEq] at h
  have hthm := APP_rotate_counter_at_loop_head env_stopped_then_started 10 1 4 x y st
    hx h.1 hy hst
  exact ⟨x, y, st, hx, h.1, hy, hst, h.2, hthm.1, hthm.2.1, hthm.2.2.1⟩

/-! ### Navigation: the hold, across stops and restarts -/

/-- The relation `APP_hold_inv` does not depend on the timeout handle, the
number of reads or the chosen direction, and recording a `CAR_STOP` call
preserves it. -/
theorem APP_hold_inv_frame :
    (∀ (s : AppState) (t : TimingState) (n d : Nat), APP_hold_inv s →
      APP_hold_inv { s with timing := t, reads := n, u8_g_dirStateCounter := d }) ∧
    (∀ s : AppState, APP_hold_inv s → APP_hold_inv (app_car CAR_STOP s)) :=
  ⟨fun _ _ _ _ h => h, fun _ h => ⟨h.1, fun _ => rfl⟩⟩

/-- One iteration of the control loop preserves `APP_hold_inv`. -/
theorem APP_vidStart_loop_body_hold_inv (env : AppEnv) (fuel : Nat) (st st' : AppState)
    (hinv : APP_hold_inv st) (h : APP_vidStart_loop_body env fuel st = some st') :
    APP_hold_inv st' :=
  ⟨APP_vidStart_loop_body_inv env fuel st st' hinv.1 h,
    APP_vidStart_loop_body_hold_after_stop env fuel st st' h⟩

/-- Any number of iterations of the control loop preserves `APP_hold_inv`. -/
theorem APP_vidStart_loop_hold_inv (env : AppEnv) (fuel : Nat) :
    ∀ (n : Nat) (st st' : AppState),
      APP_hold_inv st → APP_vidStart_loop env fuel n st = some st' → APP_hold_inv st' := by
  intro n
  induction n with
  | zero =>
    intro st st' hinv h
    simp only [APP_vidStart_loop] at h
    cases h
    exact hinv
  | succ n ih =>
    intro st st' hinv h
    have hm : APP_hold_inv (app_motor_started env st).2 := hinv
    simp only [APP_vidStart_loop] at h
    split_ifs at h with hs
    · rw [Option.bind_eq_some] at h
      obtain ⟨st1, hb, h⟩ := h
      exact ih st1 st' (APP_vidStart_loop_body_hold_inv env fuel _ st1 hm hb) h
    · cases h
      exact hm

/-- C15 (amended): the relation `APP_hold_inv` (if the state is
`OBSTACLE_HOLD_MOVING` then the most recent motion command is `CAR_STOP`) holds
initially and is preserved by every iteration of the control loop, by the
direction selection and by every call of `APP_vidStart` through either branch;
so it holds at the head of every iteration of the control loop in a call made
after any number of earlier calls, also when `OBSTACLE_HOLD_MOVING` was set
before a stop and is handled after the restart.  Whenever the control loop
handles `OBSTACLE_HOLD_MOVING` in such a state, the most recent motion command
is `CAR_STOP` and the iteration issues no motion command: all it adds to the
record of actions is the sample taken when the hold wait ends; after it the
rotation counter is 1 (its initial value, `U8_ONE_VALUE`), the state is the
band of that sample, which is never `OBSTACLE_HOLD_MOVING`, and the run of
`OBSTACLE_30_20` re-samples is empty, so that a new run is needed for another
hold. -/
theorem APP_hold_handling :
    APP_hold_inv AppState.init ∧
    (∀ (env : AppEnv) (fuel n : Nat) (st st' : AppState),
      APP_hold_inv st → APP_vidStart_loop env fuel n st = some st' → APP_hold_inv st') ∧
    (∀ (env : AppEnv) (fuel : Nat) (x x' : AppTopState),
      APP_hold_inv x.app → APP_vidStart env fuel x = some x' → APP_hold_inv x'.app) ∧
    (∀ (env : AppEnv) (fuel : Nat) (x y : AppTopState),
      APP_hold_inv x.app → APP_vidStart_before_loop env fuel x = some y →
      APP_hold_inv y.app) ∧
    (∀ (env : AppEnv) (fuel k n : Nat) (x y : AppTopState) (st : AppState),
      APP_vidStart_calls env fuel k AppTopState.init = some x →
      APP_vidStart_before_loop env fuel
        { x with app := (app_motor_started env x.app).2 } = some y →
      APP_vidStart_loop env fuel n y.app = some st →
      APP_hold_inv st ∧
      (st.en_Dist_states = OBSTACLE_HOLD_MOVING →
        last_motion_command st.trace = some CAR_STOP)) ∧
    (∀ (env : AppEnv) (fuel : Nat) (st st' : AppState),
      APP_hold_inv st → st.en_Dist_states = OBSTACLE_HOLD_MOVING →
      APP_vidStart_loop_body env fuel st = some st' →
      last_motion_command st.trace = some CAR_STOP ∧
      (∃ r : Nat,
        st'.trace = app_event.sample after_hold (APP_make_decision (env.distance r)).2
          :: st.trace ∧
        st'.en_Dist_states = (APP_make_decision (env.distance r)).2) ∧
      st'.en_Dist_states ≠ OBSTACLE_HOLD_MOVING ∧
      st'.gs_u8_rotate_counter = 1 ∧
      mid_resample_run st'.trace = 0) := by
  have hinit : APP_hold_inv AppState.init := by
    refine ⟨APP_rotation_inv_init, ?_⟩
    intro e
    cases e
  refine ⟨hinit, fun env fuel => APP_vidStart_loop_hold_inv env fuel, ?_, ?_, ?_, ?_⟩
  · intro env fuel x x' hinv h
    exact APP_vidStart_preserves APP_hold_inv APP_hold_inv_frame.1 APP_hold_inv_frame.2
      env fuel (APP_vidStart_loop_body_hold_inv env fuel) x x' hinv h
  · intro env fuel x y hinv h
    exact APP_vidStart_before_loop_preserves APP_hold_inv APP_hold_inv_frame.1 env fuel x y
      hinv h
  · intro env fuel k n x y st hcalls hentry hloop
    have i0 : APP_hold_inv x.app :=
      APP_vidStart_calls_preserves APP_hold_inv APP_hold_inv_frame.1 APP_hold_inv_frame.2
        env fuel (APP_vidStart_loop_body_hold_inv env fuel) k _ x hinit hcalls
    have i1 : APP_hold_inv y.app :=
      APP_vidStart_before_loop_preserves APP_hold_inv APP_hold_inv_frame.1 env fuel _ y
        (show APP_hold_inv
          ({ x with app := (app_motor_started env x.app).2 } : AppTopState).app from i0)
        hentry
    have i2 := APP_vidStart_loop_hold_inv env fuel n y.app st i1 hloop
    exact ⟨i2, i2.2⟩
  · intro env fuel st st' hinv hhold h
    obtain ⟨⟨hc, _, hh⟩, hstop⟩ := hinv
    have hrun : mid_resample_run st.trace = 4 := hh.mp hhold
    have hgate : ¬ st.gs_u8_rotate_counter < APP_MAX_CAR_ROTATE := by
      rw [hc, hrun]
      decide
    simp only [APP_vidStart_loop_body, APP_loop_head, hgate, if_false, hhold] at h
    simp only [reduceCtorEq, if_false, if_true] at h
    rw [Option.bind_eq_some] at h
    obtain ⟨st2, hl, h⟩ := h
    cases h
    have htr : st2.trace = st.trace :=
      APP_timed_loop_preserves (fun s => s.trace = st.trace) env _ _ (fun s hp => hp)
        (fun s t n hp => hp) fuel st st2 rfl hl
    refine ⟨hstop hhold, ⟨st2.reads, ?_, rfl⟩, APP_make_decision_ne_hold _, rfl, rfl⟩
    simp only [app_sample, htr]

/-- Witness for C15 (amended): with every reading at 25 cm and the motor
stopped right after the fourth post-rotation re-sample has set
`OBSTACLE_HOLD_MOVING`, the first call leaves the control loop and the second
takes the stop branch, both with the state still `OBSTACLE_HOLD_MOVING`; the
third call selects the direction and enters the control loop in that state
with `CAR_STOP` as the most recent motion command, and the iteration that
handles the hold ends with the counter at 1. -/
theorem APP_hold_handling_witness :
    ∃ (x y : AppTopState) (st' : AppState),
      APP_vidStart_calls env_stop_when_hold 10 2 AppTopState.init = some x ∧
      x.app.en_Dist_states = OBSTACLE_HOLD_MOVING ∧
      APP_vidStart_before_loop env_stop_when_hold 10
        { x with app := (app_motor_started env_stop_when_hold x.app).2 } = some y ∧
      y.app.en_Dist_states = OBSTACLE_HOLD_MOVING ∧
      APP_vidStart_loop_body env_stop_when_hold 10
        (app_motor_started env_stop_when_hold y.app).2 = some st' ∧
      last_motion_command y.app.trace = some CAR_STOP ∧
      st'.gs_u8_rotate_counter = 1 := by
  have h : ((APP_vidStart_calls env_stop_when_hold 10 2 AppTopState.init).bind
      fun x => (APP_vidStart_before_loop env_stop_when_hold 10
        { x with app := (app_motor_started env_stop_when_hold x.app).2 }).bind
        fun y => (APP_vidStart_loop_body env_stop_when_hold 10
          (app_motor_started env_stop_when_hold y.app).2).map
          fun _ => (x.app.en_Dist_states, y.app.en_Dist_states))
        = some (OBSTACLE_HOLD_MOVING, OBSTACLE_HOLD_MOVING) := by
    decide
  rw [Option.bind_eq_some] at h
  obtain ⟨x, hx, h⟩ := h
  rw [Option.bind_eq_some] at h
  obtain ⟨y, hy, h⟩ := h
  rw [Option.map_eq_some'] at h
  obtain ⟨st', hst, h⟩ := h
  simp only [Prod.mk.injEq] at h
  have hinv : APP_hold_inv y.app :=
    (APP_hold_handling.2.2.2.2.1 env_stop_when_hold 10 2 0 x y y.app hx hy rfl).1
  have hres := APP_hold_handling.2.2.2.2.2 env_stop_when_hold 10
    (app_motor_started env_stop_when_hold y.app).2 st' hinv h.2 hst
  exact ⟨x, y, st', hx, h.1, hy, h.2, hst, hres.1, hres.2.2.2.1⟩

end ObstacleCar
